import Mathlib

/-!
# Scheduling units of the Godel scheduler (`pkg/framework/api/unit.go`)

A shallow embedding of the two scheduling-unit implementations, `PodGroupUnit`
and `SinglePodUnit`, and of the operations the unit queue performs on them,
followed by a model of the node-resource fitness evaluator that
`pkg/scheduler/framework/plugins/noderesources/fit_test.go` exercises.

Modelling conventions.

* A Go pointer is modelled by the value it points to; a pointer that the source
  compares with `nil` is an `Option` (`none` is `nil`).  Method arguments of type
  `*QueuedPodInfo` are dereferenced unconditionally by every method, so they are
  modelled as a record; the record's `Pod` field is the pointer that the methods
  test.
* A method with a pointer receiver that mutates the unit is a function returning
  the unit after the call; a method that also returns `error` returns the pair of
  the unit after the call and the error (`none` is the `nil` error).
* A method that dereferences a pointer without a prior `nil` test returns
  `Except Panic _`; `Panic.nilPointerDereference` is the Go run-time panic.
* `map[string]*QueuedPodInfo` is an association list without duplicate keys
  (`AList`).  Go leaves the iteration order of a map unspecified; the order of
  the association list is one such order and no statement below depends on it.
* `int32` and `int` values are integers (`Int`); `time.Time` is an integer
  instant.  `time.Now()` is an explicit argument.
* The cached `unitProperty` field is written only by `GetUnitProperty`, which is
  not modelled, and is left out of the unit records.
-/

namespace Godel

/-- The instant type `time.Time` (and `metav1.Time`, which wraps it). -/
abbrev Time := Int

/-- The Go `error` result: `none` is `nil`, `some msg` an error with that text. -/
abbrev GoError := Option String

/-- Run-time panics of the embedded code. -/
inductive Panic where
  | nilPointerDereference
deriving DecidableEq, Repr

/-- The fields of `v1.Pod` that the unit code reads: `ObjectMeta.Namespace`,
`ObjectMeta.Name`, `ObjectMeta.UID`, `ObjectMeta.Annotations` (a nil-able map),
`Spec.Priority` (a nil-able `int32`) and `ObjectMeta.CreationTimestamp`. -/
structure Pod where
  Namespace : String
  Name : String
  UID : String
  Annotations : Option (List (String × String))
  Priority : Option Int
  CreationTimestamp : Time
deriving DecidableEq, Repr

/-- Modelled from the spec: the declaration of `QueuedPodInfo` is not among the
sources.  The spec describes a queued workload item as a workload item plus an
enqueue timestamp and attempt counters; `unit.go` reads the fields `Pod`
(a nil-able `*v1.Pod`) and `Timestamp`. -/
structure QueuedPodInfo where
  Pod : Option Pod
  Timestamp : Time
  Attempts : Int
deriving DecidableEq, Repr

/-- One term of `PodGroupAffinity.Required` / `.Preferred`. -/
structure PodGroupAffinityTerm where
  TopologyKey : String
deriving DecidableEq, Repr

/-- One configured sort rule of `PodGroupAffinity.SortRules`. -/
structure PodGroupSortRule where
  Resource : String
  Dimension : String
  Order : String
deriving DecidableEq, Repr

/-- The fields of `schedulingv1a1.PodGroupAffinity` read by the unit code. -/
structure PodGroupAffinity where
  Required : List PodGroupAffinityTerm
  Preferred : List PodGroupAffinityTerm
  SortRules : List PodGroupSortRule
deriving DecidableEq, Repr

/-- The type `schedulingv1a1.Affinity`: a nil-able pointer to a `PodGroupAffinity`. -/
structure Affinity where
  PodGroupAffinity : Option PodGroupAffinity
deriving DecidableEq, Repr

/-- The fields of `schedulingv1a1.PodGroupSpec` read by the unit code. -/
structure PodGroupSpec where
  MinMember : Int
  ScheduleTimeoutSeconds : Option Int
  Affinity : Option Affinity
deriving DecidableEq, Repr

/-- The fields of `schedulingv1a1.PodGroup` read by the unit code. -/
structure PodGroup where
  Namespace : String
  Name : String
  Annotations : Option (List (String × String))
  CreationTimestamp : Time
  Spec : PodGroupSpec
deriving DecidableEq, Repr

/-- Modelled from the spec: the constant `PodGroupUnitType` is declared outside the
sources at hand; the spec gives the key of a Group unit as `"group/ns/name"`. -/
def PodGroupUnitType : String := "group"

/-- Modelled from the spec: the constant `SinglePodUnitType` is declared outside the
sources at hand; the spec gives the key of a Single unit as `"single/ns/name"`. -/
def SinglePodUnitType : String := "single"

/-- The Go type `map[string]*QueuedPodInfo`. -/
abbrev PodInfoMap := AList (fun _ : String => QueuedPodInfo)

/-- Modelled from the spec: the struct `UnitAffinityTerm` is declared outside the
sources at hand; `unit.go` builds it from the field `TopologyKey` alone. -/
structure UnitAffinityTerm where
  TopologyKey : String
deriving DecidableEq, Repr

/-- Modelled from the spec: the struct `SortRule` is declared outside the sources at
hand; `unit.go` builds it from the fields `Resource`, `Dimension` and `Order`, each a
conversion of the configured string. -/
structure SortRule where
  Resource : String
  Dimension : String
  Order : String
deriving DecidableEq, Repr

/-- Modelled from the spec: the sort dimension `schedulingv1a1.Capacity` belongs to the
API package, outside the sources at hand; the spec names the default dimension
`Capacity`. -/
def Capacity : String := "Capacity"

/-- Modelled from the spec: the constant `podutil.PodGroupNameAnnotationKey` is declared
outside the sources at hand; the spec lists the annotation key `pod-group-name`. -/
def PodGroupNameAnnotationKey : String := "pod-group-name"

/-- The Go index expression `m[k]` on a `map[string]string`: the stored value, and the
empty string when the map is nil or has no entry for `k`. -/
def mapIndex (m : Option (List (String × String))) (k : String) : String :=
  match m with
  | none => ""
  | some entries => (entries.lookup k).getD ""

/-- Modelled from the spec: the constant `util.DebugModeAnnotationKey` is declared
outside the sources at hand; the spec lists the annotation key `debug-mode`. -/
def DebugModeAnnotationKey : String := "debug-mode"

/-- Modelled from the spec: the constant `util.DebugModeOn` is declared outside the
sources at hand; the spec gives the value `"on"`. -/
def DebugModeOn : String := "on"

/-- The Go conversion `int32(x)` of an `int`: the low 32 bits of `x`, read as a signed
two's-complement number. -/
def toInt32 (x : Int) : Int := (x + 2147483648) % 4294967296 - 2147483648

/-! ## PodGroupUnit -/

/-- The struct `PodGroupUnit`. -/
structure PodGroupUnit where
  key : String
  podGroup : Option PodGroup
  priority : Int
  queuedPodInfoMap : PodInfoMap
  timestamp : Time
deriving DecidableEq

/-- `keyForPodGroupUnit`. -/
def keyForPodGroupUnit (podGroup : Option PodGroup) : String :=
  match podGroup with
  | none => ""
  | some g => PodGroupUnitType ++ "/" ++ g.Namespace ++ "/" ++ g.Name

/-- `NewPodGroupUnit`; `now` is the value of `time.Now()`. -/
def NewPodGroupUnit (podGroup : Option PodGroup) (priority : Int) (now : Time) : PodGroupUnit :=
  { key := keyForPodGroupUnit podGroup
    podGroup := podGroup
    priority := priority
    queuedPodInfoMap := ∅
    timestamp := now }

namespace PodGroupUnit

/-- `PodGroupUnit.GetNamespace`. -/
def GetNamespace (p : PodGroupUnit) : String :=
  match p.podGroup with
  | none => ""
  | some g => g.Namespace

/-- `PodGroupUnit.GetName`. -/
def GetName (p : PodGroupUnit) : String :=
  match p.podGroup with
  | none => ""
  | some g => g.Name

/-- `PodGroupUnit.GetKey`. -/
def GetKey (p : PodGroupUnit) : String := p.key

/-- `PodGroupUnit.NumPods`: `len(p.queuedPodInfoMap)`. -/
def NumPods (p : PodGroupUnit) : Int := (p.queuedPodInfoMap.entries.length : Int)

/-- `PodGroupUnit.ReadyToBePopulated`. -/
def ReadyToBePopulated (p : PodGroupUnit) : Bool :=
  match p.podGroup with
  | none => false
  | some g => decide ((p.queuedPodInfoMap.entries.length : Int) ≥ g.Spec.MinMember)

/-- `PodGroupUnit.GetEnqueuedTimestamp`. -/
def GetEnqueuedTimestamp (p : PodGroupUnit) : Time := p.timestamp

/-- The loop `for _, podInfo := range m { podInfo.Timestamp = ts }`. -/
def setTimestamps (ts : Time) (m : PodInfoMap) : PodInfoMap :=
  ⟨m.entries.map (fun e => ⟨e.1, { e.2 with Timestamp := ts }⟩), by
    have h := m.nodupKeys
    simpa [List.NodupKeys, List.keys, List.map_map, Function.comp] using h⟩

/-- `PodGroupUnit.SetEnqueuedTimeStamp`. -/
def SetEnqueuedTimeStamp (p : PodGroupUnit) (ts : Time) : PodGroupUnit :=
  { p with queuedPodInfoMap := setTimestamps ts p.queuedPodInfoMap, timestamp := ts }

/-- `PodGroupUnit.GetPriority`. -/
def GetPriority (p : PodGroupUnit) : Int := p.priority

/-- `PodGroupUnit.GetPods`: the values of the map, in iteration order. -/
def GetPods (p : PodGroupUnit) : List QueuedPodInfo :=
  p.queuedPodInfoMap.entries.map (fun e => e.2)

/-- `PodGroupUnit.GetPod`. -/
def GetPod (p : PodGroupUnit) (pod : QueuedPodInfo) : Option QueuedPodInfo :=
  match pod.Pod with
  | none => none
  | some v => p.queuedPodInfoMap.lookup v.UID

/-- `PodGroupUnit.AddPod`. -/
def AddPod (p : PodGroupUnit) (pod : QueuedPodInfo) : PodGroupUnit × GoError :=
  match pod.Pod with
  | none => (p, some "invalid pod")
  | some v => ({ p with queuedPodInfoMap := p.queuedPodInfoMap.insert v.UID pod }, none)

/-- `PodGroupUnit.AddPods`. -/
def AddPods (p : PodGroupUnit) (pods : List QueuedPodInfo) : PodGroupUnit × GoError :=
  ({ p with queuedPodInfoMap :=
      pods.foldl (fun m pod =>
        match pod.Pod with
        | none => m
        | some v => m.insert v.UID pod) p.queuedPodInfoMap }, none)

/-- `PodGroupUnit.UpdatePod`. -/
def UpdatePod (p : PodGroupUnit) (pod : QueuedPodInfo) : PodGroupUnit × GoError :=
  match pod.Pod with
  | none => (p, some "invalid pod")
  | some v => ({ p with queuedPodInfoMap := p.queuedPodInfoMap.insert v.UID pod }, none)

/-- `PodGroupUnit.DeletePod`. -/
def DeletePod (p : PodGroupUnit) (pod : QueuedPodInfo) : PodGroupUnit × GoError :=
  match pod.Pod with
  | none => (p, some "invalid pod")
  | some v => ({ p with queuedPodInfoMap := p.queuedPodInfoMap.erase v.UID }, none)

/-- `PodGroupUnit.ResetPods`. -/
def ResetPods (p : PodGroupUnit) : PodGroupUnit :=
  { p with queuedPodInfoMap := ∅ }

/-- `PodGroupUnit.GetTimeoutPeriod`; `p.podGroup` is dereferenced without a test. -/
def GetTimeoutPeriod (p : PodGroupUnit) : Except Panic Int :=
  match p.podGroup with
  | none => .error Panic.nilPointerDereference
  | some g =>
    match g.Spec.ScheduleTimeoutSeconds with
    | none => .ok 300
    | some seconds => .ok seconds

/-- `PodGroupUnit.PodBelongToUnit`; the argument `pod` is dereferenced
unconditionally. -/
def PodBelongToUnit (p : PodGroupUnit) (pod : Pod) : Bool :=
  let name := mapIndex pod.Annotations PodGroupNameAnnotationKey
  if name.length = 0 then false
  else
    match p.podGroup with
    | none => false
    | some g => if g.Name = name ∧ g.Namespace = pod.Namespace then true else false

/-- `PodGroupUnit.GetRequiredAffinity`; `p.podGroup` is dereferenced without a test. -/
def GetRequiredAffinity (p : PodGroupUnit) : Except Panic (List UnitAffinityTerm × GoError) :=
  match p.podGroup with
  | none => .error Panic.nilPointerDereference
  | some g =>
    match g.Spec.Affinity with
    | none => .ok ([], none)
    | some a =>
      match a.PodGroupAffinity with
      | none => .ok ([], none)
      | some affinity =>
        .ok (affinity.Required.foldl (fun terms term =>
          if term.TopologyKey = "" then terms
          else terms ++ [{ TopologyKey := term.TopologyKey }]) [], none)

/-- `PodGroupUnit.GetPreferredAffinity`; `p.podGroup` is dereferenced without a test. -/
def GetPreferredAffinity (p : PodGroupUnit) : Except Panic (List UnitAffinityTerm × GoError) :=
  match p.podGroup with
  | none => .error Panic.nilPointerDereference
  | some g =>
    match g.Spec.Affinity with
    | none => .ok ([], none)
    | some a =>
      match a.PodGroupAffinity with
      | none => .ok ([], none)
      | some affinity =>
        .ok (affinity.Preferred.foldl (fun terms term =>
          if term.TopologyKey = "" then terms
          else terms ++ [{ TopologyKey := term.TopologyKey }]) [], none)

/-- `PodGroupUnit.GetSortRulesForAffinity`; `p.podGroup` is dereferenced without a
test. -/
def GetSortRulesForAffinity (p : PodGroupUnit) : Except Panic (List SortRule × GoError) :=
  match p.podGroup with
  | none => .error Panic.nilPointerDereference
  | some g =>
    match g.Spec.Affinity with
    | none => .ok ([], none)
    | some a =>
      match a.PodGroupAffinity with
      | none => .ok ([], none)
      | some affinity =>
        .ok (affinity.SortRules.foldl (fun rules r =>
          let dimension := if r.Dimension.length = 0 then Capacity else r.Dimension
          rules ++ [{ Resource := r.Resource, Dimension := dimension, Order := r.Order }]) [],
          none)

/-- `PodGroupUnit.ValidatePodCount`; `p.podGroup` is dereferenced without a test and
the count is converted to `int32` before the comparison. -/
def ValidatePodCount (p : PodGroupUnit) (podCount : Int) : Except Panic Bool :=
  match p.podGroup with
  | none => .error Panic.nilPointerDereference
  | some g => .ok (decide (toInt32 podCount ≥ g.Spec.MinMember))

/-- `PodGroupUnit.GetMinMember`. -/
def GetMinMember (p : PodGroupUnit) : Int × GoError :=
  match p.podGroup with
  | none => (-1, some "pod group is nil")
  | some g => (g.Spec.MinMember, none)

/-- `PodGroupUnit.IsDebugModeOn`. -/
def IsDebugModeOn (p : PodGroupUnit) : Bool :=
  match p.podGroup with
  | none => false
  | some g =>
    match g.Annotations with
    | none => false
    | some annotations =>
      match annotations.lookup DebugModeAnnotationKey with
      | none => false
      | some debugMode => debugMode == DebugModeOn

end PodGroupUnit

/-- The calls that the owner of a Group unit makes on it. -/
inductive GroupCall where
  | addPod (pod : QueuedPodInfo)
  | addPods (pods : List QueuedPodInfo)
  | updatePod (pod : QueuedPodInfo)
  | deletePod (pod : QueuedPodInfo)
  | resetPods
  | setEnqueuedTimeStamp (ts : Time)
deriving DecidableEq

/-- The unit after one call (the returned error is dropped). -/
def GroupCall.exec (p : PodGroupUnit) : GroupCall → PodGroupUnit
  | .addPod pod => (p.AddPod pod).1
  | .addPods pods => (p.AddPods pods).1
  | .updatePod pod => (p.UpdatePod pod).1
  | .deletePod pod => (p.DeletePod pod).1
  | .resetPods => p.ResetPods
  | .setEnqueuedTimeStamp ts => p.SetEnqueuedTimeStamp ts

/-- The unit after a sequence of calls, made from left to right. -/
def PodGroupUnit.run (p : PodGroupUnit) (calls : List GroupCall) : PodGroupUnit :=
  calls.foldl GroupCall.exec p

/-! ## SinglePodUnit -/

/-- The struct `SinglePodUnit`. -/
structure SinglePodUnit where
  key : String
  Pod : Option QueuedPodInfo
deriving DecidableEq

/-- `keyForSinglePodUnit`. -/
def keyForSinglePodUnit (pod : Option Pod) : String :=
  match pod with
  | none => ""
  | some v => SinglePodUnitType ++ "/" ++ v.Namespace ++ "/" ++ v.Name

/-- `NewSinglePodUnit`. -/
def NewSinglePodUnit (podInfo : Option QueuedPodInfo) : SinglePodUnit :=
  let key : String :=
    match podInfo with
    | none => ""
    | some q => keyForSinglePodUnit q.Pod
  { Pod := podInfo, key := key }

namespace SinglePodUnit

/-- `SinglePodUnit.GetKey`. -/
def GetKey (s : SinglePodUnit) : String :=
  match s.Pod with
  | none => ""
  | some _ => s.key

/-- `SinglePodUnit.ReadyToBePopulated`. -/
def ReadyToBePopulated (s : SinglePodUnit) : Bool :=
  match s.Pod with
  | none => false
  | some q => q.Pod.isSome

/-- `SinglePodUnit.GetEnqueuedTimestamp`; `now` is the value of `time.Now()`. -/
def GetEnqueuedTimestamp (s : SinglePodUnit) (now : Time) : Time :=
  match s.Pod with
  | none => now
  | some q => q.Timestamp

/-- `SinglePodUnit.SetEnqueuedTimeStamp`. -/
def SetEnqueuedTimeStamp (s : SinglePodUnit) (ts : Time) : SinglePodUnit :=
  match s.Pod with
  | none => s
  | some q => { s with Pod := some { q with Timestamp := ts } }

/-- `SinglePodUnit.GetPods`. -/
def GetPods (s : SinglePodUnit) : List QueuedPodInfo :=
  match s.Pod with
  | none => []
  | some q => [q]

/-- `SinglePodUnit.NumPods`. -/
def NumPods (s : SinglePodUnit) : Int :=
  match s.Pod with
  | none => 0
  | some q => if q.Pod.isSome then 1 else 0

/-- `SinglePodUnit.GetPod`.  The test `s.Pod.Pod.UID != pod.Pod.UID` dereferences
`s.Pod.Pod` after `pod.Pod` and `s.Pod` were found non-nil. -/
def GetPod (s : SinglePodUnit) (pod : QueuedPodInfo) : Except Panic (Option QueuedPodInfo) :=
  match pod.Pod with
  | none => .ok none
  | some v =>
    match s.Pod with
    | none => .ok none
    | some q =>
      match q.Pod with
      | none => .error Panic.nilPointerDereference
      | some held => if held.UID ≠ v.UID then .ok none else .ok (some q)

/-- `SinglePodUnit.AddPod`. -/
def AddPod (s : SinglePodUnit) (pod : QueuedPodInfo) : SinglePodUnit × GoError :=
  match pod.Pod with
  | none => (s, some "invalid pod")
  | some v => ({ Pod := some pod, key := keyForSinglePodUnit (some v) }, none)

/-- `SinglePodUnit.AddPods`. -/
def AddPods (s : SinglePodUnit) (pods : List QueuedPodInfo) : SinglePodUnit × GoError :=
  if pods.length ≠ 1 then (s, some "invalid pods") else (s, none)

/-- `SinglePodUnit.UpdatePod`. -/
def UpdatePod (s : SinglePodUnit) (pod : QueuedPodInfo) : SinglePodUnit × GoError :=
  match pod.Pod with
  | none => (s, some "invalid pod")
  | some v => ({ Pod := some pod, key := keyForSinglePodUnit (some v) }, none)

/-- `SinglePodUnit.DeletePod`. -/
def DeletePod (s : SinglePodUnit) (pod : QueuedPodInfo) : SinglePodUnit × GoError :=
  match pod.Pod with
  | none => (s, some "invalid pod")
  | some _ => ({ s with Pod := none }, none)

/-- `SinglePodUnit.ResetPods`. -/
def ResetPods (s : SinglePodUnit) : SinglePodUnit :=
  { s with Pod := none }

/-- `SinglePodUnit.GetTimeoutPeriod`. -/
def GetTimeoutPeriod (_s : SinglePodUnit) : Int := 0

/-- `SinglePodUnit.GetPriority`. -/
def GetPriority (s : SinglePodUnit) : Int :=
  match s.Pod with
  | none => 100
  | some q =>
    match q.Pod with
    | none => 100
    | some v =>
      match v.Priority with
      | none => 100
      | some priority => priority

/-- `SinglePodUnit.ValidatePodCount`. -/
def ValidatePodCount (_s : SinglePodUnit) (podCnt : Int) : Bool := decide (podCnt > 0)

/-- `SinglePodUnit.PodBelongToUnit`; `s.Pod` and `s.Pod.Pod` are dereferenced without a
test, the argument `pod` as well. -/
def PodBelongToUnit (s : SinglePodUnit) (pod : Godel.Pod) : Except Panic Bool :=
  match s.Pod with
  | none => .error Panic.nilPointerDereference
  | some q =>
    match q.Pod with
    | none => .error Panic.nilPointerDereference
    | some held => .ok (pod.Namespace == held.Namespace && pod.Name == held.Name)

/-- `SinglePodUnit.GetCreationTimestamp`; the result is `nil` when the unit holds no
record, and `s.Pod.Pod` is dereferenced without a test otherwise. -/
def GetCreationTimestamp (s : SinglePodUnit) : Except Panic (Option Time) :=
  match s.Pod with
  | none => .ok none
  | some q =>
    match q.Pod with
    | none => .error Panic.nilPointerDereference
    | some held => .ok (some held.CreationTimestamp)

/-- `SinglePodUnit.GetMinMember`. -/
def GetMinMember (s : SinglePodUnit) : Int × GoError :=
  match s.Pod with
  | none => (-1, some "pod is nil")
  | some _ => (1, none)

/-- `SinglePodUnit.IsDebugModeOn`. -/
def IsDebugModeOn (s : SinglePodUnit) : Bool :=
  match s.Pod with
  | none => false
  | some q =>
    match q.Pod with
    | none => false
    | some held =>
      match held.Annotations with
      | none => false
      | some annotations =>
        match annotations.lookup DebugModeAnnotationKey with
        | none => false
        | some debugMode => debugMode == DebugModeOn

end SinglePodUnit

/-- The calls that the owner of a Single unit makes on it. -/
inductive SingleCall where
  | addPod (pod : QueuedPodInfo)
  | addPods (pods : List QueuedPodInfo)
  | updatePod (pod : QueuedPodInfo)
  | deletePod (pod : QueuedPodInfo)
  | resetPods
  | setEnqueuedTimeStamp (ts : Time)
deriving DecidableEq

/-- The unit after one call (the returned error is dropped). -/
def SingleCall.exec (s : SinglePodUnit) : SingleCall → SinglePodUnit
  | .addPod pod => (s.AddPod pod).1
  | .addPods pods => (s.AddPods pods).1
  | .updatePod pod => (s.UpdatePod pod).1
  | .deletePod pod => (s.DeletePod pod).1
  | .resetPods => s.ResetPods
  | .setEnqueuedTimeStamp ts => s.SetEnqueuedTimeStamp ts

/-- The unit after a sequence of calls, made from left to right. -/
def SinglePodUnit.run (s : SinglePodUnit) (calls : List SingleCall) : SinglePodUnit :=
  calls.foldl SingleCall.exec s

/-- Every member of a Group unit is stored under the UID of its pod. -/
def PodGroupUnit.KeyedByUID (p : PodGroupUnit) : Prop :=
  ∀ e ∈ p.queuedPodInfoMap.entries, ∃ v, e.2.Pod = some v ∧ v.UID = e.1

/-- The record that a Single unit holds, if any, has a pod. -/
def SinglePodUnit.HeldHasPod (s : SinglePodUnit) : Prop :=
  ∀ q, s.Pod = some q → ∃ v, q.Pod = some v

/-- The stored key of a Single unit is the key of the record it holds. -/
def SinglePodUnit.KeyOfHeld (s : SinglePodUnit) : Prop :=
  ∀ q, s.Pod = some q → s.key = keyForSinglePodUnit q.Pod

/-! ## Resource demand and node-resource fitness

The demand calculator `ComputePodResourceRequest`, the fitness evaluator
`FitsRequest`, `validateFitArgs` and the `Filter` entry point of the NodeResourcesFit
plugin are exercised by `fit_test.go` but their code is not among the sources at
hand.  The definitions of this section follow sections 3, 4.1, 4.2 and 4.4 of the
specification, and the literals (resource names, messages, the cycle-state key) are
those of `fit_test.go`.

Quantities are natural numbers: the specified arithmetic is nonnegative and a missing
quantity reads as zero.  The stored quantities are 64-bit integers and addition is
saturating (sections 3 and 9): a sum that would exceed `MaxInt64` is `MaxInt64`.  No
statement below assumes that a given quantity is at most `MaxInt64`; each holds in
particular for the 64-bit ones. -/

/-- Modelled from the spec: the largest value of a stored quantity, `math.MaxInt64`;
the quantities of a resource vector are `int64` (section 9). -/
def MaxInt64 : Nat := 9223372036854775807

/-- Modelled from the spec: the saturating addition of two quantities (sections 3 and
9): their sum, or `MaxInt64` when the sum would exceed it. -/
def satAdd (a b : Nat) : Nat := min (a + b) MaxInt64

/-- Modelled from the spec: the sum of a list of quantities, added one after the other
with the saturating addition. -/
def satSum (l : List Nat) : Nat := l.foldl satAdd 0

/-- Modelled from the spec: the resource vector `framework.Resource` (section 3), with
the field names used by `fit_test.go`.  `ScalarResources` is the map from resource name
to quantity, as an association list read at the first entry of a name; a name without
entry has quantity 0. -/
structure Resource where
  MilliCPU : Nat := 0
  Memory : Nat := 0
  EphemeralStorage : Nat := 0
  AllowedPodNumber : Nat := 0
  ScalarResources : List (String × Nat) := []
deriving DecidableEq, Repr

/-- Modelled from the spec: the quantity of the scalar resource `name` in a resource
vector, under the open-world reading of section 3 (a missing key is 0). -/
def Resource.scalar (r : Resource) (name : String) : Nat :=
  (r.ScalarResources.lookup name).getD 0

/-- Modelled from the spec: two scalar maps combined key by key with `f`; the keys of
the result are the keys of either map. -/
def mergeScalars (f : Nat → Nat → Nat) (a b : List (String × Nat)) : List (String × Nat) :=
  ((a.map Prod.fst ++ b.map Prod.fst).dedup).map
    (fun name => (name, f ((a.lookup name).getD 0) ((b.lookup name).getD 0)))

/-- Modelled from the spec: the componentwise sum of two resource vectors; every
component is added with the saturating addition of sections 3 and 9. -/
def Resource.add (a b : Resource) : Resource :=
  { MilliCPU := satAdd a.MilliCPU b.MilliCPU
    Memory := satAdd a.Memory b.Memory
    EphemeralStorage := satAdd a.EphemeralStorage b.EphemeralStorage
    AllowedPodNumber := satAdd a.AllowedPodNumber b.AllowedPodNumber
    ScalarResources := mergeScalars satAdd a.ScalarResources b.ScalarResources }

/-- Modelled from the spec: the componentwise maximum of two resource vectors. -/
def Resource.componentwiseMax (a b : Resource) : Resource :=
  { MilliCPU := max a.MilliCPU b.MilliCPU
    Memory := max a.Memory b.Memory
    EphemeralStorage := max a.EphemeralStorage b.EphemeralStorage
    AllowedPodNumber := max a.AllowedPodNumber b.AllowedPodNumber
    ScalarResources := mergeScalars (fun x y => max x y) a.ScalarResources b.ScalarResources }

/-- Modelled from the spec: the workload item as the demand calculator reads it
(section 3): its annotations, the requests of its containers and of its init
containers, and its optional overhead. -/
structure Workload where
  Annotations : Option (List (String × String)) := none
  Containers : List Resource := []
  InitContainers : List Resource := []
  Overhead : Option Resource := none
deriving DecidableEq, Repr

/-- Modelled from the spec: the constant `podutil.IgnorePodsLimitAnnotationKey`; the
spec lists the annotation key `ignore-pods-limit`. -/
def IgnorePodsLimitAnnotationKey : String := "ignore-pods-limit"

/-- Modelled from the spec: a workload carries the ignore-pods-limit annotation when
the key is present, with any value (section 6). -/
def Workload.ignoresPodsLimit (w : Workload) : Bool :=
  match w.Annotations with
  | none => false
  | some entries => (entries.lookup IgnorePodsLimitAnnotationKey).isSome

/-- Modelled from the spec: `ComputePodResourceRequest` (section 4.1).
`regular` is the sum over the containers, `init` the componentwise maximum over the
init containers, `overhead` the workload overhead (zero if unset); the demand is
`componentwise_max(regular + overhead, init + overhead)`, and its pod count is 1, or 0
when the workload carries the ignore-pods-limit annotation. -/
def ComputePodResourceRequest (w : Workload) : Resource :=
  let regular := w.Containers.foldl Resource.add {}
  let init := w.InitContainers.foldl Resource.componentwiseMax {}
  let overhead := w.Overhead.getD {}
  let demand := Resource.componentwiseMax (regular.add overhead) (init.add overhead)
  { demand with AllowedPodNumber := if w.ignoresPodsLimit then 0 else 1 }

/-- Modelled from the spec: the node snapshot (section 3) with the workloads resident
on the node. -/
structure NodeInfo where
  Name : String := ""
  Allocatable : Resource := {}
  Capacity : Resource := {}
  Pods : List Workload := []
deriving DecidableEq, Repr

/-- Modelled from the spec: the derived requested vector of a node, the sum of the
demands of its resident workloads (section 3). -/
def NodeInfo.Requested (n : NodeInfo) : Resource :=
  (n.Pods.map ComputePodResourceRequest).foldl Resource.add {}

/-- Modelled from the spec: the Kubernetes resource names `v1.ResourceCPU`,
`v1.ResourceMemory`, `v1.ResourceEphemeralStorage` and `v1.ResourcePods`. -/
def ResourceCPU : String := "cpu"

/-- Modelled from the spec: see `ResourceCPU`. -/
def ResourceMemory : String := "memory"

/-- Modelled from the spec: see `ResourceCPU`. -/
def ResourceEphemeralStorage : String := "ephemeral-storage"

/-- Modelled from the spec: see `ResourceCPU`. -/
def ResourcePods : String := "pods"

/-- Modelled from the spec: the structured failure `InsufficientResource` (section 4.2),
with the field names used by `fit_test.go`. -/
structure InsufficientResource where
  ResourceName : String
  Reason : String
  Requested : Nat
  Used : Nat
  Capacity : Nat
deriving DecidableEq, Repr

/-- Modelled from the spec: the loop `removeInt64Factors(value, 10)` of the quantity
library: while the value is at least 10 and divisible by 10 it is divided by 10; the
result is the remaining value and the number of divisions.  The first argument bounds
the number of rounds; `value` itself is always enough. -/
def removeInt64Factors : Nat → Nat → Nat × Nat
  | 0, value => (value, 0)
  | fuel + 1, value =>
    if value ≥ 10 ∧ value % 10 = 0 then
      ((removeInt64Factors fuel (value / 10)).1, (removeInt64Factors fuel (value / 10)).2 + 1)
    else (value, 0)

/-- Modelled from the spec: the suffix of the format `DecimalSI` for a decimal exponent
that is a multiple of 3, from `n` (nano) to `E` (exa).  An exponent outside the table
has no suffix; none occurs for a 64-bit quantity in units or milli-units. -/
def decimalSuffix (exponent : Int) : String :=
  if exponent = -9 then "n"
  else if exponent = -6 then "u"
  else if exponent = -3 then "m"
  else if exponent = 0 then ""
  else if exponent = 3 then "k"
  else if exponent = 6 then "M"
  else if exponent = 9 then "G"
  else if exponent = 12 then "T"
  else if exponent = 15 then "P"
  else if exponent = 18 then "E"
  else ""

/-- Modelled from the spec: the text of a quantity in a failure message, in milli-units
for CPU and in decimal units otherwise (section 4.2), as the quantity library of
Kubernetes, which is outside the repository, prints `resource.NewMilliQuantity(n,
resource.DecimalSI)` and `resource.NewQuantity(n, resource.DecimalSI)`.  Zero prints as
`0`.  Otherwise the factors of ten are removed from `n` and counted into the decimal
exponent, which starts at -3 for milli-units and at 0 otherwise; the exponent is lowered
to a multiple of 3 by multiplying the number by 10 or 100; the text is the number
followed by the suffix of the exponent.  So 1000 prints as `1k`, 1500 as `1500`, one
milli-unit as `1m` and 1000 milli-units as `1`. -/
def quantityString (milli : Bool) (n : Nat) : String :=
  if n = 0 then "0"
  else
    let amount := (removeInt64Factors n n).1
    let exponent : Int := (if milli then -3 else 0) + ((removeInt64Factors n n).2 : Int)
    if exponent % 3 = 1 then toString (amount * 10) ++ decimalSuffix (exponent - 1)
    else if exponent % 3 = 2 then toString (amount * 100) ++ decimalSuffix (exponent - 2)
    else toString amount ++ decimalSuffix exponent

/-- The helper `getErrReason` of `fit_test.go`: the format
`node(s) could not satisfy %v %v request` applied to the quantity and the resource
name. -/
def getErrReason (request : Nat) (rn : String) : String :=
  "node(s) could not satisfy " ++ quantityString (rn == ResourceCPU) request ++ " " ++ rn
    ++ " request"

/-- Modelled from the spec: check 1 of section 4.2, pod-count admission.  The demand
has `AllowedPodNumber = 1` exactly when the workload does not carry the
ignore-pods-limit annotation (see `ComputePodResourceRequest`). -/
def podCountCheck (D : Resource) (N : NodeInfo) : Option InsufficientResource :=
  if D.AllowedPodNumber = 1 ∧ N.Pods.length ≥ N.Allocatable.AllowedPodNumber then
    some { ResourceName := ResourcePods
           Reason := "node(s) had too many pods"
           Requested := 1
           Used := N.Pods.length
           Capacity := N.Allocatable.AllowedPodNumber }
  else none

/-- Modelled from the spec: one resource check of section 4.2; it fails when
`used + requested > capacity`, the sum being the saturating one, and then reports the
three quantities. -/
def resourceCheck (name : String) (requested used capacity : Nat) :
    Option InsufficientResource :=
  if satAdd used requested > capacity then
    some { ResourceName := name
           Reason := getErrReason requested name
           Requested := requested
           Used := used
           Capacity := capacity }
  else none

/-- Modelled from the spec: the part of a resource name before the first `/`. -/
def prefixBeforeSlash (name : String) : String :=
  String.mk (name.toList.takeWhile (fun c => c != '/'))

/-- Modelled from the spec: a scalar resource is skipped when its name is in the
ignore set or its prefix before `/` is in the set of ignored groups (check 5 of
section 4.2). -/
def isIgnored (ignored groups : List String) (name : String) : Bool :=
  ignored.contains name || groups.contains (prefixBeforeSlash name)

/-- Modelled from the spec: the check of one scalar resource of the demand; the used
and the allocatable quantity of a name unknown to the node are 0. -/
def checkScalar (N : NodeInfo) (ignored groups : List String) (e : String × Nat) :
    Option InsufficientResource :=
  if isIgnored ignored groups e.1 then none
  else resourceCheck e.1 e.2 (N.Requested.scalar e.1) (N.Allocatable.scalar e.1)

/-- Modelled from the spec: the scalar resources of the demand in the order of their
names (the lexicographic order of the characters). -/
def sortedScalars (D : Resource) : List (String × Nat) :=
  D.ScalarResources.insertionSort (fun a b => a.1.toList ≤ b.1.toList)

/-- Modelled from the spec: checks 2 to 5 of section 4.2 in their order: CPU, memory,
ephemeral storage, then the scalar resources of the demand by name; the result is the
failure of the first failing check. -/
def resourceChecks (D : Resource) (N : NodeInfo) (ignored groups : List String) :
    Option InsufficientResource :=
  match resourceCheck ResourceCPU D.MilliCPU N.Requested.MilliCPU N.Allocatable.MilliCPU with
  | some r => some r
  | none =>
    match resourceCheck ResourceMemory D.Memory N.Requested.Memory N.Allocatable.Memory with
    | some r => some r
    | none =>
      match resourceCheck ResourceEphemeralStorage D.EphemeralStorage
          N.Requested.EphemeralStorage N.Allocatable.EphemeralStorage with
      | some r => some r
      | none => (sortedScalars D).findSome? (checkScalar N ignored groups)

/-- Modelled from the spec: the demand asks for no resource at all: CPU, memory and
ephemeral storage are 0 and there is no scalar entry. -/
def Resource.requestsNothing (D : Resource) : Bool :=
  decide (D.MilliCPU = 0 ∧ D.Memory = 0 ∧ D.EphemeralStorage = 0 ∧ D.ScalarResources = [])

/-- Modelled from the spec: `FitsRequest` (section 4.2): `none` is success, otherwise
the failure of the first failing check in the order pod count, CPU, memory, ephemeral
storage, scalar resources by name.  The cases `no resources requested always fits` and
`ignore pods limit` of `fit_test.go` expect success for a workload without requests on
a node whose residents request more than is allocatable, so a demand that asks for no
resource passes once the pod count is admitted. -/
def FitsRequest (D : Resource) (N : NodeInfo) (ignored groups : List String) :
    Option InsufficientResource :=
  match podCountCheck D N with
  | some r => some r
  | none => if D.requestsNothing then none else resourceChecks D N ignored groups

/-- Modelled from the spec: `r` is the report of the first failing check in the fixed
order of section 4.2: pod count, CPU, memory, ephemeral storage, then the scalar
resources by name.  A resource report carries the demand as `Requested`, the node's
requested total as `Used` and the node's allocatable as `Capacity`; a scalar report is
for an entry that is not ignored and falls short, while every scalar entry with a
smaller name is ignored or fits.  The sums are saturating. -/
def FirstFailingCheck (D : Resource) (N : NodeInfo) (ignored groups : List String)
    (r : InsufficientResource) : Prop :=
  let podsFull := D.AllowedPodNumber = 1 ∧ N.Pods.length ≥ N.Allocatable.AllowedPodNumber
  let cpuShort := satAdd N.Requested.MilliCPU D.MilliCPU > N.Allocatable.MilliCPU
  let memoryShort := satAdd N.Requested.Memory D.Memory > N.Allocatable.Memory
  let storageShort :=
    satAdd N.Requested.EphemeralStorage D.EphemeralStorage > N.Allocatable.EphemeralStorage
  (podsFull ∧
    r = { ResourceName := ResourcePods, Reason := "node(s) had too many pods", Requested := 1,
          Used := N.Pods.length, Capacity := N.Allocatable.AllowedPodNumber }) ∨
  (¬ podsFull ∧ cpuShort ∧
    r = { ResourceName := ResourceCPU, Reason := getErrReason D.MilliCPU ResourceCPU,
          Requested := D.MilliCPU, Used := N.Requested.MilliCPU,
          Capacity := N.Allocatable.MilliCPU }) ∨
  (¬ podsFull ∧ ¬ cpuShort ∧ memoryShort ∧
    r = { ResourceName := ResourceMemory, Reason := getErrReason D.Memory ResourceMemory,
          Requested := D.Memory, Used := N.Requested.Memory,
          Capacity := N.Allocatable.Memory }) ∨
  (¬ podsFull ∧ ¬ cpuShort ∧ ¬ memoryShort ∧ storageShort ∧
    r = { ResourceName := ResourceEphemeralStorage,
          Reason := getErrReason D.EphemeralStorage ResourceEphemeralStorage,
          Requested := D.EphemeralStorage, Used := N.Requested.EphemeralStorage,
          Capacity := N.Allocatable.EphemeralStorage }) ∨
  (¬ podsFull ∧ ¬ cpuShort ∧ ¬ memoryShort ∧ ¬ storageShort ∧
    ∃ name q, (name, q) ∈ D.ScalarResources ∧
      isIgnored ignored groups name = false ∧
      satAdd (N.Requested.scalar name) q > N.Allocatable.scalar name ∧
      r = { ResourceName := name, Reason := getErrReason q name, Requested := q,
            Used := N.Requested.scalar name, Capacity := N.Allocatable.scalar name } ∧
      ∀ e ∈ D.ScalarResources, e.1.toList < name.toList →
        isIgnored ignored groups e.1 = true ∨
        satAdd (N.Requested.scalar e.1) e.2 ≤ N.Allocatable.scalar e.1)

/-- The arguments `config.NodeResourcesFitArgs` (`types_pluginargs.go`). -/
structure NodeResourcesFitArgs where
  IgnoredResources : List String := []
  IgnoredResourceGroups : List String := []
deriving DecidableEq, Repr

/-- Modelled from the spec: the segments of a name, separated by `/`. -/
def splitSlash : List Char → List (List Char)
  | [] => [[]]
  | c :: cs =>
    if c = '/' then [] :: splitSlash cs
    else
      match splitSlash cs with
      | [] => [[c]]
      | seg :: rest => (c :: seg) :: rest

/-- Modelled from the spec: the violations of one configured name (section 4.2):
every segment is non-empty, has at most 63 characters and consists of alphanumeric
characters, `.` and `-`; by the case `name has too many slash` of `fit_test.go` a name
has at most one `/`.  The messages are those expected by `TestValidateFitArgs`. -/
def nameErrors (name : String) : List String :=
  let parts := splitSlash name.toList
  if parts.length > 2 then ["a qualified name must consist of alphanumeric characters"]
  else
    (if parts.any (fun seg => seg.isEmpty) then ["name part must be non-empty"] else [])
    ++ (if parts.any (fun seg => decide (seg.length > 63)) then
          ["name part must be no more than 63 characters"] else [])
    ++ (if parts.all (fun seg => seg.all (fun c => c.isAlphanum || c == '.' || c == '-')) then []
        else ["a qualified name must consist of alphanumeric characters"])

/-- Modelled from the spec: the violations of one resource group name: those of a name,
and a group name must not contain `/`. -/
def groupErrors (group : String) : List String :=
  (if '/' ∈ group.toList then ["resource group name can't contain '/'"] else [])
  ++ nameErrors group

/-- Modelled from the spec: `validateFitArgs` (section 4.2); the error is the list of
all violations, `nil` when there is none. -/
def validateFitArgs (args : NodeResourcesFitArgs) : GoError :=
  let errs := args.IgnoredResources.foldr (fun name acc => nameErrors name ++ acc) []
    ++ args.IgnoredResourceGroups.foldr (fun group acc => groupErrors group ++ acc) []
  if errs.isEmpty then none else some (String.intercalate ", " errs)

/-- Modelled from the spec: the status codes of section 4.5. -/
inductive Code where
  | Success
  | Unschedulable
  | UnschedulableAndUnresolvable
  | Error
  | Wait
  | Skip
deriving DecidableEq, Repr

/-- Modelled from the spec: the status returned by a stage (section 4.5); the `nil`
status, `none`, is success. -/
structure Status where
  Code : Code
  Message : String
deriving DecidableEq, Repr

/-- Modelled from the spec: the cycle state (sections 3 and 4.4), a map from key to
payload; the payload kept here is the demand that `PreFilter` stores. -/
abbrev CycleState := List (String × Resource)

/-- Modelled from the spec: the cycle-state key of the fit plugin (section 4.4). -/
def preFilterStateKey : String := "PreFilterNodeResourcesFit"

/-- Modelled from the spec: the NodeResourcesFit plugin, constructed from its
arguments. -/
structure Fit where
  ignoredResources : List String
  ignoredResourceGroups : List String
deriving DecidableEq, Repr

/-- Modelled from the spec: `NewFit`; the arguments are validated at construction time
(section 4.5). -/
def NewFit (args : NodeResourcesFitArgs) : Except String Fit :=
  match validateFitArgs args with
  | some err => .error err
  | none => .ok { ignoredResources := args.IgnoredResources
                  ignoredResourceGroups := args.IgnoredResourceGroups }

/-- Modelled from the spec: `PreFilter` of the fit plugin: it writes the demand of the
workload into the cycle state under `preFilterStateKey` and succeeds. -/
def Fit.PreFilter (_f : Fit) (state : CycleState) (pod : Workload) : CycleState × Option Status :=
  ((preFilterStateKey, ComputePodResourceRequest pod)
    :: state.filter (fun e => e.1 != preFilterStateKey), none)

/-- Modelled from the spec: `Filter` of the fit plugin (sections 4.2, 4.4): a missing
key is an `Error` status with the not-found message of `fit_test.go`; a failure of
`FitsRequest` is an `Unschedulable` status with its reason; success is `nil`. -/
def Fit.Filter (f : Fit) (state : CycleState) (_pod : Workload) (N : NodeInfo) : Option Status :=
  match state.lookup preFilterStateKey with
  | none =>
    some { Code := Code.Error
           Message := "error reading \"PreFilterNodeResourcesFit\" from cycleState: not found" }
  | some D =>
    match FitsRequest D N f.ignoredResources f.ignoredResourceGroups with
    | some r => some { Code := Code.Unschedulable, Message := r.Reason }
    | none => none

/-! ## Sample data -/

/-- A pod `ns/a` with UID `u1`. -/
def samplePodA : Pod :=
  { Namespace := "ns", Name := "a", UID := "u1", Annotations := none, Priority := none,
    CreationTimestamp := 0 }

/-- A pod `ns/b` with UID `u2`. -/
def samplePodB : Pod :=
  { Namespace := "ns", Name := "b", UID := "u2", Annotations := none, Priority := none,
    CreationTimestamp := 0 }

/-- A queued record for `samplePodA`. -/
def sampleInfoA : QueuedPodInfo := { Pod := some samplePodA, Timestamp := 5, Attempts := 0 }

/-- A queued record for `samplePodB`. -/
def sampleInfoB : QueuedPodInfo := { Pod := some samplePodB, Timestamp := 7, Attempts := 1 }

/-- A group `ns/g` with quorum 2. -/
def sampleGroup : PodGroup :=
  { Namespace := "ns", Name := "g", Annotations := none, CreationTimestamp := 0,
    Spec := { MinMember := 2, ScheduleTimeoutSeconds := none, Affinity := none } }

/-- A pod `ns/c` of priority 7 that carries the group-name annotation `g`. -/
def samplePodC : Pod :=
  { Namespace := "ns", Name := "c", UID := "u3",
    Annotations := some [(PodGroupNameAnnotationKey, "g")], Priority := some 7,
    CreationTimestamp := 0 }

/-- A queued record for `samplePodC`. -/
def sampleInfoC : QueuedPodInfo := { Pod := some samplePodC, Timestamp := 8, Attempts := 0 }

/-- An affinity with a required term without topology key and a sort rule without
dimension. -/
def sampleAffinity : PodGroupAffinity :=
  { Required := [{ TopologyKey := "" }, { TopologyKey := "zone" }, { TopologyKey := "rack" }]
    Preferred := [{ TopologyKey := "rack" }, { TopologyKey := "" }]
    SortRules := [{ Resource := "GPU", Dimension := "", Order := "Ascending" },
                  { Resource := "CPU", Dimension := "Available", Order := "Descending" },
                  { Resource := "Memory", Dimension := "other", Order := "" }] }

/-- The group `ns/g` with `sampleAffinity`. -/
def sampleGroupWithAffinity : PodGroup :=
  { sampleGroup with Spec := { sampleGroup.Spec with
      Affinity := some { PodGroupAffinity := some sampleAffinity } } }

/-- A queued record whose pod is nil. -/
def sampleInfoNoPod : QueuedPodInfo := { Pod := none, Timestamp := 1, Attempts := 0 }

/-- A pod `ns/d` that carries the annotation `debug-mode: on`. -/
def samplePodD : Pod :=
  { Namespace := "ns", Name := "d", UID := "u4",
    Annotations := some [(DebugModeAnnotationKey, "on")], Priority := none,
    CreationTimestamp := 3 }

/-- A queued record for `samplePodD`. -/
def sampleInfoD : QueuedPodInfo := { Pod := some samplePodD, Timestamp := 2, Attempts := 0 }

/-- The helper `newResourcePod` of `fit_test.go`: a workload with one container per
given request. -/
def newResourcePod (usage : List Resource) : Workload := { Containers := usage }

/-- The helper `newResourceInitPod` of `fit_test.go`. -/
def newResourceInitPod (pod : Workload) (usage : List Resource) : Workload :=
  { pod with InitContainers := usage }

/-- The helper `newResourceOverheadPod` of `fit_test.go`. -/
def newResourceOverheadPod (pod : Workload) (overhead : Resource) : Workload :=
  { pod with Overhead := some overhead }

/-- The helper `makeAllocatableResources` of `fit_test.go`; the extended resource is
`example.com/aaa` and the huge-page resource `hugepages-2Mi`. -/
def makeAllocatableResources (milliCPU memory pods extendedA storage hugePageA : Nat) : Resource :=
  { MilliCPU := milliCPU, Memory := memory, AllowedPodNumber := pods,
    EphemeralStorage := storage,
    ScalarResources := [("example.com/aaa", extendedA), ("hugepages-2Mi", hugePageA)] }

/-- The node of `TestEnoughRequests`, with the given resident workloads. -/
def testNode (pods : List Workload) : NodeInfo :=
  { Allocatable := makeAllocatableResources 10 20 32 5 20 5
    Capacity := makeAllocatableResources 10 20 32 5 20 5
    Pods := pods }

/-- The node of `TestNotEnoughRequests`: room for one pod. -/
def fullNode (pods : List Workload) : NodeInfo :=
  { Allocatable := makeAllocatableResources 10 20 1 0 0 0, Pods := pods }

/-- The 32 resident workloads of the cases `exceed pods limit` and `ignore pods limit`. -/
def thirtyTwoPods : List Workload :=
  List.replicate 32 (newResourcePod [{ MilliCPU := 10, Memory := 20 }])

/-- The workload of the case `ignore pods limit`: no container, the annotation with an
empty value. -/
def ignorePodsLimitPod : Workload :=
  { Annotations := some [(IgnorePodsLimitAnnotationKey, "")] }

/-- The table `enoughPodsTests` of `TestEnoughRequests` in `fit_test.go`: the incoming
workload, the node with its residents, the plugin arguments and the expected result of
`FitsRequest` (`none` for `nil`). -/
def enoughPodsTests :
    List (Workload × NodeInfo × NodeResourcesFitArgs × Option InsufficientResource) :=
  [
    (newResourcePod [],
      testNode [newResourcePod [{ MilliCPU := 10, Memory := 20 }]], {},
      none),
    (newResourcePod [{ MilliCPU := 1, Memory := 1 }],
      testNode [newResourcePod [{ MilliCPU := 10, Memory := 20 }]], {},
      some { ResourceName := "cpu", Reason := getErrReason 1 "cpu", Requested := 1, Used := 10, Capacity := 10 }),
    (newResourceInitPod (newResourcePod [{ MilliCPU := 1, Memory := 1 }]) [{ MilliCPU := 3, Memory := 1 }],
      testNode [newResourcePod [{ MilliCPU := 8, Memory := 19 }]], {},
      some { ResourceName := "cpu", Reason := getErrReason 3 "cpu", Requested := 3, Used := 8, Capacity := 10 }),
    (newResourceInitPod (newResourcePod [{ MilliCPU := 1, Memory := 1 }]) [{ MilliCPU := 3, Memory := 1 }, { MilliCPU := 2, Memory := 1 }],
      testNode [newResourcePod [{ MilliCPU := 8, Memory := 19 }]], {},
      some { ResourceName := "cpu", Reason := getErrReason 3 "cpu", Requested := 3, Used := 8, Capacity := 10 }),
    (newResourceInitPod (newResourcePod [{ MilliCPU := 1, Memory := 1 }]) [{ MilliCPU := 1, Memory := 3 }],
      testNode [newResourcePod [{ MilliCPU := 9, Memory := 19 }]], {},
      some { ResourceName := "memory", Reason := getErrReason 3 "memory", Requested := 3, Used := 19, Capacity := 20 }),
    (newResourceInitPod (newResourcePod [{ MilliCPU := 1, Memory := 1 }]) [{ MilliCPU := 1, Memory := 3 }, { MilliCPU := 1, Memory := 2 }],
      testNode [newResourcePod [{ MilliCPU := 9, Memory := 19 }]], {},
      some { ResourceName := "memory", Reason := getErrReason 3 "memory", Requested := 3, Used := 19, Capacity := 20 }),
    (newResourceInitPod (newResourcePod [{ MilliCPU := 1, Memory := 1 }]) [{ MilliCPU := 1, Memory := 1 }],
      testNode [newResourcePod [{ MilliCPU := 9, Memory := 19 }]], {},
      none),
    (newResourceInitPod (newResourcePod [{ MilliCPU := 1, Memory := 1 }]) [{ MilliCPU := 1, Memory := 1 }, { MilliCPU := 1, Memory := 1 }],
      testNode [newResourcePod [{ MilliCPU := 9, Memory := 19 }]], {},
      none),
    (newResourcePod [{ MilliCPU := 1, Memory := 1 }],
      testNode [newResourcePod [{ MilliCPU := 5, Memory := 5 }]], {},
      none),
    (newResourcePod [{ MilliCPU := 2, Memory := 1 }],
      testNode [newResourcePod [{ MilliCPU := 9, Memory := 5 }]], {},
      some { ResourceName := "cpu", Reason := getErrReason 2 "cpu", Requested := 2, Used := 9, Capacity := 10 }),
    (newResourcePod [{ MilliCPU := 1, Memory := 2 }],
      testNode [newResourcePod [{ MilliCPU := 5, Memory := 19 }]], {},
      some { ResourceName := "memory", Reason := getErrReason 2 "memory", Requested := 2, Used := 19, Capacity := 20 }),
    (newResourcePod [{ MilliCPU := 5, Memory := 1 }],
      testNode [newResourcePod [{ MilliCPU := 5, Memory := 19 }]], {},
      none),
    (newResourceInitPod (newResourcePod [{ MilliCPU := 4, Memory := 1 }]) [{ MilliCPU := 5, Memory := 1 }],
      testNode [newResourcePod [{ MilliCPU := 5, Memory := 19 }]], {},
      none),
    (newResourcePod [{ ScalarResources := [("example.com/aaa", 1)] }],
      testNode [newResourcePod [{}]], {},
      none),
    (newResourceInitPod (newResourcePod [{}]) [{ ScalarResources := [("example.com/aaa", 1)] }],
      testNode [newResourcePod [{}]], {},
      none),
    (newResourcePod [{ MilliCPU := 1, Memory := 1, ScalarResources := [("example.com/aaa", 10)] }],
      testNode [newResourcePod [{ MilliCPU := 0, Memory := 0, ScalarResources := [("example.com/aaa", 0)] }]], {},
      some { ResourceName := "example.com/aaa", Reason := getErrReason 10 "example.com/aaa", Requested := 10, Used := 0, Capacity := 5 }),
    (newResourceInitPod (newResourcePod [{}]) [{ MilliCPU := 1, Memory := 1, ScalarResources := [("example.com/aaa", 10)] }],
      testNode [newResourcePod [{ MilliCPU := 0, Memory := 0, ScalarResources := [("example.com/aaa", 0)] }]], {},
      some { ResourceName := "example.com/aaa", Reason := getErrReason 10 "example.com/aaa", Requested := 10, Used := 0, Capacity := 5 }),
    (newResourcePod [{ MilliCPU := 1, Memory := 1, ScalarResources := [("example.com/aaa", 1)] }],
      testNode [newResourcePod [{ MilliCPU := 0, Memory := 0, ScalarResources := [("example.com/aaa", 5)] }]], {},
      some { ResourceName := "example.com/aaa", Reason := getErrReason 1 "example.com/aaa", Requested := 1, Used := 5, Capacity := 5 }),
    (newResourceInitPod (newResourcePod [{}]) [{ MilliCPU := 1, Memory := 1, ScalarResources := [("example.com/aaa", 1)] }],
      testNode [newResourcePod [{ MilliCPU := 0, Memory := 0, ScalarResources := [("example.com/aaa", 5)] }]], {},
      some { ResourceName := "example.com/aaa", Reason := getErrReason 1 "example.com/aaa", Requested := 1, Used := 5, Capacity := 5 }),
    (newResourcePod [{ MilliCPU := 1, Memory := 1, ScalarResources := [("example.com/aaa", 3)] }, { MilliCPU := 1, Memory := 1, ScalarResources := [("example.com/aaa", 3)] }],
      testNode [newResourcePod [{ MilliCPU := 0, Memory := 0, ScalarResources := [("example.com/aaa", 2)] }]], {},
      some { ResourceName := "example.com/aaa", Reason := getErrReason 6 "example.com/aaa", Requested := 6, Used := 2, Capacity := 5 }),
    (newResourceInitPod (newResourcePod [{}]) [{ MilliCPU := 1, Memory := 1, ScalarResources := [("example.com/aaa", 3)] }, { MilliCPU := 1, Memory := 1, ScalarResources := [("example.com/aaa", 3)] }],
      testNode [newResourcePod [{ MilliCPU := 0, Memory := 0, ScalarResources := [("example.com/aaa", 2)] }]], {},
      none),
    (newResourceInitPod (newResourcePod [{}]) [{ MilliCPU := 1, Memory := 1, ScalarResources := [("example.com/aaa", 6)] }, { MilliCPU := 1, Memory := 1, ScalarResources := [("example.com/aaa", 3)] }],
      testNode [newResourcePod [{ MilliCPU := 0, Memory := 0, ScalarResources := [("example.com/aaa", 2)] }]], {},
      some { ResourceName := "example.com/aaa", Reason := getErrReason 6 "example.com/aaa", Requested := 6, Used := 2, Capacity := 5 }),
    (newResourcePod [{ MilliCPU := 1, Memory := 1, ScalarResources := [("example.com/bbb", 1)] }],
      testNode [newResourcePod [{ MilliCPU := 0, Memory := 0 }]], {},
      some { ResourceName := "example.com/bbb", Reason := getErrReason 1 "example.com/bbb", Requested := 1, Used := 0, Capacity := 0 }),
    (newResourceInitPod (newResourcePod [{}]) [{ MilliCPU := 1, Memory := 1, ScalarResources := [("example.com/bbb", 1)] }],
      testNode [newResourcePod [{ MilliCPU := 0, Memory := 0 }]], {},
      some { ResourceName := "example.com/bbb", Reason := getErrReason 1 "example.com/bbb", Requested := 1, Used := 0, Capacity := 0 }),
    (newResourcePod [{ MilliCPU := 1, Memory := 1, ScalarResources := [("kubernetes.io/something", 10)] }],
      testNode [newResourcePod [{ MilliCPU := 0, Memory := 0 }]], {},
      some { ResourceName := "kubernetes.io/something", Reason := getErrReason 10 "kubernetes.io/something", Requested := 10, Used := 0, Capacity := 0 }),
    (newResourceInitPod (newResourcePod [{}]) [{ MilliCPU := 1, Memory := 1, ScalarResources := [("subdomain.kubernetes.io/something", 10)] }],
      testNode [newResourcePod [{ MilliCPU := 0, Memory := 0 }]], {},
      some { ResourceName := "subdomain.kubernetes.io/something", Reason := getErrReason 10 "subdomain.kubernetes.io/something", Requested := 10, Used := 0, Capacity := 0 }),
    (newResourcePod [{ MilliCPU := 1, Memory := 1, ScalarResources := [("hugepages-2Mi", 10)] }],
      testNode [newResourcePod [{ MilliCPU := 0, Memory := 0, ScalarResources := [("hugepages-2Mi", 0)] }]], {},
      some { ResourceName := "hugepages-2Mi", Reason := getErrReason 10 "hugepages-2Mi", Requested := 10, Used := 0, Capacity := 5 }),
    (newResourceInitPod (newResourcePod [{}]) [{ MilliCPU := 1, Memory := 1, ScalarResources := [("hugepages-2Mi", 10)] }],
      testNode [newResourcePod [{ MilliCPU := 0, Memory := 0, ScalarResources := [("hugepages-2Mi", 0)] }]], {},
      some { ResourceName := "hugepages-2Mi", Reason := getErrReason 10 "hugepages-2Mi", Requested := 10, Used := 0, Capacity := 5 }),
    (newResourcePod [{ MilliCPU := 1, Memory := 1, ScalarResources := [("hugepages-2Mi", 3)] }, { MilliCPU := 1, Memory := 1, ScalarResources := [("hugepages-2Mi", 3)] }],
      testNode [newResourcePod [{ MilliCPU := 0, Memory := 0, ScalarResources := [("hugepages-2Mi", 2)] }]], {},
      some { ResourceName := "hugepages-2Mi", Reason := getErrReason 6 "hugepages-2Mi", Requested := 6, Used := 2, Capacity := 5 }),
    (newResourcePod [{ MilliCPU := 1, Memory := 1, ScalarResources := [("example.com/bbb", 1)] }],
      testNode [newResourcePod [{ MilliCPU := 0, Memory := 0 }]], { IgnoredResources := ["example.com/bbb"] },
      none),
    (newResourceOverheadPod (newResourcePod [{ MilliCPU := 1, Memory := 1 }]) { MilliCPU := 3, Memory := 13 },
      testNode [newResourcePod [{ MilliCPU := 5, Memory := 5 }]], {},
      none),
    (newResourceOverheadPod (newResourcePod [{ MilliCPU := 1, Memory := 1 }]) { MilliCPU := 1, Memory := 15 },
      testNode [newResourcePod [{ MilliCPU := 5, Memory := 5 }]], {},
      some { ResourceName := "memory", Reason := getErrReason 16 "memory", Requested := 16, Used := 5, Capacity := 20 }),
    (newResourcePod [{ MilliCPU := 1, Memory := 1, ScalarResources := [("example.com/bbb", 1), ("kubernetes.io/something", 1)] }],
      testNode [newResourcePod [{ MilliCPU := 0, Memory := 0 }]], { IgnoredResourceGroups := ["example.com"] },
      some { ResourceName := "kubernetes.io/something", Reason := getErrReason 1 "kubernetes.io/something", Requested := 1, Used := 0, Capacity := 0 }),
    ({}, testNode thirtyTwoPods, {},
      some { ResourceName := "pods", Reason := "node(s) had too many pods", Requested := 1,
             Used := 32, Capacity := 32 }),
    (ignorePodsLimitPod, testNode thirtyTwoPods, {}, none)
  ]

/-- The table `notEnoughPodsTests` of `TestNotEnoughRequests` in `fit_test.go`; every
case expects the status `Unschedulable` with the message `node(s) had too many pods`. -/
def notEnoughPodsTests : List (Workload × NodeInfo) :=
  [ (newResourcePod [], fullNode [newResourcePod [{ MilliCPU := 10, Memory := 20 }]]),
    (newResourcePod [{ MilliCPU := 1, Memory := 1 }],
      fullNode [newResourcePod [{ MilliCPU := 5, Memory := 5 }]]),
    (newResourcePod [{ MilliCPU := 5, Memory := 1 }],
      fullNode [newResourcePod [{ MilliCPU := 5, Memory := 19 }]]),
    (newResourceInitPod (newResourcePod [{ MilliCPU := 5, Memory := 1 }])
        [{ MilliCPU := 5, Memory := 1 }],
      fullNode [newResourcePod [{ MilliCPU := 5, Memory := 19 }]]) ]

/-- The table `storagePodsTests` of `TestStorageRequests` in `fit_test.go`, with the
expected report behind the expected status. -/
def storagePodsTests : List (Workload × NodeInfo × Option InsufficientResource) :=
  [ (newResourcePod [{ MilliCPU := 1, Memory := 1 }],
      testNode [newResourcePod [{ MilliCPU := 10, Memory := 10 }]],
      some { ResourceName := "cpu", Reason := getErrReason 1 "cpu", Requested := 1,
             Used := 10, Capacity := 10 }),
    (newResourcePod [{ MilliCPU := 1, Memory := 1 }],
      testNode [newResourcePod [{ MilliCPU := 2, Memory := 10 }]], none),
    (newResourcePod [{ EphemeralStorage := 25 }],
      testNode [newResourcePod [{ MilliCPU := 2, Memory := 2 }]],
      some { ResourceName := "ephemeral-storage",
             Reason := getErrReason 25 "ephemeral-storage", Requested := 25,
             Used := 0, Capacity := 20 }),
    (newResourcePod [{ EphemeralStorage := 10 }],
      testNode [newResourcePod [{ MilliCPU := 2, Memory := 2 }]], none) ]

/-- The table `argsTest` of `TestValidateFitArgs` in `fit_test.go`: the arguments and
whether the case expects an error message. -/
def argsTest : List (NodeResourcesFitArgs × Bool) :=
  [ ({ IgnoredResources := ["longvalue" ++ String.mk (List.replicate 64 'a')] }, true),
    ({ IgnoredResources := ["example.com/"] }, true),
    ({ IgnoredResources := ["example.com/aaa/bbb"] }, true),
    ({ IgnoredResources := ["example.com"] }, false),
    ({ IgnoredResourceGroups := ["example.com"] }, false),
    ({ IgnoredResourceGroups := ["example.com/"] }, true),
    ({ IgnoredResourceGroups := [String.mk (List.replicate 64 'a')] }, true),
    ({ IgnoredResourceGroups := ["example.com/aa"] }, true) ]

/-- The status that the tests of `fit_test.go` expect from `Filter` for an expected
result of `FitsRequest`: `nil` for success, else `Unschedulable` with the reason. -/
def wantStatus (want : Option InsufficientResource) : Option Status :=
  want.map (fun r => { Code := Code.Unschedulable, Message := r.Reason })

/-! ## Frame lemmas for Group units -/

theorem GroupCall.exec_key (p : PodGroupUnit) (c : GroupCall) : (c.exec p).key = p.key := by
  cases c <;> simp only [GroupCall.exec, PodGroupUnit.AddPod, PodGroupUnit.AddPods,
    PodGroupUnit.UpdatePod, PodGroupUnit.DeletePod, PodGroupUnit.ResetPods,
    PodGroupUnit.SetEnqueuedTimeStamp] <;> split <;> rfl

theorem GroupCall.exec_podGroup (p : PodGroupUnit) (c : GroupCall) :
    (c.exec p).podGroup = p.podGroup := by
  cases c <;> simp only [GroupCall.exec, PodGroupUnit.AddPod, PodGroupUnit.AddPods,
    PodGroupUnit.UpdatePod, PodGroupUnit.DeletePod, PodGroupUnit.ResetPods,
    PodGroupUnit.SetEnqueuedTimeStamp] <;> split <;> rfl

theorem PodGroupUnit.run_key (p : PodGroupUnit) (calls : List GroupCall) :
    (p.run calls).key = p.key := by
  induction calls generalizing p with
  | nil => rfl
  | cons c cs ih =>
    show (PodGroupUnit.run (c.exec p) cs).key = p.key
    rw [ih, GroupCall.exec_key]

theorem PodGroupUnit.run_podGroup (p : PodGroupUnit) (calls : List GroupCall) :
    (p.run calls).podGroup = p.podGroup := by
  induction calls generalizing p with
  | nil => rfl
  | cons c cs ih =>
    show (PodGroupUnit.run (c.exec p) cs).podGroup = p.podGroup
    rw [ih, GroupCall.exec_podGroup]

theorem PodGroupUnit.ready_iff_of_podGroup (p : PodGroupUnit) (g : PodGroup)
    (h : p.podGroup = some g) :
    p.ReadyToBePopulated = true ↔ p.NumPods ≥ g.Spec.MinMember := by
  simp [PodGroupUnit.ReadyToBePopulated, PodGroupUnit.NumPods, h]

/-- The size of the map after `m[k] = v`. -/
theorem length_entries_insert (m : PodInfoMap) (k : String) (v : QueuedPodInfo) :
    (m.insert k v).entries.length =
      if (m.lookup k).isSome then m.entries.length else m.entries.length + 1 := by
  have hlen : ∀ t : PodInfoMap, t.entries.length = t.keys.length := by
    intro t; simp [AList.keys, List.keys]
  rw [hlen, hlen, AList.keys_insert]
  by_cases hk : k ∈ m.keys
  · have hpos : 0 < m.keys.length := List.length_pos_of_mem hk
    have hsome : (m.lookup k).isSome = true := AList.lookup_isSome.2 (AList.mem_keys.2 hk)
    rw [if_pos hsome, List.length_cons, List.length_erase_of_mem hk]
    omega
  · have hsome : ¬ (m.lookup k).isSome = true := fun hs =>
      hk (AList.mem_keys.1 (AList.lookup_isSome.1 hs))
    rw [if_neg hsome, List.erase_of_not_mem hk, List.length_cons]

theorem GroupCall.exec_priority (p : PodGroupUnit) (c : GroupCall) :
    (c.exec p).priority = p.priority := by
  cases c <;> simp only [GroupCall.exec, PodGroupUnit.AddPod, PodGroupUnit.AddPods,
    PodGroupUnit.UpdatePod, PodGroupUnit.DeletePod, PodGroupUnit.ResetPods,
    PodGroupUnit.SetEnqueuedTimeStamp] <;> split <;> rfl

theorem PodGroupUnit.run_priority (p : PodGroupUnit) (calls : List GroupCall) :
    (p.run calls).priority = p.priority := by
  induction calls generalizing p with
  | nil => rfl
  | cons c cs ih =>
    show (PodGroupUnit.run (c.exec p) cs).priority = p.priority
    rw [ih, GroupCall.exec_priority]

/-- The size of the map after `delete(m, k)`. -/
theorem length_entries_erase (m : PodInfoMap) (k : String) :
    (m.erase k).entries.length =
      if (m.lookup k).isSome then m.entries.length - 1 else m.entries.length := by
  have hlen : ∀ t : PodInfoMap, t.entries.length = t.keys.length := by
    intro t; simp [AList.keys, List.keys]
  rw [hlen, hlen, AList.keys_erase]
  by_cases hk : k ∈ m.keys
  · have hsome : (m.lookup k).isSome = true := AList.lookup_isSome.2 (AList.mem_keys.2 hk)
    rw [if_pos hsome, List.length_erase_of_mem hk]
  · have hsome : ¬ (m.lookup k).isSome = true := fun hs =>
      hk (AList.mem_keys.1 (AList.lookup_isSome.1 hs))
    rw [if_neg hsome, List.erase_of_not_mem hk]

/-! ## Batches of records on a Group unit -/

theorem PodGroupUnit.addPods_cons (p : PodGroupUnit) (w : QueuedPodInfo)
    (ws : List QueuedPodInfo) :
    (p.AddPods (w :: ws)).1 = ((p.AddPod w).1.AddPods ws).1 := by
  cases hw : w.Pod with
  | none => simp [PodGroupUnit.AddPods, PodGroupUnit.AddPod, hw]
  | some v => simp [PodGroupUnit.AddPods, PodGroupUnit.AddPod, hw]

theorem PodGroupUnit.addPods_eq_foldl_addPod (p : PodGroupUnit) (pods : List QueuedPodInfo) :
    (p.AddPods pods).1 = pods.foldl (fun u w => (u.AddPod w).1) p := by
  induction pods generalizing p with
  | nil => rfl
  | cons w ws ih => rw [PodGroupUnit.addPods_cons, ih, List.foldl_cons]

theorem PodGroupUnit.foldl_addPod_filter (p : PodGroupUnit) (pods : List QueuedPodInfo) :
    (pods.filter (fun w => w.Pod.isSome)).foldl (fun u w => (u.AddPod w).1) p
      = pods.foldl (fun u w => (u.AddPod w).1) p := by
  induction pods generalizing p with
  | nil => rfl
  | cons w ws ih =>
    cases hw : w.Pod with
    | none =>
      have hskip : (p.AddPod w).1 = p := by simp [PodGroupUnit.AddPod, hw]
      simp only [List.filter_cons, hw, Option.isSome_none, List.foldl_cons, hskip]
      exact ih p
    | some v =>
      simp only [List.filter_cons, hw, Option.isSome_some, if_true, List.foldl_cons]
      exact ih _

theorem PodGroupUnit.getPod_foldl_addPod_of_ne (post : List QueuedPodInfo) (p : PodGroupUnit)
    (w : QueuedPodInfo) (v : Godel.Pod) (hw : w.Pod = some v)
    (hpost : ∀ x ∈ post, ∀ u, x.Pod = some u → u.UID ≠ v.UID) :
    (post.foldl (fun u w => (u.AddPod w).1) p).GetPod w = p.GetPod w := by
  induction post generalizing p with
  | nil => rfl
  | cons x xs ih =>
    rw [List.foldl_cons, ih _ (fun y hy => hpost y (List.mem_cons_of_mem _ hy))]
    cases hx : x.Pod with
    | none => simp [PodGroupUnit.AddPod, hx]
    | some u =>
      have hne : v.UID ≠ u.UID := fun he => hpost x (List.mem_cons_self _ _) u hx he.symm
      simp only [PodGroupUnit.AddPod, PodGroupUnit.GetPod, hx, hw]
      exact AList.lookup_insert_ne hne

/-! ## Members of a unit and the count of its pods -/

theorem PodGroupUnit.getPods_length_eq_numPods (p : PodGroupUnit) :
    (p.GetPods.length : Int) = p.NumPods := by
  simp [PodGroupUnit.GetPods, PodGroupUnit.NumPods]

theorem PodGroupUnit.keyedByUID_addPod (p : PodGroupUnit) (w : QueuedPodInfo)
    (hp : p.KeyedByUID) : (p.AddPod w).1.KeyedByUID := by
  cases hw : w.Pod with
  | none =>
    have hsame : (p.AddPod w).1 = p := by simp [PodGroupUnit.AddPod, hw]
    rw [hsame]
    exact hp
  | some v =>
    intro e he
    simp only [PodGroupUnit.AddPod, hw, AList.insert_entries, List.mem_cons] at he
    rcases he with rfl | he
    · exact ⟨v, hw, rfl⟩
    · exact hp e ((List.kerase_sublist _ _).subset he)

theorem GroupCall.exec_keyedByUID (p : PodGroupUnit) (c : GroupCall) (hp : p.KeyedByUID) :
    (c.exec p).KeyedByUID := by
  cases c with
  | addPod w => exact PodGroupUnit.keyedByUID_addPod p w hp
  | updatePod w => exact PodGroupUnit.keyedByUID_addPod p w hp
  | addPods ws =>
    show (p.AddPods ws).1.KeyedByUID
    rw [PodGroupUnit.addPods_eq_foldl_addPod]
    induction ws generalizing p with
    | nil => exact hp
    | cons x xs ih => exact ih _ (PodGroupUnit.keyedByUID_addPod p x hp)
  | deletePod w =>
    cases hw : w.Pod with
    | none =>
      have hsame : GroupCall.exec p (.deletePod w) = p := by
        simp [GroupCall.exec, PodGroupUnit.DeletePod, hw]
      rw [hsame]
      exact hp
    | some v =>
      intro e he
      simp only [GroupCall.exec, PodGroupUnit.DeletePod, hw, AList.erase] at he
      exact hp e ((List.kerase_sublist _ _).subset he)
  | resetPods =>
    intro e he
    simp [GroupCall.exec, PodGroupUnit.ResetPods] at he
  | setEnqueuedTimeStamp ts =>
    intro e he
    simp only [GroupCall.exec, PodGroupUnit.SetEnqueuedTimeStamp, PodGroupUnit.setTimestamps,
      List.mem_map] at he
    obtain ⟨e0, he0, rfl⟩ := he
    exact hp e0 he0

theorem PodGroupUnit.keyedByUID_run (podGroup : Option PodGroup) (priority : Int) (now : Time)
    (calls : List GroupCall) : ((NewPodGroupUnit podGroup priority now).run calls).KeyedByUID := by
  have hnew : (NewPodGroupUnit podGroup priority now).KeyedByUID := by
    intro e he
    simp [NewPodGroupUnit] at he
  generalize NewPodGroupUnit podGroup priority now = p at hnew
  induction calls generalizing p with
  | nil => exact hnew
  | cons c cs ih => exact ih (c.exec p) (GroupCall.exec_keyedByUID p c hnew)

/-- In a unit whose members are stored under their UIDs, `GetPods()` lists the records
that `GetPod` finds, and their UIDs are pairwise distinct. -/
theorem PodGroupUnit.getPods_members (p : PodGroupUnit) (hp : p.KeyedByUID) :
    (∀ w, w ∈ p.GetPods ↔ p.GetPod w = some w) ∧
    (p.GetPods.map (fun w => w.Pod.map (fun v => v.UID))).Nodup := by
  constructor
  · intro w
    constructor
    · intro hw
      simp only [PodGroupUnit.GetPods, List.mem_map] at hw
      obtain ⟨e, he, rfl⟩ := hw
      obtain ⟨v, hv, hk⟩ := hp e he
      obtain ⟨k, w⟩ := e
      simp only at hv hk
      subst hk
      simp only [PodGroupUnit.GetPod, hv]
      exact Option.mem_def.mp (AList.mem_lookup_iff.mpr he)
    · intro hw
      cases hv : w.Pod with
      | none => simp [PodGroupUnit.GetPod, hv] at hw
      | some v =>
        simp only [PodGroupUnit.GetPod, hv] at hw
        have hmem := AList.mem_lookup_iff.mp (Option.mem_def.mpr hw)
        simp only [PodGroupUnit.GetPods, List.mem_map]
        exact ⟨_, hmem, rfl⟩
  · have hkeys : p.GetPods.map (fun w => w.Pod.map (fun v => v.UID))
        = p.queuedPodInfoMap.keys.map some := by
      simp only [PodGroupUnit.GetPods, AList.keys, List.keys, List.map_map]
      apply List.map_congr_left
      intro e he
      obtain ⟨v, hv, hk⟩ := hp e he
      simp [hv, hk]
    rw [hkeys]
    exact p.queuedPodInfoMap.keys_nodup.map (Option.some_injective _)

theorem SinglePodUnit.heldHasPod_exec (s : SinglePodUnit) (c : SingleCall)
    (hs : s.HeldHasPod) : (c.exec s).HeldHasPod := by
  intro q hq
  cases c with
  | addPod w =>
    cases hw : w.Pod with
    | none =>
      simp only [SingleCall.exec, SinglePodUnit.AddPod, hw] at hq
      exact hs q hq
    | some v =>
      simp only [SingleCall.exec, SinglePodUnit.AddPod, hw, Option.some.injEq] at hq
      subst hq
      exact ⟨v, hw⟩
  | updatePod w =>
    cases hw : w.Pod with
    | none =>
      simp only [SingleCall.exec, SinglePodUnit.UpdatePod, hw] at hq
      exact hs q hq
    | some v =>
      simp only [SingleCall.exec, SinglePodUnit.UpdatePod, hw, Option.some.injEq] at hq
      subst hq
      exact ⟨v, hw⟩
  | addPods ws =>
    have hsame : SingleCall.exec s (.addPods ws) = s := by
      simp only [SingleCall.exec, SinglePodUnit.AddPods]
      split <;> rfl
    rw [hsame] at hq
    exact hs q hq
  | deletePod w =>
    cases hw : w.Pod with
    | none =>
      simp only [SingleCall.exec, SinglePodUnit.DeletePod, hw] at hq
      exact hs q hq
    | some v => simp [SingleCall.exec, SinglePodUnit.DeletePod, hw] at hq
  | resetPods => simp [SingleCall.exec, SinglePodUnit.ResetPods] at hq
  | setEnqueuedTimeStamp ts =>
    cases hp : s.Pod with
    | none => simp [SingleCall.exec, SinglePodUnit.SetEnqueuedTimeStamp, hp] at hq
    | some held =>
      simp only [SingleCall.exec, SinglePodUnit.SetEnqueuedTimeStamp, hp,
        Option.some.injEq] at hq
      subst hq
      exact hs held hp

theorem SinglePodUnit.heldHasPod_run (s : SinglePodUnit) (calls : List SingleCall)
    (hs : s.HeldHasPod) : (s.run calls).HeldHasPod := by
  induction calls generalizing s with
  | nil => exact hs
  | cons c cs ih => exact ih (c.exec s) (SinglePodUnit.heldHasPod_exec s c hs)

/-- A Single unit whose held record, if any, has a pod: `GetPods()` has `NumPods()`
entries, and `GetPod` and `GetCreationTimestamp` do not panic. -/
theorem SinglePodUnit.consistent_of_heldHasPod (s : SinglePodUnit) (hs : s.HeldHasPod)
    (q : QueuedPodInfo) :
    (s.GetPods.length : Int) = s.NumPods ∧
    s.GetPod q ≠ .error Panic.nilPointerDereference ∧
    s.GetCreationTimestamp ≠ .error Panic.nilPointerDereference := by
  cases hp : s.Pod with
  | none =>
    refine ⟨by simp [SinglePodUnit.GetPods, SinglePodUnit.NumPods, hp], ?_,
      by simp [SinglePodUnit.GetCreationTimestamp, hp]⟩
    cases hq : q.Pod <;> simp [SinglePodUnit.GetPod, hq, hp]
  | some held =>
    obtain ⟨v, hv⟩ := hs held hp
    refine ⟨by simp [SinglePodUnit.GetPods, SinglePodUnit.NumPods, hp, hv], ?_,
      by simp [SinglePodUnit.GetCreationTimestamp, hp, hv]⟩
    cases hq : q.Pod with
    | none => simp [SinglePodUnit.GetPod, hq]
    | some u =>
      simp only [SinglePodUnit.GetPod, hq, hp, hv]
      split <;> simp

/-! ## Loops over affinity terms and sort rules -/

theorem string_length_eq_zero_iff (s : String) : s.length = 0 ↔ s = "" := by
  cases s with
  | mk data =>
    constructor
    · intro h
      have hd : data = [] := List.length_eq_zero.mp h
      subst hd
      rfl
    · intro h
      rw [h]
      rfl

theorem foldl_affinity_terms (l : List PodGroupAffinityTerm) (acc : List UnitAffinityTerm) :
    l.foldl (fun terms term =>
        if term.TopologyKey = "" then terms
        else terms ++ [({ TopologyKey := term.TopologyKey } : UnitAffinityTerm)]) acc
      = acc ++ (l.filter (fun t => t.TopologyKey ≠ "")).map
          (fun t => ({ TopologyKey := t.TopologyKey } : UnitAffinityTerm)) := by
  induction l generalizing acc with
  | nil => simp
  | cons t ts ih =>
    rw [List.foldl_cons, ih]
    by_cases ht : t.TopologyKey = ""
    · simp [ht]
    · simp [ht]

theorem foldl_sort_rules (l : List PodGroupSortRule) (acc : List SortRule) :
    l.foldl (fun rules r =>
        let dimension := if r.Dimension.length = 0 then Capacity else r.Dimension
        rules ++ [({ Resource := r.Resource, Dimension := dimension, Order := r.Order } : SortRule)])
        acc
      = acc ++ l.map (fun r =>
          ({ Resource := r.Resource
             Dimension := if r.Dimension = "" then Capacity else r.Dimension
             Order := r.Order } : SortRule)) := by
  induction l generalizing acc with
  | nil => simp
  | cons r rs ih =>
    rw [List.foldl_cons, ih]
    simp [string_length_eq_zero_iff]

/-! ## Lemmas on resource vectors and the demand -/

theorem lookup_map_pair (names : List String) (g : String → Nat) (n : String) :
    (names.map (fun m => (m, g m))).lookup n = if n ∈ names then some (g n) else none := by
  induction names with
  | nil => simp
  | cons m ms ih =>
    simp only [List.map_cons, List.lookup_cons, List.mem_cons]
    by_cases h : n = m
    · subst h
      simp
    · have hb : (n == m) = false := by simpa using h
      simp [hb, h, ih]

theorem lookup_eq_none_of_not_mem (l : List (String × Nat)) (n : String)
    (h : n ∉ l.map Prod.fst) : l.lookup n = none := by
  induction l with
  | nil => rfl
  | cons e es ih =>
    simp only [List.map_cons, List.mem_cons, not_or] at h
    have hb : (n == e.1) = false := by simpa using h.1
    obtain ⟨k, v⟩ := e
    simp only [List.lookup_cons]
    simp only at hb
    rw [hb]
    exact ih h.2

theorem scalar_mergeScalars (f : Nat → Nat → Nat) (hf : f 0 0 = 0) (a b : List (String × Nat))
    (n : String) :
    ((mergeScalars f a b).lookup n).getD 0 = f ((a.lookup n).getD 0) ((b.lookup n).getD 0) := by
  unfold mergeScalars
  rw [lookup_map_pair]
  by_cases h : n ∈ (a.map Prod.fst ++ b.map Prod.fst).dedup
  · simp [h]
  · have h2 : n ∉ a.map Prod.fst ++ b.map Prod.fst := fun hm => h (List.mem_dedup.mpr hm)
    rw [List.mem_append, not_or] at h2
    simp [h, lookup_eq_none_of_not_mem a n h2.1, lookup_eq_none_of_not_mem b n h2.2, hf]

theorem satAdd_le_add (a b : Nat) : satAdd a b ≤ a + b := by
  unfold satAdd
  omega

theorem satAdd_le_iff_of_lt (a b c : Nat) (hc : c < MaxInt64) : satAdd a b ≤ c ↔ a + b ≤ c := by
  unfold satAdd
  omega

theorem satAdd_le_maxInt64 (a b : Nat) : satAdd a b ≤ MaxInt64 := by
  unfold satAdd
  omega

theorem foldl_satAdd (l : List Nat) (z : Nat) (hz : z ≤ MaxInt64) :
    l.foldl satAdd z = min (z + l.sum) MaxInt64 := by
  induction l generalizing z with
  | nil =>
    simp only [List.foldl_nil, List.sum_nil]
    omega
  | cons c cs ih =>
    rw [List.foldl_cons, ih _ (satAdd_le_maxInt64 _ _), List.sum_cons]
    unfold satAdd
    omega

/-- A saturating sum is the exact sum capped at `MaxInt64`. -/
theorem satSum_eq_min (l : List Nat) : satSum l = min l.sum MaxInt64 := by
  unfold satSum
  rw [foldl_satAdd l 0 (Nat.zero_le _), Nat.zero_add]

theorem satAdd_gt_iff (a b c : Nat) : satAdd a b > c ↔ a + b > c ∧ c < MaxInt64 := by
  unfold satAdd
  omega

/-- The sums of the demand saturate: two containers requesting `MaxInt64` and 1
milli-CPU give a demand of `MaxInt64` milli-CPU. -/
theorem demand_saturates_at_maxInt64 :
    (ComputePodResourceRequest
      (newResourcePod [{ MilliCPU := MaxInt64 }, { MilliCPU := 1 }])).MilliCPU = MaxInt64 := by
  decide

/-- The text of a quantity is its canonical form: multiples of 1000 take a unit suffix
and CPU is read in milli-units. -/
theorem quantityString_samples :
    quantityString false 1 = "1" ∧ quantityString false 1000 = "1k" ∧
    quantityString false 1500 = "1500" ∧ quantityString false 10000 = "10k" ∧
    quantityString false 5000000 = "5M" ∧ quantityString false 0 = "0" ∧
    quantityString true 1 = "1m" ∧ quantityString true 10 = "10m" ∧
    quantityString true 1000 = "1" ∧ quantityString true 1500 = "1500m" ∧
    quantityString true 2000000 = "2k" ∧
    getErrReason 1 ResourceCPU = "node(s) could not satisfy 1m cpu request" ∧
    getErrReason 1000 ResourceMemory = "node(s) could not satisfy 1k memory request" := by
  decide

theorem Resource.scalar_add (a b : Resource) (n : String) :
    (a.add b).scalar n = satAdd (a.scalar n) (b.scalar n) :=
  scalar_mergeScalars satAdd rfl a.ScalarResources b.ScalarResources n

theorem Resource.scalar_componentwiseMax (a b : Resource) (n : String) :
    (a.componentwiseMax b).scalar n = max (a.scalar n) (b.scalar n) :=
  scalar_mergeScalars (fun x y => max x y) (by simp) a.ScalarResources b.ScalarResources n

/-- A saturating sum of quantities is their exact sum capped at `MaxInt64`. -/
theorem foldl_add_proj (π : Resource → Nat) (hπ : ∀ a b, π (a.add b) = satAdd (π a) (π b))
    (l : List Resource) (z : Resource) (hz : π z ≤ MaxInt64) :
    π (l.foldl Resource.add z) = min (π z + (l.map π).sum) MaxInt64 := by
  induction l generalizing z with
  | nil =>
    simp only [List.foldl_nil, List.map_nil, List.sum_nil]
    omega
  | cons c cs ih =>
    rw [List.foldl_cons, ih _ (by rw [hπ]; exact satAdd_le_maxInt64 _ _), hπ, List.map_cons,
      List.sum_cons]
    unfold satAdd
    omega

theorem foldl_max_proj (π : Resource → Nat) (hπ : ∀ a b, π (a.componentwiseMax b) = max (π a) (π b))
    (l : List Resource) (z : Resource) :
    π (l.foldl Resource.componentwiseMax z) = max (π z) ((l.map π).foldr max 0) := by
  induction l generalizing z with
  | nil => simp
  | cons c cs ih =>
    rw [List.foldl_cons, ih, hπ, List.map_cons, List.foldr_cons]
    omega

/-- The demand before the pod count is set, read through a projection that commutes
with sum and maximum. -/
theorem demand_proj (π : Resource → Nat) (hz : π {} = 0)
    (hadd : ∀ a b, π (a.add b) = satAdd (π a) (π b))
    (hmax : ∀ a b, π (a.componentwiseMax b) = max (π a) (π b))
    (w : Workload) :
    π (Resource.componentwiseMax ((w.Containers.foldl Resource.add {}).add (w.Overhead.getD {}))
        ((w.InitContainers.foldl Resource.componentwiseMax {}).add (w.Overhead.getD {})))
      = min (max ((w.Containers.map π).sum) ((w.InitContainers.map π).foldr max 0)
          + π (w.Overhead.getD {})) MaxInt64 := by
  rw [hmax, hadd, hadd, foldl_add_proj π hadd _ _ (by rw [hz]; exact Nat.zero_le _),
    foldl_max_proj π hmax, hz]
  unfold satAdd
  omega

theorem le_sum_of_mem_map (π : Resource → Nat) (l : List Resource) (c : Resource) (h : c ∈ l) :
    π c ≤ (l.map π).sum := by
  induction l with
  | nil => cases h
  | cons d ds ih =>
    rw [List.map_cons, List.sum_cons]
    rcases List.mem_cons.mp h with rfl | h
    · omega
    · have := ih h
      omega

theorem le_foldr_max_of_mem_map (π : Resource → Nat) (l : List Resource) (c : Resource)
    (h : c ∈ l) : π c ≤ (l.map π).foldr max 0 := by
  induction l with
  | nil => cases h
  | cons d ds ih =>
    rw [List.map_cons, List.foldr_cons]
    rcases List.mem_cons.mp h with rfl | h
    · omega
    · have := ih h
      omega

/-! ## Lemmas on the fitness evaluator -/

theorem podCountCheck_eq_none_iff (D : Resource) (N : NodeInfo) :
    podCountCheck D N = none ↔
      ¬ (D.AllowedPodNumber = 1 ∧ N.Pods.length ≥ N.Allocatable.AllowedPodNumber) := by
  unfold podCountCheck
  split <;> simp_all

theorem resourceCheck_eq_none_iff (name : String) (requested used capacity : Nat) :
    resourceCheck name requested used capacity = none ↔ satAdd used requested ≤ capacity := by
  unfold resourceCheck
  split
  · simp only [reduceCtorEq, false_iff]
    omega
  · simp only [true_iff]
    omega

theorem resourceCheck_eq_some (name : String) (requested used capacity : Nat)
    (r : InsufficientResource) (h : resourceCheck name requested used capacity = some r) :
    satAdd used requested > capacity ∧
    r = { ResourceName := name, Reason := getErrReason requested name, Requested := requested,
          Used := used, Capacity := capacity } := by
  unfold resourceCheck at h
  split at h
  · rename_i hgt
    exact ⟨hgt, (Option.some.inj h).symm⟩
  · cases h

theorem isIgnored_iff (ignored groups : List String) (name : String) :
    isIgnored ignored groups name = true ↔ name ∈ ignored ∨ prefixBeforeSlash name ∈ groups := by
  simp [isIgnored]

theorem checkScalar_eq_none_iff (N : NodeInfo) (ignored groups : List String)
    (e : String × Nat) :
    checkScalar N ignored groups e = none ↔
      isIgnored ignored groups e.1 = true ∨
      satAdd (N.Requested.scalar e.1) e.2 ≤ N.Allocatable.scalar e.1 := by
  unfold checkScalar
  by_cases hi : isIgnored ignored groups e.1 = true
  · simp [hi]
  · simp [hi, resourceCheck_eq_none_iff]

theorem mem_sortedScalars (D : Resource) (e : String × Nat) :
    e ∈ sortedScalars D ↔ e ∈ D.ScalarResources := by
  unfold sortedScalars
  exact List.mem_insertionSort _

theorem sorted_sortedScalars (D : Resource) :
    (sortedScalars D).Sorted (fun a b => a.1.toList ≤ b.1.toList) := by
  unfold sortedScalars
  haveI : IsTotal (String × Nat) (fun a b => a.1.toList ≤ b.1.toList) :=
    ⟨fun a b => le_total a.1.toList b.1.toList⟩
  haveI : IsTrans (String × Nat) (fun a b => a.1.toList ≤ b.1.toList) :=
    ⟨fun _ _ _ hab hbc => le_trans hab hbc⟩
  exact List.sorted_insertionSort _ _

theorem findSome_sorted_first (rel : (String × Nat) → (String × Nat) → Prop)
    (hrefl : ∀ a, rel a a) (f : (String × Nat) → Option InsufficientResource)
    (l : List (String × Nat)) (hs : l.Sorted rel) (r : InsufficientResource)
    (h : l.findSome? f = some r) :
    ∃ a ∈ l, f a = some r ∧ ∀ b ∈ l, ¬ rel a b → f b = none := by
  induction l with
  | nil => simp at h
  | cons x xs ih =>
    have hsorted := List.sorted_cons.mp hs
    cases hx : f x with
    | some y =>
      rw [List.findSome?_cons, hx] at h
      have hy : y = r := Option.some.inj h
      subst hy
      refine ⟨x, List.mem_cons_self _ _, hx, ?_⟩
      intro b hb hnot
      rcases List.mem_cons.mp hb with rfl | hb
      · exact absurd (hrefl _) hnot
      · exact absurd (hsorted.1 b hb) hnot
    | none =>
      rw [List.findSome?_cons, hx] at h
      obtain ⟨a, ha, hfa, hall⟩ := ih hsorted.2 h
      refine ⟨a, List.mem_cons_of_mem _ ha, hfa, ?_⟩
      intro b hb hnot
      rcases List.mem_cons.mp hb with rfl | hb
      · exact hx
      · exact hall b hb hnot

theorem resourceChecks_eq_none_iff (D : Resource) (N : NodeInfo) (ignored groups : List String) :
    resourceChecks D N ignored groups = none ↔
      satAdd N.Requested.MilliCPU D.MilliCPU ≤ N.Allocatable.MilliCPU ∧
      satAdd N.Requested.Memory D.Memory ≤ N.Allocatable.Memory ∧
      satAdd N.Requested.EphemeralStorage D.EphemeralStorage ≤ N.Allocatable.EphemeralStorage ∧
      ∀ e ∈ D.ScalarResources, checkScalar N ignored groups e = none := by
  unfold resourceChecks
  cases hc : resourceCheck ResourceCPU D.MilliCPU N.Requested.MilliCPU N.Allocatable.MilliCPU with
  | some r =>
    have := (resourceCheck_eq_some _ _ _ _ _ hc).1
    simp only [reduceCtorEq, false_iff]
    omega
  | none =>
    have h1 := (resourceCheck_eq_none_iff _ _ _ _).mp hc
    cases hm : resourceCheck ResourceMemory D.Memory N.Requested.Memory N.Allocatable.Memory with
    | some r =>
      have := (resourceCheck_eq_some _ _ _ _ _ hm).1
      simp only [reduceCtorEq, false_iff]
      omega
    | none =>
      have h2 := (resourceCheck_eq_none_iff _ _ _ _).mp hm
      cases hs : resourceCheck ResourceEphemeralStorage D.EphemeralStorage
          N.Requested.EphemeralStorage N.Allocatable.EphemeralStorage with
      | some r =>
        have := (resourceCheck_eq_some _ _ _ _ _ hs).1
        simp only [reduceCtorEq, false_iff]
        omega
      | none =>
        have h3 := (resourceCheck_eq_none_iff _ _ _ _).mp hs
        simp only [List.findSome?_eq_none_iff, mem_sortedScalars]
        exact ⟨fun h => ⟨h1, h2, h3, h⟩, fun h => h.2.2.2⟩

theorem requestsNothing_eq_true_iff (D : Resource) :
    D.requestsNothing = true ↔
      D.MilliCPU = 0 ∧ D.Memory = 0 ∧ D.EphemeralStorage = 0 ∧ D.ScalarResources = [] := by
  simp [Resource.requestsNothing]

theorem fitsRequest_eq_none_iff (D : Resource) (N : NodeInfo) (ignored groups : List String) :
    FitsRequest D N ignored groups = none ↔
      podCountCheck D N = none ∧
      (D.requestsNothing = true ∨ resourceChecks D N ignored groups = none) := by
  unfold FitsRequest
  cases hp : podCountCheck D N with
  | some r => simp
  | none =>
    by_cases hn : D.requestsNothing = true
    · simp [hn]
    · simp [hn]

/-- The evaluator agrees with every case of `TestEnoughRequests`, `TestNotEnoughRequests`
and `TestStorageRequests`: the plugin built by `NewFit` from the arguments of the case
returns, after `PreFilter`, the expected status from `Filter`, and `FitsRequest` on the
computed demand returns the expected report; `validateFitArgs` returns an error on
exactly the cases of `TestValidateFitArgs` that name an expected message. -/
theorem fit_test_cases_hold :
    (∀ t ∈ enoughPodsTests,
      FitsRequest (ComputePodResourceRequest t.1) t.2.1 t.2.2.1.IgnoredResources
          t.2.2.1.IgnoredResourceGroups = t.2.2.2 ∧
      (NewFit t.2.2.1).toOption.map (fun f => f.Filter (f.PreFilter [] t.1).1 t.1 t.2.1)
        = some (wantStatus t.2.2.2)) ∧
    (∀ t ∈ notEnoughPodsTests,
      Fit.Filter { ignoredResources := [], ignoredResourceGroups := [] }
          (Fit.PreFilter { ignoredResources := [], ignoredResourceGroups := [] } [] t.1).1
          t.1 t.2
        = some { Code := Code.Unschedulable, Message := "node(s) had too many pods" }) ∧
    (∀ t ∈ storagePodsTests,
      FitsRequest (ComputePodResourceRequest t.1) t.2.1 [] [] = t.2.2 ∧
      Fit.Filter { ignoredResources := [], ignoredResourceGroups := [] }
          (Fit.PreFilter { ignoredResources := [], ignoredResourceGroups := [] } [] t.1).1
          t.1 t.2.1
        = wantStatus t.2.2) ∧
    (∀ t ∈ argsTest, (validateFitArgs t.1).isSome = t.2) := by
  decide

/-! ## Lemmas on the validation of the plugin arguments -/

theorem splitSlash_ne_nil (l : List Char) : splitSlash l ≠ [] := by
  induction l with
  | nil => simp [splitSlash]
  | cons c cs ih =>
    unfold splitSlash
    split
    · simp
    · split <;> simp

theorem splitSlash_length (l : List Char) : (splitSlash l).length = l.count '/' + 1 := by
  induction l with
  | nil => simp [splitSlash]
  | cons c cs ih =>
    unfold splitSlash
    by_cases hc : c = '/'
    · subst hc
      simp [ih]
    · have hcount : (c :: cs).count '/' = cs.count '/' := by
        rw [List.count_cons]
        simp [hc]
      rw [if_neg hc, hcount, ← ih]
      cases hsplit : splitSlash cs with
      | nil => exact absurd hsplit (splitSlash_ne_nil cs)
      | cons seg rest => simp

theorem nameErrors_ne_nil (name : String)
    (h : [] ∈ splitSlash name.toList ∨ (∃ seg ∈ splitSlash name.toList, seg.length > 63) ∨
      name.toList.count '/' > 1) :
    nameErrors name ≠ [] := by
  simp only [nameErrors]
  by_cases hlen : (splitSlash name.toList).length > 2
  · rw [if_pos hlen]
    exact List.cons_ne_nil _ _
  · rw [if_neg hlen]
    intro hnil
    obtain ⟨h12, _⟩ := List.append_eq_nil.mp hnil
    obtain ⟨h1, h2⟩ := List.append_eq_nil.mp h12
    rcases h with h | h | h
    · have hany : (splitSlash name.toList).any (fun seg => seg.isEmpty) = true :=
        List.any_eq_true.mpr ⟨[], h, rfl⟩
      rw [if_pos hany] at h1
      exact List.cons_ne_nil _ _ h1
    · obtain ⟨seg, hseg, hlong⟩ := h
      have hany : (splitSlash name.toList).any (fun seg => decide (seg.length > 63)) = true :=
        List.any_eq_true.mpr ⟨seg, hseg, decide_eq_true hlong⟩
      rw [if_pos hany] at h2
      exact List.cons_ne_nil _ _ h2
    · rw [splitSlash_length] at hlen
      omega

theorem foldr_append_ne_nil (f : String → List String) (l : List String) (x : String)
    (hx : x ∈ l) (hf : f x ≠ []) : l.foldr (fun name acc => f name ++ acc) [] ≠ [] := by
  induction l with
  | nil => cases hx
  | cons y ys ih =>
    rw [List.foldr_cons]
    rcases List.mem_cons.mp hx with rfl | hx
    · simp [hf]
    · simp [ih hx]

/-! ## The key of a Single unit -/

theorem keyOfHeld_new (podInfo : Option QueuedPodInfo) : (NewSinglePodUnit podInfo).KeyOfHeld := by
  intro q hq
  cases podInfo with
  | none => simp [NewSinglePodUnit] at hq
  | some w =>
    simp only [NewSinglePodUnit, Option.some.injEq] at hq
    subst hq
    rfl

theorem keyOfHeld_exec (s : SinglePodUnit) (c : SingleCall) (hs : s.KeyOfHeld) :
    (c.exec s).KeyOfHeld := by
  intro q hq
  cases c with
  | addPod w =>
    cases hw : w.Pod with
    | none =>
      simp only [SingleCall.exec, SinglePodUnit.AddPod, hw] at hq ⊢
      exact hs q hq
    | some v =>
      simp only [SingleCall.exec, SinglePodUnit.AddPod, hw, Option.some.injEq] at hq ⊢
      subst hq
      rw [hw]
  | updatePod w =>
    cases hw : w.Pod with
    | none =>
      simp only [SingleCall.exec, SinglePodUnit.UpdatePod, hw] at hq ⊢
      exact hs q hq
    | some v =>
      simp only [SingleCall.exec, SinglePodUnit.UpdatePod, hw, Option.some.injEq] at hq ⊢
      subst hq
      rw [hw]
  | addPods ws =>
    have hsame : SingleCall.exec s (.addPods ws) = s := by
      simp only [SingleCall.exec, SinglePodUnit.AddPods]
      split <;> rfl
    rw [hsame] at hq ⊢
    exact hs q hq
  | deletePod w =>
    cases hw : w.Pod with
    | none =>
      simp only [SingleCall.exec, SinglePodUnit.DeletePod, hw] at hq ⊢
      exact hs q hq
    | some v => simp [SingleCall.exec, SinglePodUnit.DeletePod, hw] at hq
  | resetPods => simp [SingleCall.exec, SinglePodUnit.ResetPods] at hq
  | setEnqueuedTimeStamp ts =>
    cases hp : s.Pod with
    | none => simp [SingleCall.exec, SinglePodUnit.SetEnqueuedTimeStamp, hp] at hq
    | some held =>
      simp only [SingleCall.exec, SinglePodUnit.SetEnqueuedTimeStamp, hp, Option.some.injEq] at hq ⊢
      subst hq
      exact hs held hp

theorem keyOfHeld_run (s : SinglePodUnit) (calls : List SingleCall) (hs : s.KeyOfHeld) :
    (s.run calls).KeyOfHeld := by
  induction calls generalizing s with
  | nil => exact hs
  | cons c cs ih => exact ih (c.exec s) (keyOfHeld_exec s c hs)

/-! ## Claims -/

/-- C1: a Group unit built by `NewPodGroupUnit` from a non-null group `g` and then
driven through any sequence of `AddPod`, `AddPods`, `UpdatePod`, `DeletePod`,
`ResetPods` (and `SetEnqueuedTimeStamp`) calls reports `ReadyToBePopulated()`
exactly when `NumPods()` is at least `g.Spec.MinMember`. -/
theorem PodGroupUnit.readyToBePopulated_iff_numPods_ge_minMember
    (g : PodGroup) (priority : Int) (now : Time) (calls : List GroupCall) :
    ((NewPodGroupUnit (some g) priority now).run calls).ReadyToBePopulated = true ↔
      ((NewPodGroupUnit (some g) priority now).run calls).NumPods ≥ g.Spec.MinMember := by
  apply PodGroupUnit.ready_iff_of_podGroup
  rw [PodGroupUnit.run_podGroup]
  rfl

/-- C2: a Single unit reports `ReadyToBePopulated()` exactly when it holds a queued
record whose pod is non-null, which is exactly when `NumPods() ≥ 1` (its
`MinMember`), i.e. when `NumPods() = 1`. -/
theorem SinglePodUnit.readyToBePopulated_iff_holds_workload (s : SinglePodUnit) :
    (s.ReadyToBePopulated = true ↔ ∃ q v, s.Pod = some q ∧ q.Pod = some v) ∧
    (s.ReadyToBePopulated = true ↔ s.NumPods ≥ 1) ∧
    (s.ReadyToBePopulated = true ↔ s.NumPods = 1) := by
  obtain ⟨key, held⟩ := s
  cases held with
  | none => simp [SinglePodUnit.ReadyToBePopulated, SinglePodUnit.NumPods]
  | some q =>
    cases hq : q.Pod with
    | none => simp [SinglePodUnit.ReadyToBePopulated, SinglePodUnit.NumPods, hq]
    | some v => simp [SinglePodUnit.ReadyToBePopulated, SinglePodUnit.NumPods, hq]

/-- C3: on a Group unit, `AddPod(w)` with a non-null pod returns no error and
afterwards `GetPod(w)` returns `w`. -/
theorem PodGroupUnit.getPod_after_addPod (p : PodGroupUnit) (w : QueuedPodInfo)
    (h : w.Pod ≠ none) :
    (p.AddPod w).2 = none ∧ (p.AddPod w).1.GetPod w = some w := by
  cases hw : w.Pod with
  | none => exact absurd hw h
  | some v => simp [PodGroupUnit.AddPod, PodGroupUnit.GetPod, hw, AList.lookup_insert]

/-- Witness of C3: the sample record added to a unit that already holds another one. -/
theorem PodGroupUnit.getPod_after_addPod_witness :
    sampleInfoA.Pod ≠ none ∧
    (((NewPodGroupUnit (some sampleGroup) 3 0).AddPod sampleInfoB).1.AddPod sampleInfoA).2 = none ∧
    (((NewPodGroupUnit (some sampleGroup) 3 0).AddPod sampleInfoB).1.AddPod sampleInfoA).1.GetPod
      sampleInfoA = some sampleInfoA :=
  ⟨by decide, PodGroupUnit.getPod_after_addPod _ sampleInfoA (by decide)⟩

/-- C4: on a Group unit, after `AddPod(w)` followed by `DeletePod(w)` (both succeed
when the pod of `w` is non-null) `GetPod(w)` returns nil, whatever the unit held. -/
theorem PodGroupUnit.getPod_after_addPod_deletePod (p : PodGroupUnit) (w : QueuedPodInfo)
    (h : w.Pod ≠ none) :
    (p.AddPod w).2 = none ∧ ((p.AddPod w).1.DeletePod w).2 = none ∧
    ((p.AddPod w).1.DeletePod w).1.GetPod w = none := by
  cases hw : w.Pod with
  | none => exact absurd hw h
  | some v =>
    simp [PodGroupUnit.AddPod, PodGroupUnit.DeletePod, PodGroupUnit.GetPod, hw,
      AList.lookup_erase]

/-- Witness of C4: the sample record added to and deleted from a unit that already
held a record with the same UID. -/
theorem PodGroupUnit.getPod_after_addPod_deletePod_witness :
    sampleInfoA.Pod ≠ none ∧
    (((NewPodGroupUnit (some sampleGroup) 3 0).AddPod sampleInfoA).1.AddPod sampleInfoA).2
      = none ∧
    ((((NewPodGroupUnit (some sampleGroup) 3 0).AddPod sampleInfoA).1.AddPod sampleInfoA).1.DeletePod
      sampleInfoA).2 = none ∧
    ((((NewPodGroupUnit (some sampleGroup) 3 0).AddPod sampleInfoA).1.AddPod sampleInfoA).1.DeletePod
      sampleInfoA).1.GetPod sampleInfoA = none :=
  ⟨by decide, PodGroupUnit.getPod_after_addPod_deletePod _ sampleInfoA (by decide)⟩

/-- C5: on a Single unit, for a record `w` with a non-null pod, `AddPod(w)` succeeds
and `GetPod(w)` then returns `w`; after `AddPod(w)` and `DeletePod(w)`, `GetPod(w)`
returns nil.  Neither query panics. -/
theorem SinglePodUnit.getPod_after_addPod_and_deletePod (s : SinglePodUnit) (w : QueuedPodInfo)
    (h : w.Pod ≠ none) :
    (s.AddPod w).2 = none ∧ (s.AddPod w).1.GetPod w = .ok (some w) ∧
    ((s.AddPod w).1.DeletePod w).2 = none ∧
    ((s.AddPod w).1.DeletePod w).1.GetPod w = .ok none := by
  cases hw : w.Pod with
  | none => exact absurd hw h
  | some v => simp [SinglePodUnit.AddPod, SinglePodUnit.DeletePod, SinglePodUnit.GetPod, hw]

/-- Witness of C5: the sample record added to a unit that held another record. -/
theorem SinglePodUnit.getPod_after_addPod_and_deletePod_witness :
    sampleInfoA.Pod ≠ none ∧
    ((NewSinglePodUnit (some sampleInfoB)).AddPod sampleInfoA).2 = none ∧
    ((NewSinglePodUnit (some sampleInfoB)).AddPod sampleInfoA).1.GetPod sampleInfoA
      = .ok (some sampleInfoA) ∧
    (((NewSinglePodUnit (some sampleInfoB)).AddPod sampleInfoA).1.DeletePod sampleInfoA).2
      = none ∧
    (((NewSinglePodUnit (some sampleInfoB)).AddPod sampleInfoA).1.DeletePod sampleInfoA).1.GetPod
      sampleInfoA = .ok none :=
  ⟨by decide, SinglePodUnit.getPod_after_addPod_and_deletePod _ sampleInfoA (by decide)⟩

/-- C6: on a Group unit `AddPod`, `AddPods` and `UpdatePod` are idempotent under the
UID: for a record `w` with a non-null pod, the call made twice gives the same unit
and result as the call made once; after the call `GetPod(w)` is `w`; and `NumPods()`
is unchanged when the UID of `w` was already a member (it grows by one otherwise). -/
theorem PodGroupUnit.addPod_addPods_updatePod_idempotent (p : PodGroupUnit) (w : QueuedPodInfo)
    (h : w.Pod ≠ none) :
    ((p.AddPod w).1.AddPod w = p.AddPod w ∧
      (p.AddPods [w]).1.AddPods [w] = p.AddPods [w] ∧
      (p.UpdatePod w).1.UpdatePod w = p.UpdatePod w) ∧
    ((p.AddPod w).1.GetPod w = some w ∧
      (p.AddPods [w]).1.GetPod w = some w ∧
      (p.UpdatePod w).1.GetPod w = some w) ∧
    ((p.AddPod w).1.NumPods = (if (p.GetPod w).isSome then p.NumPods else p.NumPods + 1) ∧
      (p.AddPods [w]).1.NumPods = (if (p.GetPod w).isSome then p.NumPods else p.NumPods + 1) ∧
      (p.UpdatePod w).1.NumPods = (if (p.GetPod w).isSome then p.NumPods else p.NumPods + 1)) := by
  cases hw : w.Pod with
  | none => exact absurd hw h
  | some v =>
    have hn : (((p.queuedPodInfoMap.insert v.UID w).entries.length : Nat) : Int) =
        if (p.queuedPodInfoMap.lookup v.UID).isSome then (p.queuedPodInfoMap.entries.length : Int)
        else (p.queuedPodInfoMap.entries.length : Int) + 1 := by
      rw [length_entries_insert]
      split <;> simp
    refine ⟨?_, ?_, ?_⟩
    · simp [PodGroupUnit.AddPod, PodGroupUnit.AddPods, PodGroupUnit.UpdatePod, hw,
        AList.insert_insert]
    · simp [PodGroupUnit.AddPod, PodGroupUnit.AddPods, PodGroupUnit.UpdatePod,
        PodGroupUnit.GetPod, hw, AList.lookup_insert]
    · simp only [PodGroupUnit.AddPod, PodGroupUnit.AddPods, PodGroupUnit.UpdatePod,
        PodGroupUnit.GetPod, PodGroupUnit.NumPods, hw, List.foldl_cons, List.foldl_nil]
      exact ⟨hn, hn, hn⟩

/-- Witness of C6: the sample record `sampleInfoA` added to a unit that holds
`sampleInfoB` and an older record with the UID of `sampleInfoA`. -/
theorem PodGroupUnit.addPod_addPods_updatePod_idempotent_witness :
    sampleInfoA.Pod ≠ none ∧
    ((((NewPodGroupUnit (some sampleGroup) 3 0).run
        [.addPod { sampleInfoA with Attempts := 4 }, .addPod sampleInfoB]).AddPod sampleInfoA).1.AddPod
        sampleInfoA =
      ((NewPodGroupUnit (some sampleGroup) 3 0).run
        [.addPod { sampleInfoA with Attempts := 4 }, .addPod sampleInfoB]).AddPod sampleInfoA) ∧
    (((NewPodGroupUnit (some sampleGroup) 3 0).run
        [.addPod { sampleInfoA with Attempts := 4 }, .addPod sampleInfoB]).AddPod sampleInfoA).1.NumPods
      = 2 :=
  ⟨by decide,
   (PodGroupUnit.addPod_addPods_updatePod_idempotent _ sampleInfoA (by decide)).1.1,
   by decide⟩

/-- C7: the key of a Group unit after any sequence of `AddPod`, `AddPods`,
`UpdatePod`, `DeletePod`, `ResetPods` and `SetEnqueuedTimeStamp` calls is the key it
had right after `NewPodGroupUnit`. -/
theorem PodGroupUnit.getKey_unchanged (podGroup : Option PodGroup) (priority : Int) (now : Time)
    (calls : List GroupCall) :
    ((NewPodGroupUnit podGroup priority now).run calls).GetKey
      = (NewPodGroupUnit podGroup priority now).GetKey := by
  simp only [PodGroupUnit.GetKey, PodGroupUnit.run_key]

/-- C8, counterexample: the key of a Single unit built for pod `ns/a` changes when
`AddPod` installs the record of pod `ns/b`, and becomes empty after `DeletePod`. -/
theorem SinglePodUnit.getKey_changes_after_construction :
    ((NewSinglePodUnit (some sampleInfoA)).run [.addPod sampleInfoB]).GetKey
      ≠ (NewSinglePodUnit (some sampleInfoA)).GetKey ∧
    ((NewSinglePodUnit (some sampleInfoA)).run [.deletePod sampleInfoA]).GetKey
      ≠ (NewSinglePodUnit (some sampleInfoA)).GetKey := by
  decide

/-- C8, amended: after `NewSinglePodUnit` and any sequence of `AddPod`, `AddPods`,
`UpdatePod`, `DeletePod`, `ResetPods` and `SetEnqueuedTimeStamp` calls, `GetKey()` of
a Single unit is the key of the record the unit then holds (empty when it holds
none); `AddPods`, `SetEnqueuedTimeStamp` and the calls `AddPod`, `UpdatePod`,
`DeletePod` with a null pod leave `GetKey()` unchanged in every state, whereas
`AddPod` and `UpdatePod` with a record `w` whose pod `v` is non-null succeed and set
`GetKey()` to the key of `v`, and `DeletePod` with such a record and `ResetPods` make
`GetKey()` empty. -/
theorem SinglePodUnit.getKey_is_key_of_held_record (podInfo : Option QueuedPodInfo)
    (calls : List SingleCall) :
    ((NewSinglePodUnit podInfo).run calls).GetKey =
      (match ((NewSinglePodUnit podInfo).run calls).Pod with
        | none => ""
        | some q => keyForSinglePodUnit q.Pod) ∧
    (∀ (s : SinglePodUnit) (pods : List QueuedPodInfo) (ts : Time) (a : Int),
      (s.AddPods pods).1.GetKey = s.GetKey ∧
      (s.SetEnqueuedTimeStamp ts).GetKey = s.GetKey ∧
      (s.AddPod { Pod := none, Timestamp := ts, Attempts := a }).1.GetKey = s.GetKey ∧
      (s.UpdatePod { Pod := none, Timestamp := ts, Attempts := a }).1.GetKey = s.GetKey ∧
      (s.DeletePod { Pod := none, Timestamp := ts, Attempts := a }).1.GetKey = s.GetKey) ∧
    (∀ (s : SinglePodUnit) (w : QueuedPodInfo) (v : Godel.Pod), w.Pod = some v →
      (s.AddPod w).2 = none ∧
      (s.AddPod w).1.GetKey = keyForSinglePodUnit (some v) ∧
      (s.AddPod w).1.GetKey = SinglePodUnitType ++ "/" ++ v.Namespace ++ "/" ++ v.Name ∧
      (s.UpdatePod w).2 = none ∧
      (s.UpdatePod w).1.GetKey = keyForSinglePodUnit (some v) ∧
      (s.DeletePod w).2 = none ∧
      (s.DeletePod w).1.GetKey = "") ∧
    (∀ s : SinglePodUnit, s.ResetPods.GetKey = "") := by
  refine ⟨?_, ?_, ?_, ?_⟩
  · have hinv := keyOfHeld_run (NewSinglePodUnit podInfo) calls (keyOfHeld_new podInfo)
    generalize (NewSinglePodUnit podInfo).run calls = s at hinv
    cases hp : s.Pod with
    | none => simp [SinglePodUnit.GetKey, hp]
    | some q => simp [SinglePodUnit.GetKey, hp, hinv q hp]
  · intro s pods ts a
    refine ⟨?_, ?_, rfl, rfl, rfl⟩
    · simp only [SinglePodUnit.AddPods]
      split <;> rfl
    · cases hp : s.Pod with
      | none => simp [SinglePodUnit.SetEnqueuedTimeStamp, SinglePodUnit.GetKey, hp]
      | some q => simp [SinglePodUnit.SetEnqueuedTimeStamp, SinglePodUnit.GetKey, hp]
  · intro s w v hw
    simp only [SinglePodUnit.AddPod, SinglePodUnit.UpdatePod, SinglePodUnit.DeletePod, hw,
      SinglePodUnit.GetKey, keyForSinglePodUnit, and_self]
  · intro s
    rfl

/-- C9: the key of a unit is its type tag, `/`, the namespace, `/`, the name.
For a record `w` whose pod `v` is non-null, `NewSinglePodUnit(w).GetKey()` is
`"single/" ++ v.Namespace ++ "/" ++ v.Name`; for a non-null group `g`,
`NewPodGroupUnit(g, priority).GetKey()` is `"group/" ++ g.Namespace ++ "/" ++ g.Name`;
a unit built from a nil record, from a record whose pod is nil, or from a nil group
has the empty key. -/
theorem unit_key_is_type_namespace_name (w : QueuedPodInfo) (v : Pod) (g : PodGroup)
    (priority : Int) (now ts : Time) (a : Int) (hw : w.Pod = some v) :
    ((NewSinglePodUnit (some w)).GetKey = "single/" ++ v.Namespace ++ "/" ++ v.Name ∧
      (NewSinglePodUnit (some w)).GetKey
        = SinglePodUnitType ++ "/" ++ v.Namespace ++ "/" ++ v.Name) ∧
    ((NewPodGroupUnit (some g) priority now).GetKey = "group/" ++ g.Namespace ++ "/" ++ g.Name ∧
      (NewPodGroupUnit (some g) priority now).GetKey
        = PodGroupUnitType ++ "/" ++ g.Namespace ++ "/" ++ g.Name) ∧
    (NewSinglePodUnit none).GetKey = "" ∧
    (NewSinglePodUnit (some { Pod := none, Timestamp := ts, Attempts := a })).GetKey = "" ∧
    (NewPodGroupUnit none priority now).GetKey = "" := by
  have hs : SinglePodUnitType ++ "/" = "single/" := by decide
  have hg : PodGroupUnitType ++ "/" = "group/" := by decide
  refine ⟨⟨?_, ?_⟩, ⟨?_, rfl⟩, rfl, rfl, rfl⟩
  · simp only [NewSinglePodUnit, SinglePodUnit.GetKey, keyForSinglePodUnit, hw, hs]
  · simp only [NewSinglePodUnit, SinglePodUnit.GetKey, keyForSinglePodUnit, hw]
  · simp only [NewPodGroupUnit, PodGroupUnit.GetKey, keyForPodGroupUnit, hg]

/-- Witness of C9: the keys of the units built from the sample record and group. -/
theorem unit_key_is_type_namespace_name_witness :
    sampleInfoA.Pod = some samplePodA ∧
    (NewSinglePodUnit (some sampleInfoA)).GetKey = "single/ns/a" ∧
    (NewPodGroupUnit (some sampleGroup) 3 0).GetKey = "group/ns/g" :=
  ⟨rfl,
   (unit_key_is_type_namespace_name sampleInfoA samplePodA sampleGroup 3 0 0 0 rfl).1.1,
   (unit_key_is_type_namespace_name sampleInfoA samplePodA sampleGroup 3 0 0 0 rfl).2.1.1⟩

/-- C10: on a Group unit, after `SetEnqueuedTimeStamp(t)` the unit's enqueue
timestamp is `t` and every member has `Timestamp = t`; the members are the same
records under the same UIDs with only `Timestamp` rewritten, and `NumPods()`, the
key, the priority and the group are unchanged. -/
theorem PodGroupUnit.setEnqueuedTimeStamp_sets_unit_and_members (p : PodGroupUnit) (t : Time) :
    (p.SetEnqueuedTimeStamp t).GetEnqueuedTimestamp = t ∧
    (∀ w ∈ (p.SetEnqueuedTimeStamp t).GetPods, w.Timestamp = t) ∧
    (p.SetEnqueuedTimeStamp t).GetPods = p.GetPods.map (fun w => { w with Timestamp := t }) ∧
    (p.SetEnqueuedTimeStamp t).queuedPodInfoMap.keys = p.queuedPodInfoMap.keys ∧
    (∀ q, (p.SetEnqueuedTimeStamp t).GetPod q
        = (p.GetPod q).map (fun w => { w with Timestamp := t })) ∧
    (p.SetEnqueuedTimeStamp t).NumPods = p.NumPods ∧
    (p.SetEnqueuedTimeStamp t).GetKey = p.GetKey ∧
    (p.SetEnqueuedTimeStamp t).GetPriority = p.GetPriority ∧
    (p.SetEnqueuedTimeStamp t).podGroup = p.podGroup := by
  have hpods : (p.SetEnqueuedTimeStamp t).GetPods
      = p.GetPods.map (fun w => { w with Timestamp := t }) := by
    simp [PodGroupUnit.SetEnqueuedTimeStamp, PodGroupUnit.GetPods, PodGroupUnit.setTimestamps,
      List.map_map, Function.comp]
  refine ⟨rfl, ?_, hpods, ?_, ?_, ?_, rfl, rfl, rfl⟩
  · intro w hmem
    rw [hpods, List.mem_map] at hmem
    obtain ⟨w0, _, rfl⟩ := hmem
    rfl
  · simp [PodGroupUnit.SetEnqueuedTimeStamp, PodGroupUnit.setTimestamps, AList.keys, List.keys,
      List.map_map, Function.comp]
  · intro q
    cases hq : q.Pod with
    | none => simp [PodGroupUnit.GetPod, hq]
    | some v =>
      simp only [PodGroupUnit.GetPod, hq, PodGroupUnit.SetEnqueuedTimeStamp,
        PodGroupUnit.setTimestamps, AList.lookup]
      exact List.dlookup_map₂ (f := fun _ (w : QueuedPodInfo) => { w with Timestamp := t }) v.UID
  · simp [PodGroupUnit.SetEnqueuedTimeStamp, PodGroupUnit.NumPods, PodGroupUnit.setTimestamps]

/-- C11, counterexample: on a Single unit that holds no record,
`SetEnqueuedTimeStamp(5)` stores nothing and `GetEnqueuedTimestamp()`, evaluated
when the clock reads 9, returns 9 and not 5. -/
theorem SinglePodUnit.getEnqueuedTimestamp_of_empty_unit_is_now :
    ((NewSinglePodUnit none).SetEnqueuedTimeStamp 5).GetEnqueuedTimestamp 9 ≠ 5 ∧
    (NewSinglePodUnit none).SetEnqueuedTimeStamp 5 = NewSinglePodUnit none := by
  decide

/-- C11, amended: on a Single unit that holds a record `q`, after
`SetEnqueuedTimeStamp(t)` the call `GetEnqueuedTimestamp()` returns `t` whatever the
clock reads, and the unit differs from the one before only in the `Timestamp` of the
held record; a unit that holds no record is left unchanged and reports the clock. -/
theorem SinglePodUnit.setEnqueuedTimeStamp_roundtrip_of_held (s : SinglePodUnit)
    (q : QueuedPodInfo) (t now : Time) (h : s.Pod = some q) :
    (s.SetEnqueuedTimeStamp t).GetEnqueuedTimestamp now = t ∧
    s.SetEnqueuedTimeStamp t = { key := s.key, Pod := some { q with Timestamp := t } } ∧
    (s.SetEnqueuedTimeStamp t).GetKey = s.GetKey ∧
    (∀ key : String,
      SinglePodUnit.SetEnqueuedTimeStamp { key := key, Pod := none } t
        = { key := key, Pod := none } ∧
      SinglePodUnit.GetEnqueuedTimestamp { key := key, Pod := none } now = now) := by
  obtain ⟨key, held⟩ := s
  simp only at h
  subst h
  exact ⟨rfl, rfl, rfl, fun _ => ⟨rfl, rfl⟩⟩

/-- Witness of C11 (amended): the unit holding `sampleInfoA`, stamped with 42. -/
theorem SinglePodUnit.setEnqueuedTimeStamp_roundtrip_of_held_witness :
    (NewSinglePodUnit (some sampleInfoA)).Pod = some sampleInfoA ∧
    ((NewSinglePodUnit (some sampleInfoA)).SetEnqueuedTimeStamp 42).GetEnqueuedTimestamp 99
      = 42 :=
  ⟨rfl,
   (SinglePodUnit.setEnqueuedTimeStamp_roundtrip_of_held (NewSinglePodUnit (some sampleInfoA))
      sampleInfoA 42 99 rfl).1⟩

/-- C12: on a Single unit `s` in any state, `AddPod(w)` for a record `w` whose pod
`v` is non-null returns no error; afterwards the unit holds exactly `w`
(`GetPods() = [w]`, `NumPods() = 1`) and `GetKey()` is the key computed from the
namespace and name of `v`; the outcome is the same from any other state `s'`. -/
theorem SinglePodUnit.addPod_replaces_workload_and_key (s s' : SinglePodUnit)
    (w : QueuedPodInfo) (v : Godel.Pod) (h : w.Pod = some v) :
    (s.AddPod w).2 = none ∧
    (s.AddPod w).1.Pod = some w ∧
    (s.AddPod w).1.GetPods = [w] ∧
    (s.AddPod w).1.NumPods = 1 ∧
    (s.AddPod w).1.GetKey = keyForSinglePodUnit (some v) ∧
    (s.AddPod w).1.GetKey = "single/" ++ v.Namespace ++ "/" ++ v.Name ∧
    s.AddPod w = s'.AddPod w := by
  have hs : SinglePodUnitType ++ "/" = "single/" := by decide
  refine ⟨?_, ?_, ?_, ?_, ?_, ?_, ?_⟩
  · simp [SinglePodUnit.AddPod, h]
  · simp [SinglePodUnit.AddPod, h]
  · simp [SinglePodUnit.AddPod, SinglePodUnit.GetPods, h]
  · simp [SinglePodUnit.AddPod, SinglePodUnit.NumPods, h]
  · simp [SinglePodUnit.AddPod, SinglePodUnit.GetKey, h]
  · simp only [SinglePodUnit.AddPod, SinglePodUnit.GetKey, keyForSinglePodUnit, h, hs]
  · simp [SinglePodUnit.AddPod, h]

/-- Witness of C12: `sampleInfoB` added to the unit built for `sampleInfoA`. -/
theorem SinglePodUnit.addPod_replaces_workload_and_key_witness :
    sampleInfoB.Pod = some samplePodB ∧
    ((NewSinglePodUnit (some sampleInfoA)).AddPod sampleInfoB).1.GetPods = [sampleInfoB] ∧
    ((NewSinglePodUnit (some sampleInfoA)).AddPod sampleInfoB).1.GetKey = "single/ns/b" :=
  ⟨rfl,
   (SinglePodUnit.addPod_replaces_workload_and_key (NewSinglePodUnit (some sampleInfoA))
      (NewSinglePodUnit none) sampleInfoB samplePodB rfl).2.2.1,
   (SinglePodUnit.addPod_replaces_workload_and_key (NewSinglePodUnit (some sampleInfoA))
      (NewSinglePodUnit none) sampleInfoB samplePodB rfl).2.2.2.2.2.1⟩

/-- C13: on a Group unit `p` and on a Single unit `s`, `AddPod`, `UpdatePod` and
`DeletePod` called with a record whose pod is nil return the error `invalid pod` and
the unit unchanged; called with a record whose pod is non-nil they return no
error. -/
theorem addPod_updatePod_deletePod_error_iff_nil_pod (p : PodGroupUnit) (s : SinglePodUnit)
    (w : QueuedPodInfo) :
    (w.Pod = none →
      p.AddPod w = (p, some "invalid pod") ∧
      p.UpdatePod w = (p, some "invalid pod") ∧
      p.DeletePod w = (p, some "invalid pod") ∧
      s.AddPod w = (s, some "invalid pod") ∧
      s.UpdatePod w = (s, some "invalid pod") ∧
      s.DeletePod w = (s, some "invalid pod")) ∧
    (w.Pod ≠ none →
      (p.AddPod w).2 = none ∧ (p.UpdatePod w).2 = none ∧ (p.DeletePod w).2 = none ∧
      (s.AddPod w).2 = none ∧ (s.UpdatePod w).2 = none ∧ (s.DeletePod w).2 = none) := by
  constructor
  · intro h
    simp [PodGroupUnit.AddPod, PodGroupUnit.UpdatePod, PodGroupUnit.DeletePod,
      SinglePodUnit.AddPod, SinglePodUnit.UpdatePod, SinglePodUnit.DeletePod, h]
  · intro h
    cases hw : w.Pod with
    | none => exact absurd hw h
    | some v =>
      simp [PodGroupUnit.AddPod, PodGroupUnit.UpdatePod, PodGroupUnit.DeletePod,
        SinglePodUnit.AddPod, SinglePodUnit.UpdatePod, SinglePodUnit.DeletePod, hw]

/-- Witness of C13: a record without pod is refused by a Group unit holding
`sampleInfoA` and leaves it as it was; `sampleInfoB` is accepted. -/
theorem addPod_updatePod_deletePod_error_iff_nil_pod_witness :
    (((NewPodGroupUnit (some sampleGroup) 3 0).AddPod sampleInfoA).1.AddPod
        { Pod := none, Timestamp := 1, Attempts := 0 }
      = (((NewPodGroupUnit (some sampleGroup) 3 0).AddPod sampleInfoA).1, some "invalid pod")) ∧
    ((NewSinglePodUnit (some sampleInfoA)).DeletePod { Pod := none, Timestamp := 1, Attempts := 0 }
      = (NewSinglePodUnit (some sampleInfoA), some "invalid pod")) ∧
    (((NewPodGroupUnit (some sampleGroup) 3 0).AddPod sampleInfoA).1.DeletePod sampleInfoB).2
      = none :=
  ⟨((addPod_updatePod_deletePod_error_iff_nil_pod _ (NewSinglePodUnit (some sampleInfoA))
      { Pod := none, Timestamp := 1, Attempts := 0 }).1 rfl).1,
   ((addPod_updatePod_deletePod_error_iff_nil_pod
      ((NewPodGroupUnit (some sampleGroup) 3 0).AddPod sampleInfoA).1 _
      { Pod := none, Timestamp := 1, Attempts := 0 }).1 rfl).2.2.2.2.2,
   ((addPod_updatePod_deletePod_error_iff_nil_pod _ (NewSinglePodUnit (some sampleInfoA))
      sampleInfoB).2 (by decide)).2.2.1⟩

/-- C14: `SinglePodUnit.AddPods` returns an error, with the text `invalid pods`,
exactly when the batch does not have exactly one entry. -/
theorem SinglePodUnit.addPods_error_iff_length_ne_one (s : SinglePodUnit)
    (pods : List QueuedPodInfo) :
    ((s.AddPods pods).2 ≠ none ↔ pods.length ≠ 1) ∧
    ((s.AddPods pods).2 = none ↔ pods.length = 1) ∧
    (s.AddPods pods).2 = (if pods.length = 1 then none else some "invalid pods") ∧
    (s.AddPods []).2 = some "invalid pods" ∧
    (∀ a b rest, (s.AddPods (a :: b :: rest)).2 = some "invalid pods") ∧
    (∀ a, (s.AddPods [a]).2 = none) := by
  have hres : (s.AddPods pods).2 = (if pods.length = 1 then none else some "invalid pods") := by
    simp only [SinglePodUnit.AddPods]
    by_cases hl : pods.length = 1 <;> simp [hl]
  refine ⟨?_, ?_, hres, rfl, ?_, fun _ => rfl⟩
  · rw [hres]; by_cases hl : pods.length = 1 <;> simp [hl]
  · rw [hres]; by_cases hl : pods.length = 1 <;> simp [hl]
  · intro a b rest
    simp [SinglePodUnit.AddPods]

/-- C15: `SinglePodUnit.AddPods` never changes the unit, whatever the batch and
whether or not it returns an error; in particular, on a unit that holds no record,
`AddPods([w])` for a record `w` with a non-nil pod succeeds and `GetPod(w)` still
returns nil afterwards. -/
theorem SinglePodUnit.addPods_leaves_unit_unchanged (s : SinglePodUnit)
    (pods : List QueuedPodInfo) (key : String) (v : Godel.Pod) (ts : Time) (a : Int) :
    (s.AddPods pods).1 = s ∧
    (s.AddPods pods).1.Pod = s.Pod ∧
    (s.AddPods pods).1.GetKey = s.GetKey ∧
    (SinglePodUnit.AddPods { key := key, Pod := none }
        [{ Pod := some v, Timestamp := ts, Attempts := a }]).2 = none ∧
    (SinglePodUnit.AddPods { key := key, Pod := none }
        [{ Pod := some v, Timestamp := ts, Attempts := a }]).1.GetPod
        { Pod := some v, Timestamp := ts, Attempts := a } = .ok none := by
  have hsame : (s.AddPods pods).1 = s := by
    simp only [SinglePodUnit.AddPods]
    split <;> rfl
  refine ⟨hsame, ?_, ?_, rfl, rfl⟩
  · rw [hsame]
  · rw [hsame]

/-- C16: `PodGroupUnit.PodBelongToUnit(pod)` is true exactly when the unit's group is
non-nil, the pod carries the group-name annotation with a non-empty value, that value
is the group's name and the pod's namespace is the group's namespace; the answer is
the same whatever members and enqueue timestamp the unit has. -/
theorem PodGroupUnit.podBelongToUnit_iff (p : PodGroupUnit) (pod : Godel.Pod)
    (m : PodInfoMap) (t : Time) :
    (p.PodBelongToUnit pod = true ↔
      ∃ g name, p.podGroup = some g ∧
        pod.Annotations.bind (fun l => l.lookup PodGroupNameAnnotationKey) = some name ∧
        name ≠ "" ∧ name = g.Name ∧ pod.Namespace = g.Namespace) ∧
    PodGroupUnit.PodBelongToUnit { p with queuedPodInfoMap := m, timestamp := t } pod
      = p.PodBelongToUnit pod := by
  refine ⟨?_, rfl⟩
  have hidx : mapIndex pod.Annotations PodGroupNameAnnotationKey
      = (pod.Annotations.bind (fun l => l.lookup PodGroupNameAnnotationKey)).getD "" := by
    cases pod.Annotations <;> rfl
  simp only [PodGroupUnit.PodBelongToUnit, hidx, string_length_eq_zero_iff]
  cases hl : pod.Annotations.bind (fun l => l.lookup PodGroupNameAnnotationKey) with
  | none => simp
  | some name =>
    cases hg : p.podGroup with
    | none => simp
    | some g =>
      by_cases hn : name = ""
      · simp [hn]
      · simp only [Option.getD_some, hn, if_false, Option.some.injEq]
        constructor
        · intro h
          have h2 : g.Name = name ∧ g.Namespace = pod.Namespace := by
            by_contra hc
            simp [hc] at h
          exact ⟨g, name, rfl, rfl, hn, h2.1.symm, h2.2.symm⟩
        · rintro ⟨g', name', hg', hname', _, h1, h2⟩
          subst hg' hname'
          simp [h1, h2]

/-- Witness of C16: a unit for group `ns/g` owns `samplePodC`, which is annotated with
the group name `g`, and does not own `samplePodA`, which has no annotation. -/
theorem PodGroupUnit.podBelongToUnit_iff_witness :
    (NewPodGroupUnit (some sampleGroup) 3 0).PodBelongToUnit samplePodC = true ∧
    ¬ (NewPodGroupUnit (some sampleGroup) 3 0).PodBelongToUnit samplePodA = true :=
  ⟨((PodGroupUnit.podBelongToUnit_iff (NewPodGroupUnit (some sampleGroup) 3 0) samplePodC ∅ 0).1).2
      ⟨sampleGroup, "g", rfl, rfl, by decide, rfl, rfl⟩,
   by decide⟩

/-- C17: for a Group unit with non-nil group `g`, when the spec of `g` has a
`PodGroupAffinity` the call `GetSortRulesForAffinity()` returns, without error, one
rule per configured sort rule in the configured order, with `Resource` and `Order`
copied and `Dimension` equal to `Capacity` when the configured one is the empty string
and to the configured one otherwise; when the spec has no affinity it returns no rule
and no error. -/
theorem PodGroupUnit.getSortRulesForAffinity_maps_rules (p : PodGroupUnit) (g : PodGroup)
    (h : p.podGroup = some g) :
    (∀ a affinity, g.Spec.Affinity = some a → a.PodGroupAffinity = some affinity →
      p.GetSortRulesForAffinity = .ok (affinity.SortRules.map (fun r =>
          ({ Resource := r.Resource
             Dimension := if r.Dimension = "" then Capacity else r.Dimension
             Order := r.Order } : SortRule)), none)) ∧
    (g.Spec.Affinity = none → p.GetSortRulesForAffinity = .ok ([], none)) ∧
    (∀ a, g.Spec.Affinity = some a → a.PodGroupAffinity = none →
      p.GetSortRulesForAffinity = .ok ([], none)) := by
  refine ⟨?_, ?_, ?_⟩
  · intro a affinity ha haff
    simp only [PodGroupUnit.GetSortRulesForAffinity, h, ha, haff, foldl_sort_rules,
      List.nil_append]
  · intro ha
    simp only [PodGroupUnit.GetSortRulesForAffinity, h, ha]
  · intro a ha haff
    simp only [PodGroupUnit.GetSortRulesForAffinity, h, ha, haff]

/-- Witness of C17: the sort rules of the sample group; the rule without dimension
gets `Capacity`, the unknown dimension `other` is passed on. -/
theorem PodGroupUnit.getSortRulesForAffinity_maps_rules_witness :
    (NewPodGroupUnit (some sampleGroupWithAffinity) 3 0).podGroup = some sampleGroupWithAffinity ∧
    (NewPodGroupUnit (some sampleGroupWithAffinity) 3 0).GetSortRulesForAffinity
      = .ok ([{ Resource := "GPU", Dimension := "Capacity", Order := "Ascending" },
              { Resource := "CPU", Dimension := "Available", Order := "Descending" },
              { Resource := "Memory", Dimension := "other", Order := "" }], none) :=
  ⟨rfl,
   (PodGroupUnit.getSortRulesForAffinity_maps_rules
      (NewPodGroupUnit (some sampleGroupWithAffinity) 3 0) sampleGroupWithAffinity rfl).1
      { PodGroupAffinity := some sampleAffinity } sampleAffinity rfl rfl⟩

/-- C18: for a Group unit with non-nil group `g`, `GetRequiredAffinity()` and
`GetPreferredAffinity()` return no error and no panic; when the spec has a
`PodGroupAffinity` they return the terms of `Required` (resp. `Preferred`) whose
`TopologyKey` is non-empty, in their order, and nothing when it has none; every
returned term has a non-empty `TopologyKey`. -/
theorem PodGroupUnit.getRequired_getPreferred_affinity_filter (p : PodGroupUnit) (g : PodGroup)
    (h : p.podGroup = some g) :
    (∀ a affinity, g.Spec.Affinity = some a → a.PodGroupAffinity = some affinity →
      p.GetRequiredAffinity = .ok ((affinity.Required.filter (fun t => t.TopologyKey ≠ "")).map
          (fun t => ({ TopologyKey := t.TopologyKey } : UnitAffinityTerm)), none) ∧
      p.GetPreferredAffinity = .ok ((affinity.Preferred.filter (fun t => t.TopologyKey ≠ "")).map
          (fun t => ({ TopologyKey := t.TopologyKey } : UnitAffinityTerm)), none)) ∧
    (g.Spec.Affinity = none →
      p.GetRequiredAffinity = .ok ([], none) ∧ p.GetPreferredAffinity = .ok ([], none)) ∧
    (∀ a, g.Spec.Affinity = some a → a.PodGroupAffinity = none →
      p.GetRequiredAffinity = .ok ([], none) ∧ p.GetPreferredAffinity = .ok ([], none)) ∧
    (∃ terms, p.GetRequiredAffinity = .ok (terms, none) ∧ ∀ t ∈ terms, t.TopologyKey ≠ "") ∧
    (∃ terms, p.GetPreferredAffinity = .ok (terms, none) ∧ ∀ t ∈ terms, t.TopologyKey ≠ "") := by
  have hmem : ∀ (l : List PodGroupAffinityTerm) (t : UnitAffinityTerm),
      t ∈ (l.filter (fun t => t.TopologyKey ≠ "")).map
          (fun t => ({ TopologyKey := t.TopologyKey } : UnitAffinityTerm)) →
      t.TopologyKey ≠ "" := by
    intro l t ht
    rw [List.mem_map] at ht
    obtain ⟨t0, ht0, rfl⟩ := ht
    simpa using (List.mem_filter.mp ht0).2
  have hsome : ∀ a affinity, g.Spec.Affinity = some a → a.PodGroupAffinity = some affinity →
      p.GetRequiredAffinity = .ok ((affinity.Required.filter (fun t => t.TopologyKey ≠ "")).map
          (fun t => ({ TopologyKey := t.TopologyKey } : UnitAffinityTerm)), none) ∧
      p.GetPreferredAffinity = .ok ((affinity.Preferred.filter (fun t => t.TopologyKey ≠ "")).map
          (fun t => ({ TopologyKey := t.TopologyKey } : UnitAffinityTerm)), none) := by
    intro a affinity ha haff
    simp only [PodGroupUnit.GetRequiredAffinity, PodGroupUnit.GetPreferredAffinity, h, ha, haff,
      foldl_affinity_terms, List.nil_append, and_self]
  have hnone : g.Spec.Affinity = none →
      p.GetRequiredAffinity = .ok ([], none) ∧ p.GetPreferredAffinity = .ok ([], none) := by
    intro ha
    simp only [PodGroupUnit.GetRequiredAffinity, PodGroupUnit.GetPreferredAffinity, h, ha,
      and_self]
  have hnone2 : ∀ a, g.Spec.Affinity = some a → a.PodGroupAffinity = none →
      p.GetRequiredAffinity = .ok ([], none) ∧ p.GetPreferredAffinity = .ok ([], none) := by
    intro a ha haff
    simp only [PodGroupUnit.GetRequiredAffinity, PodGroupUnit.GetPreferredAffinity, h, ha, haff,
      and_self]
  refine ⟨hsome, hnone, hnone2, ?_, ?_⟩
  · cases ha : g.Spec.Affinity with
    | none => exact ⟨[], (hnone ha).1, by simp⟩
    | some a =>
      cases haff : a.PodGroupAffinity with
      | none => exact ⟨[], (hnone2 a ha haff).1, by simp⟩
      | some affinity => exact ⟨_, (hsome a affinity ha haff).1, hmem _⟩
  · cases ha : g.Spec.Affinity with
    | none => exact ⟨[], (hnone ha).2, by simp⟩
    | some a =>
      cases haff : a.PodGroupAffinity with
      | none => exact ⟨[], (hnone2 a ha haff).2, by simp⟩
      | some affinity => exact ⟨_, (hsome a affinity ha haff).2, hmem _⟩

/-- Witness of C18: the required and preferred terms of the sample group; the terms
without topology key are dropped. -/
theorem PodGroupUnit.getRequired_getPreferred_affinity_filter_witness :
    (NewPodGroupUnit (some sampleGroupWithAffinity) 3 0).podGroup = some sampleGroupWithAffinity ∧
    (NewPodGroupUnit (some sampleGroupWithAffinity) 3 0).GetRequiredAffinity
      = .ok ([{ TopologyKey := "zone" }, { TopologyKey := "rack" }], none) ∧
    (NewPodGroupUnit (some sampleGroupWithAffinity) 3 0).GetPreferredAffinity
      = .ok ([{ TopologyKey := "rack" }], none) :=
  ⟨rfl,
   (PodGroupUnit.getRequired_getPreferred_affinity_filter
      (NewPodGroupUnit (some sampleGroupWithAffinity) 3 0) sampleGroupWithAffinity rfl).1
      { PodGroupAffinity := some sampleAffinity } sampleAffinity rfl rfl⟩

/-- C19: `SinglePodUnit.GetPriority()` is the `Spec.Priority` of the held pod when
the unit holds a record with a non-nil pod whose priority is set, and 100 when it
holds no record, when the record's pod is nil, or when the priority is unset. -/
theorem SinglePodUnit.getPriority_is_pod_priority_or_100 (s : SinglePodUnit) :
    (∀ q v priority, s.Pod = some q → q.Pod = some v → v.Priority = some priority →
      s.GetPriority = priority) ∧
    (s.Pod = none → s.GetPriority = 100) ∧
    (∀ q, s.Pod = some q → q.Pod = none → s.GetPriority = 100) ∧
    (∀ q v, s.Pod = some q → q.Pod = some v → v.Priority = none → s.GetPriority = 100) := by
  refine ⟨?_, ?_, ?_, ?_⟩
  · intro q v priority hq hv hp
    simp [SinglePodUnit.GetPriority, hq, hv, hp]
  · intro hq
    simp [SinglePodUnit.GetPriority, hq]
  · intro q hq hv
    simp [SinglePodUnit.GetPriority, hq, hv]
  · intro q v hq hv hp
    simp [SinglePodUnit.GetPriority, hq, hv, hp]

/-- Witness of C19: the unit for `samplePodC` (priority 7) has priority 7, the unit
for `samplePodA` (priority unset) and the empty unit have priority 100. -/
theorem SinglePodUnit.getPriority_is_pod_priority_or_100_witness :
    (NewSinglePodUnit (some sampleInfoC)).GetPriority = 7 ∧
    (NewSinglePodUnit (some sampleInfoA)).GetPriority = 100 ∧
    (NewSinglePodUnit none).GetPriority = 100 :=
  ⟨(SinglePodUnit.getPriority_is_pod_priority_or_100 (NewSinglePodUnit (some sampleInfoC))).1
      sampleInfoC samplePodC 7 rfl rfl rfl,
   (SinglePodUnit.getPriority_is_pod_priority_or_100 (NewSinglePodUnit (some sampleInfoA))).2.2.2
      sampleInfoA samplePodA rfl rfl rfl,
   (SinglePodUnit.getPriority_is_pod_priority_or_100 (NewSinglePodUnit none)).2.1 rfl⟩

/-- C20: `GetPriority()` of a Group unit is the priority given to `NewPodGroupUnit`,
after any sequence of `AddPod`, `AddPods`, `UpdatePod`, `DeletePod`, `ResetPods` and
`SetEnqueuedTimeStamp` calls and hence whatever the priorities of the members. -/
theorem PodGroupUnit.getPriority_is_constructor_priority (podGroup : Option PodGroup)
    (priority : Int) (now : Time) (calls : List GroupCall) :
    ((NewPodGroupUnit podGroup priority now).run calls).GetPriority = priority ∧
    (NewPodGroupUnit podGroup priority now).GetPriority = priority := by
  refine ⟨?_, rfl⟩
  simp only [PodGroupUnit.GetPriority, PodGroupUnit.run_priority]
  rfl

/-- C21: the demand computed by `ComputePodResourceRequest` is, for CPU, memory,
ephemeral storage and each scalar resource `name`, the maximum of the sum of the
containers' requests and of the largest init-container request, plus the overhead of
the workload (zero when unset); the init containers enter by their maximum, not by
their sum.  The sum and the addition are those of the resource vector, which saturate
at `MaxInt64`: the demand is the exact value of that expression capped at `MaxInt64`,
hence the exact value itself whenever that is at most `MaxInt64`. -/
theorem computePodResourceRequest_max_of_sum_and_init_plus_overhead (w : Workload)
    (name : String) :
    ((ComputePodResourceRequest w).MilliCPU
      = satAdd (max (satSum (w.Containers.map (fun c => c.MilliCPU)))
                  ((w.InitContainers.map (fun c => c.MilliCPU)).foldr max 0))
          (w.Overhead.getD {}).MilliCPU ∧
    (ComputePodResourceRequest w).Memory
      = satAdd (max (satSum (w.Containers.map (fun c => c.Memory)))
                  ((w.InitContainers.map (fun c => c.Memory)).foldr max 0))
          (w.Overhead.getD {}).Memory ∧
    (ComputePodResourceRequest w).EphemeralStorage
      = satAdd (max (satSum (w.Containers.map (fun c => c.EphemeralStorage)))
                  ((w.InitContainers.map (fun c => c.EphemeralStorage)).foldr max 0))
          (w.Overhead.getD {}).EphemeralStorage ∧
    (ComputePodResourceRequest w).scalar name
      = satAdd (max (satSum (w.Containers.map (fun c => c.scalar name)))
                  ((w.InitContainers.map (fun c => c.scalar name)).foldr max 0))
          ((w.Overhead.getD {}).scalar name)) ∧
    ((ComputePodResourceRequest w).MilliCPU
      = min (max ((w.Containers.map (fun c => c.MilliCPU)).sum)
              ((w.InitContainers.map (fun c => c.MilliCPU)).foldr max 0)
            + (w.Overhead.getD {}).MilliCPU) MaxInt64 ∧
    (ComputePodResourceRequest w).Memory
      = min (max ((w.Containers.map (fun c => c.Memory)).sum)
              ((w.InitContainers.map (fun c => c.Memory)).foldr max 0)
            + (w.Overhead.getD {}).Memory) MaxInt64 ∧
    (ComputePodResourceRequest w).EphemeralStorage
      = min (max ((w.Containers.map (fun c => c.EphemeralStorage)).sum)
              ((w.InitContainers.map (fun c => c.EphemeralStorage)).foldr max 0)
            + (w.Overhead.getD {}).EphemeralStorage) MaxInt64 ∧
    (ComputePodResourceRequest w).scalar name
      = min (max ((w.Containers.map (fun c => c.scalar name)).sum)
              ((w.InitContainers.map (fun c => c.scalar name)).foldr max 0)
            + (w.Overhead.getD {}).scalar name) MaxInt64) ∧
    ((max ((w.Containers.map (fun c => c.MilliCPU)).sum)
          ((w.InitContainers.map (fun c => c.MilliCPU)).foldr max 0)
        + (w.Overhead.getD {}).MilliCPU ≤ MaxInt64 →
      (ComputePodResourceRequest w).MilliCPU
        = max ((w.Containers.map (fun c => c.MilliCPU)).sum)
            ((w.InitContainers.map (fun c => c.MilliCPU)).foldr max 0)
          + (w.Overhead.getD {}).MilliCPU) ∧
    (max ((w.Containers.map (fun c => c.Memory)).sum)
          ((w.InitContainers.map (fun c => c.Memory)).foldr max 0)
        + (w.Overhead.getD {}).Memory ≤ MaxInt64 →
      (ComputePodResourceRequest w).Memory
        = max ((w.Containers.map (fun c => c.Memory)).sum)
            ((w.InitContainers.map (fun c => c.Memory)).foldr max 0)
          + (w.Overhead.getD {}).Memory) ∧
    (max ((w.Containers.map (fun c => c.EphemeralStorage)).sum)
          ((w.InitContainers.map (fun c => c.EphemeralStorage)).foldr max 0)
        + (w.Overhead.getD {}).EphemeralStorage ≤ MaxInt64 →
      (ComputePodResourceRequest w).EphemeralStorage
        = max ((w.Containers.map (fun c => c.EphemeralStorage)).sum)
            ((w.InitContainers.map (fun c => c.EphemeralStorage)).foldr max 0)
          + (w.Overhead.getD {}).EphemeralStorage) ∧
    (max ((w.Containers.map (fun c => c.scalar name)).sum)
          ((w.InitContainers.map (fun c => c.scalar name)).foldr max 0)
        + (w.Overhead.getD {}).scalar name ≤ MaxInt64 →
      (ComputePodResourceRequest w).scalar name
        = max ((w.Containers.map (fun c => c.scalar name)).sum)
            ((w.InitContainers.map (fun c => c.scalar name)).foldr max 0)
          + (w.Overhead.getD {}).scalar name)) := by
  have hcpu := demand_proj (fun r => r.MilliCPU) rfl (fun _ _ => rfl) (fun _ _ => rfl) w
  have hmem := demand_proj (fun r => r.Memory) rfl (fun _ _ => rfl) (fun _ _ => rfl) w
  have hsto := demand_proj (fun r => r.EphemeralStorage) rfl (fun _ _ => rfl) (fun _ _ => rfl) w
  have hsc := demand_proj (fun r => r.scalar name) rfl (fun a b => Resource.scalar_add a b name)
    (fun a b => Resource.scalar_componentwiseMax a b name) w
  have hsat : ∀ (d : Nat) (l : List Nat) (m o : Nat), d = min (max l.sum m + o) MaxInt64 →
      d = satAdd (max (satSum l) m) o := by
    intro d l m o hd
    rw [hd, satSum_eq_min]
    unfold satAdd
    omega
  refine ⟨⟨hsat _ _ _ _ hcpu, hsat _ _ _ _ hmem, hsat _ _ _ _ hsto, hsat _ _ _ _ hsc⟩,
    ⟨hcpu, hmem, hsto, hsc⟩, ?_, ?_, ?_, ?_⟩
  · intro h
    exact hcpu.trans (Nat.min_eq_left h)
  · intro h
    exact hmem.trans (Nat.min_eq_left h)
  · intro h
    exact hsto.trans (Nat.min_eq_left h)
  · intro h
    exact hsc.trans (Nat.min_eq_left h)

/-- Witness of C21: the case `multiple init containers fit because it's the max, not
sum` of `fit_test.go`: one container and three init containers, each requesting one
milli-CPU, give a demand of one milli-CPU. -/
theorem computePodResourceRequest_max_of_sum_and_init_plus_overhead_witness :
    (ComputePodResourceRequest
      (newResourceInitPod (newResourcePod [{ MilliCPU := 1, Memory := 1 }])
        [{ MilliCPU := 1, Memory := 1 }, { MilliCPU := 1, Memory := 1 },
         { MilliCPU := 1, Memory := 1 }])).MilliCPU = 1 :=
  (computePodResourceRequest_max_of_sum_and_init_plus_overhead _ "").2.2.1 (by decide)

/-- C22: for every workload, the demand is, for CPU, memory, ephemeral storage and each
scalar resource, at least the request of any single init container plus the overhead
and at least the request of any single container plus the overhead.  The sum is the
saturating one of the resource vector, and the exact one whenever that is at most
`MaxInt64`. -/
theorem demand_ge_each_container_plus_overhead (w : Workload) (c : Resource) (name : String)
    (h : c ∈ w.InitContainers ∨ c ∈ w.Containers) :
    (satAdd c.MilliCPU (w.Overhead.getD {}).MilliCPU ≤ (ComputePodResourceRequest w).MilliCPU ∧
    satAdd c.Memory (w.Overhead.getD {}).Memory ≤ (ComputePodResourceRequest w).Memory ∧
    satAdd c.EphemeralStorage (w.Overhead.getD {}).EphemeralStorage
      ≤ (ComputePodResourceRequest w).EphemeralStorage ∧
    satAdd (c.scalar name) ((w.Overhead.getD {}).scalar name)
      ≤ (ComputePodResourceRequest w).scalar name) ∧
    ((c.MilliCPU + (w.Overhead.getD {}).MilliCPU ≤ MaxInt64 →
      c.MilliCPU + (w.Overhead.getD {}).MilliCPU ≤ (ComputePodResourceRequest w).MilliCPU) ∧
    (c.Memory + (w.Overhead.getD {}).Memory ≤ MaxInt64 →
      c.Memory + (w.Overhead.getD {}).Memory ≤ (ComputePodResourceRequest w).Memory) ∧
    (c.EphemeralStorage + (w.Overhead.getD {}).EphemeralStorage ≤ MaxInt64 →
      c.EphemeralStorage + (w.Overhead.getD {}).EphemeralStorage
        ≤ (ComputePodResourceRequest w).EphemeralStorage) ∧
    (c.scalar name + (w.Overhead.getD {}).scalar name ≤ MaxInt64 →
      c.scalar name + (w.Overhead.getD {}).scalar name
        ≤ (ComputePodResourceRequest w).scalar name)) := by
  have key : ∀ (π : Resource → Nat), π {} = 0 → (∀ a b, π (a.add b) = satAdd (π a) (π b)) →
      (∀ a b, π (a.componentwiseMax b) = max (π a) (π b)) →
      satAdd (π c) (π (w.Overhead.getD {}))
        ≤ π (Resource.componentwiseMax ((w.Containers.foldl Resource.add {}).add (w.Overhead.getD {}))
            ((w.InitContainers.foldl Resource.componentwiseMax {}).add (w.Overhead.getD {}))) := by
    intro π hz hadd hmax
    rw [demand_proj π hz hadd hmax w]
    unfold satAdd
    rcases h with h | h
    · have := le_foldr_max_of_mem_map π _ c h
      omega
    · have := le_sum_of_mem_map π _ c h
      omega
  have hexact : ∀ a b d : Nat, satAdd a b ≤ d → a + b ≤ MaxInt64 → a + b ≤ d := by
    intro a b d hle hin
    unfold satAdd at hle
    omega
  have hcpu := key (fun r => r.MilliCPU) rfl (fun _ _ => rfl) (fun _ _ => rfl)
  have hmem := key (fun r => r.Memory) rfl (fun _ _ => rfl) (fun _ _ => rfl)
  have hsto := key (fun r => r.EphemeralStorage) rfl (fun _ _ => rfl) (fun _ _ => rfl)
  have hsc := key (fun r => r.scalar name) rfl (fun a b => Resource.scalar_add a b name)
    (fun a b => Resource.scalar_componentwiseMax a b name)
  exact ⟨⟨hcpu, hmem, hsto, hsc⟩, hexact _ _ _ hcpu, hexact _ _ _ hmem, hexact _ _ _ hsto,
    hexact _ _ _ hsc⟩

/-- Witness of C22: the case `highest init container cpu` of `fit_test.go`; the init
container requesting three milli-CPU bounds the demand from below. -/
theorem demand_ge_each_container_plus_overhead_witness :
    ({ MilliCPU := 3, Memory := 1 } : Resource)
        ∈ (newResourceInitPod (newResourcePod [{ MilliCPU := 1, Memory := 1 }])
            [{ MilliCPU := 3, Memory := 1 }, { MilliCPU := 2, Memory := 1 }]).InitContainers ∧
    3 + 0 ≤ (ComputePodResourceRequest
        (newResourceInitPod (newResourcePod [{ MilliCPU := 1, Memory := 1 }])
          [{ MilliCPU := 3, Memory := 1 }, { MilliCPU := 2, Memory := 1 }])).MilliCPU :=
  ⟨by decide,
   (demand_ge_each_container_plus_overhead
      (newResourceInitPod (newResourcePod [{ MilliCPU := 1, Memory := 1 }])
        [{ MilliCPU := 3, Memory := 1 }, { MilliCPU := 2, Memory := 1 }])
      { MilliCPU := 3, Memory := 1 } "" (Or.inl (by decide))).2.1 (by decide)⟩

/-- C23, counterexample: the case `ignore pods limit` of `fit_test.go`.  The workload
requests nothing and `FitsRequest` succeeds on a node whose 32 residents request 320
milli-CPU of the 10 allocatable ones, so `Used + Requested ≤ Allocatable` fails for
CPU, with the exact sum and with the saturating one. -/
theorem fitsRequest_succeeds_on_overcommitted_node :
    FitsRequest (ComputePodResourceRequest ignorePodsLimitPod) (testNode thirtyTwoPods) [] []
      = none ∧
    ¬ ((testNode thirtyTwoPods).Requested.MilliCPU
        + (ComputePodResourceRequest ignorePodsLimitPod).MilliCPU
      ≤ (testNode thirtyTwoPods).Allocatable.MilliCPU) ∧
    ¬ (satAdd (testNode thirtyTwoPods).Requested.MilliCPU
        (ComputePodResourceRequest ignorePodsLimitPod).MilliCPU
      ≤ (testNode thirtyTwoPods).Allocatable.MilliCPU) := by
  have hused : (testNode thirtyTwoPods).Requested.MilliCPU = 320 := by
    unfold NodeInfo.Requested
    rw [foldl_add_proj (fun r => r.MilliCPU) (fun _ _ => rfl) _ _ (by decide)]
    decide
  refine ⟨by decide, ?_, ?_⟩
  · rw [hused]
    decide
  · rw [hused]
    decide

/-- C23, amended: when `FitsRequest` succeeds for a demand `D` that asks for some
resource (CPU, memory or ephemeral storage non-zero, or a scalar entry), then
`Used + Requested ≤ Allocatable` holds for CPU, memory, ephemeral storage and for every
scalar entry of `D` whose name is neither ignored nor has its prefix before `/` among
the ignored groups; a demand that asks for nothing succeeds as soon as the pod count
is admitted.  The sum is the saturating one of the resource vector; it is the exact
sum whenever the allocatable quantity is below `MaxInt64`. -/
theorem fitsRequest_success_implies_fit (D : Resource) (N : NodeInfo)
    (ignored groups : List String) (h : FitsRequest D N ignored groups = none)
    (hD : D.MilliCPU ≠ 0 ∨ D.Memory ≠ 0 ∨ D.EphemeralStorage ≠ 0 ∨ D.ScalarResources ≠ []) :
    (satAdd N.Requested.MilliCPU D.MilliCPU ≤ N.Allocatable.MilliCPU ∧
    satAdd N.Requested.Memory D.Memory ≤ N.Allocatable.Memory ∧
    satAdd N.Requested.EphemeralStorage D.EphemeralStorage ≤ N.Allocatable.EphemeralStorage ∧
    (∀ name q, (name, q) ∈ D.ScalarResources → name ∉ ignored →
      prefixBeforeSlash name ∉ groups →
      satAdd (N.Requested.scalar name) q ≤ N.Allocatable.scalar name)) ∧
    ((N.Allocatable.MilliCPU < MaxInt64 →
      N.Requested.MilliCPU + D.MilliCPU ≤ N.Allocatable.MilliCPU) ∧
    (N.Allocatable.Memory < MaxInt64 →
      N.Requested.Memory + D.Memory ≤ N.Allocatable.Memory) ∧
    (N.Allocatable.EphemeralStorage < MaxInt64 →
      N.Requested.EphemeralStorage + D.EphemeralStorage ≤ N.Allocatable.EphemeralStorage) ∧
    (∀ name q, (name, q) ∈ D.ScalarResources → name ∉ ignored →
      prefixBeforeSlash name ∉ groups → N.Allocatable.scalar name < MaxInt64 →
      N.Requested.scalar name + q ≤ N.Allocatable.scalar name)) ∧
    (∀ (D0 : Resource) (N0 : NodeInfo), D0.requestsNothing = true →
      podCountCheck D0 N0 = none → FitsRequest D0 N0 ignored groups = none) := by
  have hnot : ¬ D.requestsNothing = true := by
    rw [requestsNothing_eq_true_iff]
    rintro ⟨h1, h2, h3, h4⟩
    rcases hD with hD | hD | hD | hD
    · exact hD h1
    · exact hD h2
    · exact hD h3
    · exact hD h4
  have hres := ((fitsRequest_eq_none_iff D N ignored groups).mp h).2.resolve_left hnot
  obtain ⟨hc, hm, hs, hsc⟩ := (resourceChecks_eq_none_iff D N ignored groups).mp hres
  have hscalar : ∀ name q, (name, q) ∈ D.ScalarResources → name ∉ ignored →
      prefixBeforeSlash name ∉ groups →
      satAdd (N.Requested.scalar name) q ≤ N.Allocatable.scalar name := by
    intro name q hmem hni hng
    rcases (checkScalar_eq_none_iff N ignored groups (name, q)).mp (hsc _ hmem) with hi | hle
    · rcases (isIgnored_iff ignored groups name).mp hi with hi | hi
      · exact absurd hi hni
      · exact absurd hi hng
    · exact hle
  refine ⟨⟨hc, hm, hs, hscalar⟩, ⟨?_, ?_, ?_, ?_⟩, ?_⟩
  · intro hlt
    exact (satAdd_le_iff_of_lt _ _ _ hlt).mp hc
  · intro hlt
    exact (satAdd_le_iff_of_lt _ _ _ hlt).mp hm
  · intro hlt
    exact (satAdd_le_iff_of_lt _ _ _ hlt).mp hs
  · intro name q hmem hni hng hlt
    exact (satAdd_le_iff_of_lt _ _ _ hlt).mp (hscalar name q hmem hni hng)
  · intro D0 N0 h0 hp
    exact (fitsRequest_eq_none_iff D0 N0 ignored groups).mpr ⟨hp, Or.inl h0⟩

/-- Witness of C23 (amended): the case `equal edge case` of `fit_test.go`: 5 milli-CPU
requested, 5 used, 10 allocatable. -/
theorem fitsRequest_success_implies_fit_witness :
    FitsRequest (ComputePodResourceRequest (newResourcePod [{ MilliCPU := 5, Memory := 1 }]))
      (testNode [newResourcePod [{ MilliCPU := 5, Memory := 19 }]]) [] [] = none ∧
    (testNode [newResourcePod [{ MilliCPU := 5, Memory := 19 }]]).Requested.MilliCPU
      + (ComputePodResourceRequest (newResourcePod [{ MilliCPU := 5, Memory := 1 }])).MilliCPU
      ≤ (testNode [newResourcePod [{ MilliCPU := 5, Memory := 19 }]]).Allocatable.MilliCPU :=
  ⟨by decide,
   (fitsRequest_success_implies_fit _ _ [] [] (by decide) (Or.inl (by decide))).2.1.1
     (by decide)⟩

/-- C24: the fitness evaluator accepts the boundary.  When the pod cap is not reached
and `Used + Requested ≤ Allocatable` holds (with equality allowed) for CPU, memory,
ephemeral storage and every scalar entry of the demand that is not ignored,
`FitsRequest` returns success, and `Filter`, reading that demand from the cycle state,
returns the `nil` status. -/
theorem fitsRequest_accepts_boundary (D : Resource) (N : NodeInfo)
    (ignored groups : List String) (state : CycleState) (pod : Workload)
    (hpods : D.AllowedPodNumber ≠ 1 ∨ N.Pods.length < N.Allocatable.AllowedPodNumber)
    (hcpu : N.Requested.MilliCPU + D.MilliCPU ≤ N.Allocatable.MilliCPU)
    (hmem : N.Requested.Memory + D.Memory ≤ N.Allocatable.Memory)
    (hsto : N.Requested.EphemeralStorage + D.EphemeralStorage ≤ N.Allocatable.EphemeralStorage)
    (hscalar : ∀ e ∈ D.ScalarResources, isIgnored ignored groups e.1 = false →
      N.Requested.scalar e.1 + e.2 ≤ N.Allocatable.scalar e.1)
    (hstate : state.lookup preFilterStateKey = some D) :
    FitsRequest D N ignored groups = none ∧
    Fit.Filter { ignoredResources := ignored, ignoredResourceGroups := groups } state pod N
      = none := by
  have hfit : FitsRequest D N ignored groups = none := by
    rw [fitsRequest_eq_none_iff, podCountCheck_eq_none_iff, resourceChecks_eq_none_iff]
    refine ⟨?_, Or.inr ⟨le_trans (satAdd_le_add _ _) hcpu, le_trans (satAdd_le_add _ _) hmem,
      le_trans (satAdd_le_add _ _) hsto, ?_⟩⟩
    · rintro ⟨h1, h2⟩
      rcases hpods with hp | hp
      · exact hp h1
      · omega
    · intro e he
      rw [checkScalar_eq_none_iff]
      by_cases hi : isIgnored ignored groups e.1 = true
      · exact Or.inl hi
      · exact Or.inr (le_trans (satAdd_le_add _ _) (hscalar e he (by simpa using hi)))
  refine ⟨hfit, ?_⟩
  simp only [Fit.Filter, hstate, hfit]

/-- Witness of C24: the case `extended resource allocatable admits multiple init
containers` of `fit_test.go`: the scalar `example.com/aaa` is requested 3 times over 2
used, with 5 allocatable, and the demand is the one `PreFilter` stores. -/
theorem fitsRequest_accepts_boundary_witness :
    (ComputePodResourceRequest (newResourceInitPod (newResourcePod [{}])
        [{ MilliCPU := 1, Memory := 1, ScalarResources := [("example.com/aaa", 3)] },
         { MilliCPU := 1, Memory := 1, ScalarResources := [("example.com/aaa", 3)] }])).scalar
      "example.com/aaa" = 3 ∧
    FitsRequest (ComputePodResourceRequest (newResourceInitPod (newResourcePod [{}])
        [{ MilliCPU := 1, Memory := 1, ScalarResources := [("example.com/aaa", 3)] },
         { MilliCPU := 1, Memory := 1, ScalarResources := [("example.com/aaa", 3)] }]))
      (testNode [newResourcePod [{ ScalarResources := [("example.com/aaa", 2)] }]]) [] []
      = none ∧
    Fit.Filter { ignoredResources := [], ignoredResourceGroups := [] }
      (Fit.PreFilter { ignoredResources := [], ignoredResourceGroups := [] } []
        (newResourceInitPod (newResourcePod [{}])
          [{ MilliCPU := 1, Memory := 1, ScalarResources := [("example.com/aaa", 3)] },
           { MilliCPU := 1, Memory := 1, ScalarResources := [("example.com/aaa", 3)] }])).1
      (newResourceInitPod (newResourcePod [{}])
        [{ MilliCPU := 1, Memory := 1, ScalarResources := [("example.com/aaa", 3)] },
         { MilliCPU := 1, Memory := 1, ScalarResources := [("example.com/aaa", 3)] }])
      (testNode [newResourcePod [{ ScalarResources := [("example.com/aaa", 2)] }]]) = none :=
  ⟨by decide,
   fitsRequest_accepts_boundary _ _ [] [] _ _ (by decide) (by decide) (by decide) (by decide)
     (by decide) rfl⟩

/-- C25: when `FitsRequest` fails, its single report `r` is the report of the first
failing check in the order pod count, CPU, memory, ephemeral storage, scalar resources
by name, with `Requested` the demand for that resource, `Used` the node's requested
total and `Capacity` the node's allocatable; a check fails when the saturating sum of
`Used` and `Requested` exceeds `Capacity`. -/
theorem fitsRequest_reports_first_failing_check (D : Resource) (N : NodeInfo)
    (ignored groups : List String) (r : InsufficientResource)
    (h : FitsRequest D N ignored groups = some r) :
    FirstFailingCheck D N ignored groups r := by
  unfold FirstFailingCheck
  unfold FitsRequest at h
  cases hp : podCountCheck D N with
  | some r0 =>
    rw [hp] at h
    have hr : r0 = r := Option.some.inj h
    subst hr
    left
    unfold podCountCheck at hp
    split at hp
    · rename_i hfull
      exact ⟨hfull, (Option.some.inj hp).symm⟩
    · cases hp
  | none =>
    rw [hp] at h
    have hnp := (podCountCheck_eq_none_iff D N).mp hp
    right
    by_cases hn : D.requestsNothing = true
    · simp [hn] at h
    · simp only [hn] at h
      unfold resourceChecks at h
      cases hc : resourceCheck ResourceCPU D.MilliCPU N.Requested.MilliCPU
          N.Allocatable.MilliCPU with
      | some r0 =>
        rw [hc] at h
        have hr : r0 = r := Option.some.inj h
        subst hr
        left
        exact ⟨hnp, resourceCheck_eq_some _ _ _ _ _ hc⟩
      | none =>
        rw [hc] at h
        have h1 : ¬ (satAdd N.Requested.MilliCPU D.MilliCPU > N.Allocatable.MilliCPU) :=
          Nat.not_lt.mpr ((resourceCheck_eq_none_iff _ _ _ _).mp hc)
        right
        cases hm : resourceCheck ResourceMemory D.Memory N.Requested.Memory
            N.Allocatable.Memory with
        | some r0 =>
          rw [hm] at h
          have hr : r0 = r := Option.some.inj h
          subst hr
          left
          exact ⟨hnp, h1, resourceCheck_eq_some _ _ _ _ _ hm⟩
        | none =>
          rw [hm] at h
          have h2 : ¬ (satAdd N.Requested.Memory D.Memory > N.Allocatable.Memory) :=
            Nat.not_lt.mpr ((resourceCheck_eq_none_iff _ _ _ _).mp hm)
          right
          cases hs : resourceCheck ResourceEphemeralStorage D.EphemeralStorage
              N.Requested.EphemeralStorage N.Allocatable.EphemeralStorage with
          | some r0 =>
            rw [hs] at h
            have hr : r0 = r := Option.some.inj h
            subst hr
            left
            exact ⟨hnp, h1, h2, resourceCheck_eq_some _ _ _ _ _ hs⟩
          | none =>
            rw [hs] at h
            have h3 : ¬ (satAdd N.Requested.EphemeralStorage D.EphemeralStorage
                > N.Allocatable.EphemeralStorage) :=
              Nat.not_lt.mpr ((resourceCheck_eq_none_iff _ _ _ _).mp hs)
            right
            obtain ⟨a, ha, hfa, hall⟩ := findSome_sorted_first
              (fun a b => a.1.toList ≤ b.1.toList) (fun a => le_refl a.1.toList)
              (checkScalar N ignored groups) (sortedScalars D) (sorted_sortedScalars D) r h
            obtain ⟨name, q⟩ := a
            have hign : isIgnored ignored groups name = false := by
              by_contra hi
              have hi2 : isIgnored ignored groups name = true := by simpa using hi
              have hnone : checkScalar N ignored groups (name, q) = none :=
                (checkScalar_eq_none_iff N ignored groups (name, q)).mpr (Or.inl hi2)
              rw [hnone] at hfa
              cases hfa
            have hrc : resourceCheck name q (N.Requested.scalar name)
                (N.Allocatable.scalar name) = some r := by
              simpa [checkScalar, hign] using hfa
            obtain ⟨hgt, hreq⟩ := resourceCheck_eq_some _ _ _ _ _ hrc
            refine ⟨hnp, h1, h2, h3, name, q, (mem_sortedScalars D _).mp ha, hign, hgt, hreq, ?_⟩
            intro e he hlt
            exact (checkScalar_eq_none_iff N ignored groups e).mp
              (hall e ((mem_sortedScalars D e).mpr he) (not_le.mpr hlt))

/-- Witness of C25: the case `too many resources fails` of `fit_test.go`.  One
milli-CPU and one byte are requested on a node whose CPU and memory are both used up;
the report names CPU, with `Requested = 1`, `Used = 10`, `Capacity = 10`. -/
theorem fitsRequest_reports_first_failing_check_witness :
    FitsRequest (ComputePodResourceRequest (newResourcePod [{ MilliCPU := 1, Memory := 1 }]))
        (testNode [newResourcePod [{ MilliCPU := 10, Memory := 20 }]]) [] []
      = some { ResourceName := "cpu", Reason := getErrReason 1 "cpu", Requested := 1,
               Used := 10, Capacity := 10 } ∧
    satAdd (testNode [newResourcePod [{ MilliCPU := 10, Memory := 20 }]]).Requested.Memory 1
      > (testNode [newResourcePod [{ MilliCPU := 10, Memory := 20 }]]).Allocatable.Memory ∧
    FirstFailingCheck (ComputePodResourceRequest (newResourcePod [{ MilliCPU := 1, Memory := 1 }]))
      (testNode [newResourcePod [{ MilliCPU := 10, Memory := 20 }]]) [] []
      { ResourceName := "cpu", Reason := getErrReason 1 "cpu", Requested := 1,
        Used := 10, Capacity := 10 } :=
  ⟨by decide, by decide, fitsRequest_reports_first_failing_check _ _ [] [] _ (by decide)⟩

/-- C26: pod-count admission.  For a workload without the ignore-pods-limit annotation,
`FitsRequest` fails with the report `pods`, reason `node(s) had too many pods`,
`Requested = 1`, `Used` the number of resident pods and `Capacity` the allowed pod
number, whenever the residents are at least as many as allowed, whatever the other
resources; for a workload that carries the annotation, with any value, the pod-count
check passes and a failure can only come from the resource checks. -/
theorem pod_count_admission (w : Workload) (N : NodeInfo) (ignored groups : List String) :
    (w.ignoresPodsLimit = false → N.Pods.length ≥ N.Allocatable.AllowedPodNumber →
      FitsRequest (ComputePodResourceRequest w) N ignored groups
        = some { ResourceName := ResourcePods, Reason := "node(s) had too many pods",
                 Requested := 1, Used := N.Pods.length,
                 Capacity := N.Allocatable.AllowedPodNumber }) ∧
    (w.ignoresPodsLimit = true →
      podCountCheck (ComputePodResourceRequest w) N = none ∧
      ∀ r, FitsRequest (ComputePodResourceRequest w) N ignored groups = some r →
        resourceChecks (ComputePodResourceRequest w) N ignored groups = some r) ∧
    (∀ entries value, w.Annotations = some entries →
      entries.lookup IgnorePodsLimitAnnotationKey = some value → w.ignoresPodsLimit = true) := by
  refine ⟨?_, ?_, ?_⟩
  · intro hw hfull
    have hD : (ComputePodResourceRequest w).AllowedPodNumber = 1 := by
      simp [ComputePodResourceRequest, hw]
    simp [FitsRequest, podCountCheck, hD, hfull]
  · intro hw
    have hD : (ComputePodResourceRequest w).AllowedPodNumber = 0 := by
      simp [ComputePodResourceRequest, hw]
    have hp : podCountCheck (ComputePodResourceRequest w) N = none := by
      simp [podCountCheck, hD]
    refine ⟨hp, ?_⟩
    intro r hr
    unfold FitsRequest at hr
    rw [hp] at hr
    by_cases hn : (ComputePodResourceRequest w).requestsNothing = true
    · simp [hn] at hr
    · simpa [hn] using hr
  · intro entries value ha hl
    simp [Workload.ignoresPodsLimit, ha, hl]

/-- Witness of C26: the cases `exceed pods limit` and `ignore pods limit` of
`fit_test.go`: 32 residents on a node that allows 32 pods. -/
theorem pod_count_admission_witness :
    FitsRequest (ComputePodResourceRequest {}) (testNode thirtyTwoPods) [] []
      = some { ResourceName := "pods", Reason := "node(s) had too many pods", Requested := 1,
               Used := 32, Capacity := 32 } ∧
    podCountCheck (ComputePodResourceRequest ignorePodsLimitPod) (testNode thirtyTwoPods)
      = none :=
  ⟨(pod_count_admission {} (testNode thirtyTwoPods) [] []).1 rfl (by decide),
   ((pod_count_admission ignorePodsLimitPod (testNode thirtyTwoPods) [] []).2.1 rfl).1⟩

/-- C27: a scalar entry of the demand is skipped exactly when its name is among the
ignored resources or its part before `/` is among the ignored groups; every other
entry is enforced as `Used + Requested ≤ Allocatable`, where a scalar unknown to the
node has allocatable 0, so that a positive request for it fails with `Capacity = 0`;
and when the pod count, CPU, memory and ephemeral storage are admitted, `FitsRequest`
succeeds exactly when every scalar entry is skipped or fits.  The sum is the
saturating one of the resource vector; it is the exact sum whenever the allocatable
quantity is below `MaxInt64`.  Ignoring the group `example.com` skips
`example.com/bbb` and not `kubernetes.io/something`. -/
theorem scalar_resources_skipped_or_enforced (D : Resource) (N : NodeInfo)
    (ignored groups : List String) (name : String) (q : Nat) :
    (isIgnored ignored groups name = true ↔ name ∈ ignored ∨ prefixBeforeSlash name ∈ groups) ∧
    (isIgnored ignored groups name = true → checkScalar N ignored groups (name, q) = none) ∧
    (isIgnored ignored groups name = false →
      (checkScalar N ignored groups (name, q) = none ↔
        satAdd (N.Requested.scalar name) q ≤ N.Allocatable.scalar name) ∧
      (N.Allocatable.scalar name < MaxInt64 →
        (checkScalar N ignored groups (name, q) = none ↔
          N.Requested.scalar name + q ≤ N.Allocatable.scalar name)) ∧
      (satAdd (N.Requested.scalar name) q > N.Allocatable.scalar name →
        checkScalar N ignored groups (name, q)
          = some { ResourceName := name, Reason := getErrReason q name, Requested := q,
                   Used := N.Requested.scalar name, Capacity := N.Allocatable.scalar name })) ∧
    (N.Allocatable.ScalarResources.lookup name = none → N.Allocatable.scalar name = 0) ∧
    (isIgnored ignored groups name = false → N.Allocatable.ScalarResources.lookup name = none →
      0 < q →
      checkScalar N ignored groups (name, q)
        = some { ResourceName := name, Reason := getErrReason q name, Requested := q,
                 Used := N.Requested.scalar name, Capacity := 0 }) ∧
    (podCountCheck D N = none → D.ScalarResources ≠ [] →
      satAdd N.Requested.MilliCPU D.MilliCPU ≤ N.Allocatable.MilliCPU →
      satAdd N.Requested.Memory D.Memory ≤ N.Allocatable.Memory →
      satAdd N.Requested.EphemeralStorage D.EphemeralStorage ≤ N.Allocatable.EphemeralStorage →
      (FitsRequest D N ignored groups = none ↔
        ∀ e ∈ D.ScalarResources, isIgnored ignored groups e.1 = true ∨
          satAdd (N.Requested.scalar e.1) e.2 ≤ N.Allocatable.scalar e.1)) ∧
    isIgnored [] ["example.com"] "example.com/bbb" = true ∧
    isIgnored [] ["example.com"] "kubernetes.io/something" = false := by
  have hfail : isIgnored ignored groups name = false →
      satAdd (N.Requested.scalar name) q > N.Allocatable.scalar name →
      checkScalar N ignored groups (name, q)
        = some { ResourceName := name, Reason := getErrReason q name, Requested := q,
                 Used := N.Requested.scalar name, Capacity := N.Allocatable.scalar name } := by
    intro hi hgt
    simp [checkScalar, hi, resourceCheck, hgt]
  have hzero : N.Allocatable.ScalarResources.lookup name = none →
      N.Allocatable.scalar name = 0 := by
    intro hl
    simp [Resource.scalar, hl]
  have hnone : isIgnored ignored groups name = false →
      (checkScalar N ignored groups (name, q) = none ↔
        satAdd (N.Requested.scalar name) q ≤ N.Allocatable.scalar name) := by
    intro hi
    rw [checkScalar_eq_none_iff]
    simp [hi]
  refine ⟨isIgnored_iff ignored groups name, ?_, ?_, hzero, ?_, ?_, by decide, by decide⟩
  · intro hi
    exact (checkScalar_eq_none_iff N ignored groups (name, q)).mpr (Or.inl hi)
  · intro hi
    refine ⟨hnone hi, ?_, hfail hi⟩
    intro hlt
    exact (hnone hi).trans (satAdd_le_iff_of_lt _ _ _ hlt)
  · intro hi hl hq
    have h0 := hzero hl
    have hpos : satAdd (N.Requested.scalar name) q > N.Allocatable.scalar name := by
      rw [h0]
      unfold satAdd MaxInt64
      omega
    have := hfail hi hpos
    rw [h0] at this
    exact this
  · intro hp hne hc hm hs
    have hn : ¬ D.requestsNothing = true := by
      rw [requestsNothing_eq_true_iff]
      exact fun h => hne h.2.2.2
    rw [fitsRequest_eq_none_iff, resourceChecks_eq_none_iff]
    constructor
    · rintro ⟨_, h | h⟩
      · exact absurd h hn
      · intro e he
        exact (checkScalar_eq_none_iff N ignored groups e).mp (h.2.2.2 e he)
    · intro h
      exact ⟨hp, Or.inr ⟨hc, hm, hs, fun e he =>
        (checkScalar_eq_none_iff N ignored groups e).mpr (h e he)⟩⟩

/-- Witness of C27: the cases `skip checking ignored extended resource via resource
groups` and `extended resource allocatable enforced for unknown resource` of
`fit_test.go`. -/
theorem scalar_resources_skipped_or_enforced_witness :
    FitsRequest
        (ComputePodResourceRequest (newResourcePod
          [{ ScalarResources := [("example.com/bbb", 1), ("kubernetes.io/something", 1)],
             MilliCPU := 1, Memory := 1 }]))
        (testNode [newResourcePod [{}]]) [] ["example.com"]
      = some { ResourceName := "kubernetes.io/something",
               Reason := getErrReason 1 "kubernetes.io/something",
               Requested := 1, Used := 0, Capacity := 0 } ∧
    checkScalar (testNode [newResourcePod [{}]]) [] [] ("example.com/bbb", 1)
      = some { ResourceName := "example.com/bbb", Reason := getErrReason 1 "example.com/bbb",
               Requested := 1, Used := 0, Capacity := 0 } :=
  ⟨by decide,
   (scalar_resources_skipped_or_enforced {} (testNode [newResourcePod [{}]]) [] []
      "example.com/bbb" 1).2.2.2.2.1 (by decide) (by decide) (by decide)⟩

/-- C28: `validateFitArgs` returns an error when a name of `IgnoredResources` or of
`IgnoredResourceGroups` has an empty segment (as in `example.com/`), a segment of more
than 63 characters or more than one `/`, and when a name of `IgnoredResourceGroups`
contains `/`; it returns no error for `IgnoredResources = ["example.com"]` and for
`IgnoredResourceGroups = ["example.com"]`. -/
theorem validateFitArgs_rejects_malformed_names (args : NodeResourcesFitArgs) (name : String)
    (hmem : name ∈ args.IgnoredResources ∨ name ∈ args.IgnoredResourceGroups)
    (hbad : [] ∈ splitSlash name.toList ∨
      (∃ seg ∈ splitSlash name.toList, seg.length > 63) ∨
      name.toList.count '/' > 1 ∨
      (name ∈ args.IgnoredResourceGroups ∧ '/' ∈ name.toList)) :
    validateFitArgs args ≠ none ∧
    validateFitArgs { IgnoredResources := ["example.com"] } = none ∧
    validateFitArgs { IgnoredResourceGroups := ["example.com"] } = none := by
  refine ⟨?_, by decide, by decide⟩
  have hres : ∀ n, n ∈ args.IgnoredResources → nameErrors n ≠ [] →
      validateFitArgs args ≠ none := by
    intro n hn he
    have := foldr_append_ne_nil nameErrors args.IgnoredResources n hn he
    simp [validateFitArgs, this]
  have hgrp : ∀ n, n ∈ args.IgnoredResourceGroups → groupErrors n ≠ [] →
      validateFitArgs args ≠ none := by
    intro n hn he
    have := foldr_append_ne_nil groupErrors args.IgnoredResourceGroups n hn he
    simp [validateFitArgs, this]
  have hname : ([] ∈ splitSlash name.toList ∨
      (∃ seg ∈ splitSlash name.toList, seg.length > 63) ∨ name.toList.count '/' > 1) →
      validateFitArgs args ≠ none := by
    intro hb
    have he := nameErrors_ne_nil name hb
    rcases hmem with hm | hm
    · exact hres name hm he
    · refine hgrp name hm ?_
      unfold groupErrors
      exact fun hnil => he (List.append_eq_nil.mp hnil).2
  rcases hbad with hb | hb | hb | ⟨hm, hslash⟩
  · exact hname (Or.inl hb)
  · exact hname (Or.inr (Or.inl hb))
  · exact hname (Or.inr (Or.inr hb))
  · refine hgrp name hm ?_
    unfold groupErrors
    rw [if_pos hslash]
    exact fun hnil => List.cons_ne_nil _ _ (List.append_eq_nil.mp hnil).1

/-- Witness of C28: the case `IgnoredResources: name is empty` of `fit_test.go`. -/
theorem validateFitArgs_rejects_malformed_names_witness :
    ("example.com/" ∈ ({ IgnoredResources := ["example.com/"] } : NodeResourcesFitArgs).IgnoredResources
      ∨ "example.com/" ∈
        ({ IgnoredResources := ["example.com/"] } : NodeResourcesFitArgs).IgnoredResourceGroups) ∧
    [] ∈ splitSlash "example.com/".toList ∧
    validateFitArgs { IgnoredResources := ["example.com/"] } ≠ none :=
  ⟨Or.inl (by decide), by decide,
   (validateFitArgs_rejects_malformed_names { IgnoredResources := ["example.com/"] }
      "example.com/" (Or.inl (by decide)) (Or.inl (by decide))).1⟩

/-- C29: `Filter` of the fit plugin, called on a cycle state that has no entry under
`PreFilterNodeResourcesFit`, returns for every workload and node the status with code
`Error` and the message
`error reading "PreFilterNodeResourcesFit" from cycleState: not found`. -/
theorem filter_without_preFilter_state_is_error (f : Fit) (state : CycleState) (pod : Workload)
    (N : NodeInfo) (h : state.lookup preFilterStateKey = none) :
    f.Filter state pod N
      = some { Code := Code.Error
               Message :=
                 "error reading \"PreFilterNodeResourcesFit\" from cycleState: not found" } ∧
    f.Filter state pod N ≠ none := by
  simp [Fit.Filter, h]

/-- Witness of C29: the test `TestPreFilterDisabled`: a fresh cycle state, an empty
workload and an empty node. -/
theorem filter_without_preFilter_state_is_error_witness :
    ([] : CycleState).lookup preFilterStateKey = none ∧
    Fit.Filter { ignoredResources := [], ignoredResourceGroups := [] } [] {} {}
      = some { Code := Code.Error
               Message :=
                 "error reading \"PreFilterNodeResourcesFit\" from cycleState: not found" } :=
  ⟨rfl, (filter_without_preFilter_state_is_error _ [] {} {} rfl).1⟩

/-- C30: `GetTimeoutPeriod()` is 0 for every Single unit; for a Group unit with
non-nil group `g` it is the `ScheduleTimeoutSeconds` of the spec of `g` when that is
set and 300 when it is unset. -/
theorem getTimeoutPeriod_single_zero_group_default_300 (s : SinglePodUnit) (p : PodGroupUnit)
    (g : PodGroup) (h : p.podGroup = some g) :
    s.GetTimeoutPeriod = 0 ∧
    (∀ seconds, g.Spec.ScheduleTimeoutSeconds = some seconds →
      p.GetTimeoutPeriod = .ok seconds) ∧
    (g.Spec.ScheduleTimeoutSeconds = none → p.GetTimeoutPeriod = .ok 300) := by
  refine ⟨rfl, ?_, ?_⟩
  · intro seconds hs
    simp [PodGroupUnit.GetTimeoutPeriod, h, hs]
  · intro hs
    simp [PodGroupUnit.GetTimeoutPeriod, h, hs]

/-- Witness of C30: the unit of the sample group, which sets no timeout, and the unit
of a group with a timeout of 60 seconds. -/
theorem getTimeoutPeriod_single_zero_group_default_300_witness :
    (NewPodGroupUnit (some sampleGroup) 3 0).podGroup = some sampleGroup ∧
    (NewPodGroupUnit (some sampleGroup) 3 0).GetTimeoutPeriod = .ok 300 ∧
    (NewPodGroupUnit (some { sampleGroup with Spec := { sampleGroup.Spec with
        ScheduleTimeoutSeconds := some 60 } }) 3 0).GetTimeoutPeriod = .ok 60 :=
  ⟨rfl,
   (getTimeoutPeriod_single_zero_group_default_300 (NewSinglePodUnit none)
      (NewPodGroupUnit (some sampleGroup) 3 0) sampleGroup rfl).2.2 rfl,
   (getTimeoutPeriod_single_zero_group_default_300 (NewSinglePodUnit none)
      (NewPodGroupUnit (some { sampleGroup with Spec := { sampleGroup.Spec with
        ScheduleTimeoutSeconds := some 60 } }) 3 0) _ rfl).2.1 60 rfl⟩

/-- C31: `GetMinMember()` returns `(1, nil)` for a Single unit that holds a record and
`(Spec.MinMember, nil)` for a Group unit with a non-nil group; it returns `-1` with an
error exactly when the Single unit holds no record, respectively when the group is
nil. -/
theorem getMinMember_value_and_error (s : SinglePodUnit) (p : PodGroupUnit) :
    (∀ q, s.Pod = some q → s.GetMinMember = (1, none)) ∧
    (∀ g, p.podGroup = some g → p.GetMinMember = (g.Spec.MinMember, none)) ∧
    (s.GetMinMember = (-1, some "pod is nil") ↔ s.Pod = none) ∧
    (p.GetMinMember = (-1, some "pod group is nil") ↔ p.podGroup = none) ∧
    (s.GetMinMember.2 ≠ none ↔ s.Pod = none) ∧
    (p.GetMinMember.2 ≠ none ↔ p.podGroup = none) := by
  refine ⟨?_, ?_, ?_, ?_, ?_, ?_⟩
  · intro q hq
    simp [SinglePodUnit.GetMinMember, hq]
  · intro g hg
    simp [PodGroupUnit.GetMinMember, hg]
  · cases hq : s.Pod <;> simp [SinglePodUnit.GetMinMember, hq]
  · cases hg : p.podGroup <;> simp [PodGroupUnit.GetMinMember, hg]
  · cases hq : s.Pod <;> simp [SinglePodUnit.GetMinMember, hq]
  · cases hg : p.podGroup <;> simp [PodGroupUnit.GetMinMember, hg]

/-- Witness of C31: the unit holding `sampleInfoA`, the unit of the sample group (quorum
2), the empty Single unit and the Group unit without group. -/
theorem getMinMember_value_and_error_witness :
    (NewSinglePodUnit (some sampleInfoA)).GetMinMember = (1, none) ∧
    (NewPodGroupUnit (some sampleGroup) 3 0).GetMinMember = (2, none) ∧
    (NewSinglePodUnit none).GetMinMember = (-1, some "pod is nil") ∧
    (NewPodGroupUnit none 3 0).GetMinMember = (-1, some "pod group is nil") :=
  ⟨(getMinMember_value_and_error (NewSinglePodUnit (some sampleInfoA))
      (NewPodGroupUnit (some sampleGroup) 3 0)).1 sampleInfoA rfl,
   (getMinMember_value_and_error (NewSinglePodUnit (some sampleInfoA))
      (NewPodGroupUnit (some sampleGroup) 3 0)).2.1 sampleGroup rfl,
   (getMinMember_value_and_error (NewSinglePodUnit none) (NewPodGroupUnit none 3 0)).2.2.1.2 rfl,
   (getMinMember_value_and_error (NewSinglePodUnit none) (NewPodGroupUnit none 3 0)).2.2.2.1.2
      rfl⟩

/-- C32: `IsDebugModeOn()` is true exactly when the annotation `debug-mode` is present
with the value `on` on the group of a Group unit, respectively on the pod of the record
a Single unit holds; it is false when the group, the record, the pod or the annotation
map is nil, and the answer of a Group unit does not depend on its members. -/
theorem isDebugModeOn_iff_annotation_on (p : PodGroupUnit) (s : SinglePodUnit)
    (m : PodInfoMap) :
    (p.IsDebugModeOn = true ↔
      ∃ g annotations, p.podGroup = some g ∧ g.Annotations = some annotations ∧
        annotations.lookup DebugModeAnnotationKey = some "on") ∧
    (s.IsDebugModeOn = true ↔
      ∃ q held annotations, s.Pod = some q ∧ q.Pod = some held ∧
        held.Annotations = some annotations ∧
        annotations.lookup DebugModeAnnotationKey = some "on") ∧
    (p.podGroup = none → p.IsDebugModeOn = false) ∧
    (∀ g, p.podGroup = some g → g.Annotations = none → p.IsDebugModeOn = false) ∧
    (s.Pod = none → s.IsDebugModeOn = false) ∧
    (∀ q, s.Pod = some q → q.Pod = none → s.IsDebugModeOn = false) ∧
    (∀ q held, s.Pod = some q → q.Pod = some held → held.Annotations = none →
      s.IsDebugModeOn = false) ∧
    PodGroupUnit.IsDebugModeOn { p with queuedPodInfoMap := m } = p.IsDebugModeOn := by
  have hon : DebugModeOn = "on" := rfl
  refine ⟨?_, ?_, ?_, ?_, ?_, ?_, ?_, rfl⟩
  · unfold PodGroupUnit.IsDebugModeOn
    cases hg : p.podGroup with
    | none => simp
    | some g =>
      cases ha : g.Annotations with
      | none => simp [ha]
      | some annotations =>
        cases hl : annotations.lookup DebugModeAnnotationKey with
        | none => simp [ha, hl]
        | some value => simp [ha, hl, hon]
  · unfold SinglePodUnit.IsDebugModeOn
    cases hq : s.Pod with
    | none => simp
    | some q =>
      cases hh : q.Pod with
      | none => simp [hh]
      | some held =>
        cases ha : held.Annotations with
        | none => simp [hh, ha]
        | some annotations =>
          cases hl : annotations.lookup DebugModeAnnotationKey with
          | none => simp [hh, ha, hl]
          | some value => simp [hh, ha, hl, hon]
  · intro hg
    simp [PodGroupUnit.IsDebugModeOn, hg]
  · intro g hg ha
    simp [PodGroupUnit.IsDebugModeOn, hg, ha]
  · intro hq
    simp [SinglePodUnit.IsDebugModeOn, hq]
  · intro q hq hh
    simp [SinglePodUnit.IsDebugModeOn, hq, hh]
  · intro q held hq hh ha
    simp [SinglePodUnit.IsDebugModeOn, hq, hh, ha]

/-- Witness of C32: the Single unit holding `sampleInfoD`, whose pod is annotated
`debug-mode: on`, is in debug mode; a Group unit whose group has no annotations is not,
even when it holds that record. -/
theorem isDebugModeOn_iff_annotation_on_witness :
    (NewSinglePodUnit (some sampleInfoD)).IsDebugModeOn = true ∧
    ((NewPodGroupUnit (some sampleGroup) 3 0).AddPod sampleInfoD).1.IsDebugModeOn = false :=
  ⟨((isDebugModeOn_iff_annotation_on (NewPodGroupUnit none 3 0)
      (NewSinglePodUnit (some sampleInfoD)) ∅).2.1).2
      ⟨sampleInfoD, samplePodD, [(DebugModeAnnotationKey, "on")], rfl, rfl, rfl, by decide⟩,
   (isDebugModeOn_iff_annotation_on ((NewPodGroupUnit (some sampleGroup) 3 0).AddPod
      sampleInfoD).1 (NewSinglePodUnit none) ∅).2.2.2.1 sampleGroup rfl rfl⟩

/-- C33, at the failing input: the Single unit built by `NewSinglePodUnit` from a record
whose pod is nil returns that record from `GetPods()`, a list of length 1, while
`NumPods()` is 0. -/
theorem SinglePodUnit.getPods_length_ne_numPods_for_record_without_pod :
    (NewSinglePodUnit (some sampleInfoNoPod)).GetPods = [sampleInfoNoPod] ∧
    (NewSinglePodUnit (some sampleInfoNoPod)).NumPods = 0 ∧
    ((NewSinglePodUnit (some sampleInfoNoPod)).GetPods.length : Int)
      ≠ (NewSinglePodUnit (some sampleInfoNoPod)).NumPods := by
  decide

/-- C34, at the failing inputs: on the Single unit built from a record whose pod is nil,
`GetPod(q)` for a record `q` with a pod and `GetCreationTimestamp()` dereference the
nil pod; `PodBelongToUnit(pod)` dereferences the nil record of a unit that holds none,
be it built from nil or emptied by `DeletePod` or `ResetPods`. -/
theorem SinglePodUnit.queries_dereference_nil :
    (NewSinglePodUnit (some sampleInfoNoPod)).GetPod sampleInfoA
      = .error Panic.nilPointerDereference ∧
    (NewSinglePodUnit (some sampleInfoNoPod)).GetCreationTimestamp
      = .error Panic.nilPointerDereference ∧
    (NewSinglePodUnit (some sampleInfoNoPod)).PodBelongToUnit samplePodA
      = .error Panic.nilPointerDereference ∧
    (NewSinglePodUnit none).PodBelongToUnit samplePodA = .error Panic.nilPointerDereference ∧
    ((NewSinglePodUnit (some sampleInfoA)).run [.deletePod sampleInfoA]).PodBelongToUnit
      samplePodA = .error Panic.nilPointerDereference ∧
    ((NewSinglePodUnit (some sampleInfoA)).run [.resetPods]).PodBelongToUnit samplePodA
      = .error Panic.nilPointerDereference :=
  ⟨rfl, rfl, rfl, rfl, rfl, rfl⟩

/-- C35: on a Single unit, `DeletePod(w)` for a record `w` with a non-nil pod returns no
error and empties the unit, whatever record it held: afterwards `NumPods()` is 0,
`GetPods()` is empty, `ReadyToBePopulated()` is false and `GetKey()` is the empty
string. -/
theorem SinglePodUnit.deletePod_empties_unit (s : SinglePodUnit) (w : QueuedPodInfo)
    (h : w.Pod ≠ none) :
    (s.DeletePod w).2 = none ∧
    (s.DeletePod w).1.Pod = none ∧
    (s.DeletePod w).1.NumPods = 0 ∧
    (s.DeletePod w).1.GetPods = [] ∧
    (s.DeletePod w).1.ReadyToBePopulated = false ∧
    (s.DeletePod w).1.GetKey = "" := by
  cases hw : w.Pod with
  | none => exact absurd hw h
  | some v =>
    simp [SinglePodUnit.DeletePod, SinglePodUnit.NumPods, SinglePodUnit.GetPods,
      SinglePodUnit.ReadyToBePopulated, SinglePodUnit.GetKey, hw]

/-- Witness of C35: the unit holding `sampleInfoA` (pod `ns/a`, UID `u1`) is emptied by
`DeletePod(sampleInfoB)` (pod `ns/b`, UID `u2`). -/
theorem SinglePodUnit.deletePod_empties_unit_witness :
    sampleInfoB.Pod ≠ none ∧
    (NewSinglePodUnit (some sampleInfoA)).GetKey = "single/ns/a" ∧
    ((NewSinglePodUnit (some sampleInfoA)).DeletePod sampleInfoB).1.NumPods = 0 ∧
    ((NewSinglePodUnit (some sampleInfoA)).DeletePod sampleInfoB).1.GetKey = "" :=
  ⟨by decide, by decide,
   (SinglePodUnit.deletePod_empties_unit (NewSinglePodUnit (some sampleInfoA)) sampleInfoB
      (by decide)).2.2.1,
   (SinglePodUnit.deletePod_empties_unit (NewSinglePodUnit (some sampleInfoA)) sampleInfoB
      (by decide)).2.2.2.2.2⟩

/-- C36: on a Group unit, `AddPod(w)`, `UpdatePod(w)` and `DeletePod(w)` for a record `w`
whose pod `v` is non-nil leave `GetPod(q)` unchanged for every record `q` with another
UID; `NumPods()` grows by 1 on `AddPod` and `UpdatePod` when the UID was absent and is
unchanged when it was present, shrinks by 1 on `DeletePod` when the UID was present
and is unchanged when it was absent; key, priority, group and enqueue timestamp are
unchanged. -/
theorem PodGroupUnit.addPod_updatePod_deletePod_frame (p : PodGroupUnit) (w : QueuedPodInfo)
    (v : Godel.Pod) (h : w.Pod = some v) :
    (∀ q u, q.Pod = some u → u.UID ≠ v.UID →
      (p.AddPod w).1.GetPod q = p.GetPod q ∧
      (p.UpdatePod w).1.GetPod q = p.GetPod q ∧
      (p.DeletePod w).1.GetPod q = p.GetPod q) ∧
    ((p.AddPod w).1.NumPods = (if (p.GetPod w).isSome then p.NumPods else p.NumPods + 1) ∧
      (p.UpdatePod w).1.NumPods
        = (if (p.GetPod w).isSome then p.NumPods else p.NumPods + 1) ∧
      (p.DeletePod w).1.NumPods
        = (if (p.GetPod w).isSome then p.NumPods - 1 else p.NumPods)) ∧
    ((p.AddPod w).1.GetKey = p.GetKey ∧ (p.AddPod w).1.GetPriority = p.GetPriority ∧
      (p.AddPod w).1.podGroup = p.podGroup ∧
      (p.AddPod w).1.GetEnqueuedTimestamp = p.GetEnqueuedTimestamp) ∧
    ((p.UpdatePod w).1.GetKey = p.GetKey ∧ (p.UpdatePod w).1.GetPriority = p.GetPriority ∧
      (p.UpdatePod w).1.podGroup = p.podGroup ∧
      (p.UpdatePod w).1.GetEnqueuedTimestamp = p.GetEnqueuedTimestamp) ∧
    ((p.DeletePod w).1.GetKey = p.GetKey ∧ (p.DeletePod w).1.GetPriority = p.GetPriority ∧
      (p.DeletePod w).1.podGroup = p.podGroup ∧
      (p.DeletePod w).1.GetEnqueuedTimestamp = p.GetEnqueuedTimestamp) := by
  have hins : (((p.queuedPodInfoMap.insert v.UID w).entries.length : Nat) : Int) =
      if (p.queuedPodInfoMap.lookup v.UID).isSome then (p.queuedPodInfoMap.entries.length : Int)
      else (p.queuedPodInfoMap.entries.length : Int) + 1 := by
    rw [length_entries_insert]
    split <;> simp
  have hdel : (((p.queuedPodInfoMap.erase v.UID).entries.length : Nat) : Int) =
      if (p.queuedPodInfoMap.lookup v.UID).isSome
      then (p.queuedPodInfoMap.entries.length : Int) - 1
      else (p.queuedPodInfoMap.entries.length : Int) := by
    rw [length_entries_erase]
    by_cases hs : (p.queuedPodInfoMap.lookup v.UID).isSome = true
    · have hmem : v.UID ∈ p.queuedPodInfoMap.keys :=
        AList.mem_keys.1 (AList.lookup_isSome.1 hs)
      have hpos : 0 < p.queuedPodInfoMap.keys.length := List.length_pos_of_mem hmem
      have hlen : p.queuedPodInfoMap.entries.length = p.queuedPodInfoMap.keys.length := by
        simp [AList.keys, List.keys]
      rw [if_pos hs, if_pos hs]
      omega
    · rw [if_neg hs, if_neg hs]
  refine ⟨?_, ?_, ?_, ?_, ?_⟩
  · intro q u hq hne
    simp only [PodGroupUnit.AddPod, PodGroupUnit.UpdatePod, PodGroupUnit.DeletePod,
      PodGroupUnit.GetPod, h, hq]
    exact ⟨AList.lookup_insert_ne hne, AList.lookup_insert_ne hne, AList.lookup_erase_ne hne⟩
  · simp only [PodGroupUnit.AddPod, PodGroupUnit.UpdatePod, PodGroupUnit.DeletePod,
      PodGroupUnit.GetPod, PodGroupUnit.NumPods, h]
    exact ⟨hins, hins, hdel⟩
  · simp [PodGroupUnit.AddPod, PodGroupUnit.GetKey, PodGroupUnit.GetPriority,
      PodGroupUnit.GetEnqueuedTimestamp, h]
  · simp [PodGroupUnit.UpdatePod, PodGroupUnit.GetKey, PodGroupUnit.GetPriority,
      PodGroupUnit.GetEnqueuedTimestamp, h]
  · simp [PodGroupUnit.DeletePod, PodGroupUnit.GetKey, PodGroupUnit.GetPriority,
      PodGroupUnit.GetEnqueuedTimestamp, h]

/-- Witness of C36: on the unit holding `sampleInfoA` and `sampleInfoB`,
`DeletePod(sampleInfoA)` leaves `GetPod(sampleInfoB)` as it was and takes `NumPods()`
from 2 to 1. -/
theorem PodGroupUnit.addPod_updatePod_deletePod_frame_witness :
    sampleInfoA.Pod = some samplePodA ∧
    (((NewPodGroupUnit (some sampleGroup) 3 0).run
        [.addPod sampleInfoA, .addPod sampleInfoB]).DeletePod sampleInfoA).1.GetPod sampleInfoB
      = ((NewPodGroupUnit (some sampleGroup) 3 0).run
          [.addPod sampleInfoA, .addPod sampleInfoB]).GetPod sampleInfoB ∧
    ((NewPodGroupUnit (some sampleGroup) 3 0).run
        [.addPod sampleInfoA, .addPod sampleInfoB]).NumPods = 2 ∧
    (((NewPodGroupUnit (some sampleGroup) 3 0).run
        [.addPod sampleInfoA, .addPod sampleInfoB]).DeletePod sampleInfoA).1.NumPods = 1 :=
  ⟨rfl,
   ((PodGroupUnit.addPod_updatePod_deletePod_frame _ sampleInfoA samplePodA rfl).1
      sampleInfoB samplePodB rfl (by decide)).2.2,
   by decide, by decide⟩

/-- C37: `PodGroupUnit.AddPods` never returns an error and leaves the unit that the
calls `AddPod`, made in list order on the records of the batch whose pod is non-nil,
leave; each of these calls succeeds; a record whose pod is nil is skipped, whereas
`AddPod` returns an error for it; and of several records with one UID the last one is
the member afterwards. -/
theorem PodGroupUnit.addPods_is_addPod_on_records_with_pod (p : PodGroupUnit)
    (pods : List QueuedPodInfo) :
    (p.AddPods pods).2 = none ∧
    (p.AddPods pods).1
      = (pods.filter (fun w => w.Pod.isSome)).foldl (fun u w => (u.AddPod w).1) p ∧
    (∀ w ∈ pods.filter (fun w => w.Pod.isSome), ∀ u : PodGroupUnit, (u.AddPod w).2 = none) ∧
    (∀ (u : PodGroupUnit) (ts : Time) (a : Int),
      u.AddPods [{ Pod := none, Timestamp := ts, Attempts := a }] = (u, none) ∧
      (u.AddPod { Pod := none, Timestamp := ts, Attempts := a }).2 = some "invalid pod") ∧
    (∀ pre post w v, pods = pre ++ w :: post → w.Pod = some v →
      (∀ x ∈ post, ∀ u, x.Pod = some u → u.UID ≠ v.UID) →
      (p.AddPods pods).1.GetPod w = some w) := by
  refine ⟨rfl, ?_, ?_, ?_, ?_⟩
  · rw [PodGroupUnit.foldl_addPod_filter, PodGroupUnit.addPods_eq_foldl_addPod]
  · intro w hw u
    have hsome : w.Pod.isSome = true := by simpa using (List.mem_filter.mp hw).2
    cases hp : w.Pod with
    | none => simp [hp] at hsome
    | some v => simp [PodGroupUnit.AddPod, hp]
  · intro u ts a
    exact ⟨rfl, rfl⟩
  · intro pre post w v hpods hw hpost
    subst hpods
    rw [PodGroupUnit.addPods_eq_foldl_addPod, List.foldl_append, List.foldl_cons,
      PodGroupUnit.getPod_foldl_addPod_of_ne post _ w v hw hpost]
    simp [PodGroupUnit.AddPod, PodGroupUnit.GetPod, hw, AList.lookup_insert]

/-- Witness of C37: the batch of an older record with the UID of `sampleInfoA`, a record
without pod and `sampleInfoA` itself leaves `sampleInfoA` as the one member. -/
theorem PodGroupUnit.addPods_is_addPod_on_records_with_pod_witness :
    ((NewPodGroupUnit (some sampleGroup) 3 0).AddPods
        [{ sampleInfoA with Attempts := 4 }, sampleInfoNoPod, sampleInfoA]).1.GetPod sampleInfoA
      = some sampleInfoA ∧
    ((NewPodGroupUnit (some sampleGroup) 3 0).AddPods
        [{ sampleInfoA with Attempts := 4 }, sampleInfoNoPod, sampleInfoA]).1.NumPods = 1 :=
  ⟨(PodGroupUnit.addPods_is_addPod_on_records_with_pod (NewPodGroupUnit (some sampleGroup) 3 0)
      [{ sampleInfoA with Attempts := 4 }, sampleInfoNoPod, sampleInfoA]).2.2.2.2
      [{ sampleInfoA with Attempts := 4 }, sampleInfoNoPod] [] sampleInfoA samplePodA rfl rfl
      (by simp),
   by decide⟩

/-- C38: `UpdatePod` returns the same unit and the same error as `AddPod`, on a Group
unit and on a Single unit, for every record.  On a Group unit `UpdatePod(w)` inserts a
record whose UID is not a member; on a Single unit it replaces the held record and sets
the key to the key of the pod of `w`, whatever was held. -/
theorem updatePod_eq_addPod (p : PodGroupUnit) (s : SinglePodUnit) (w : QueuedPodInfo) :
    p.UpdatePod w = p.AddPod w ∧
    s.UpdatePod w = s.AddPod w ∧
    (∀ v, w.Pod = some v → p.GetPod w = none →
      (p.UpdatePod w).2 = none ∧ (p.UpdatePod w).1.GetPod w = some w ∧
      (p.UpdatePod w).1.NumPods = p.NumPods + 1) ∧
    (∀ v, w.Pod = some v →
      (s.UpdatePod w).2 = none ∧ (s.UpdatePod w).1.Pod = some w ∧
      (s.UpdatePod w).1.GetKey = keyForSinglePodUnit (some v)) := by
  refine ⟨rfl, rfl, ?_, ?_⟩
  · intro v hw habsent
    have hlookup : p.queuedPodInfoMap.lookup v.UID = none := by
      simpa [PodGroupUnit.GetPod, hw] using habsent
    have hlen : (p.queuedPodInfoMap.insert v.UID w).entries.length
        = p.queuedPodInfoMap.entries.length + 1 := by
      rw [length_entries_insert, hlookup]
      rfl
    simp only [PodGroupUnit.UpdatePod, PodGroupUnit.GetPod, PodGroupUnit.NumPods, hw,
      AList.lookup_insert, true_and, hlen]
    push_cast
    rfl
  · intro v hw
    simp [SinglePodUnit.UpdatePod, SinglePodUnit.GetKey, hw]

/-- Witness of C38: `UpdatePod(sampleInfoB)` on a Group unit that holds only
`sampleInfoA` inserts it, and on the Single unit that holds `sampleInfoA` (UID `u1`) it
replaces the record and the key. -/
theorem updatePod_eq_addPod_witness :
    (((NewPodGroupUnit (some sampleGroup) 3 0).AddPod sampleInfoA).1.UpdatePod sampleInfoB).1.GetPod
      sampleInfoB = some sampleInfoB ∧
    (((NewPodGroupUnit (some sampleGroup) 3 0).AddPod sampleInfoA).1.UpdatePod sampleInfoB).1.NumPods
      = 2 ∧
    ((NewSinglePodUnit (some sampleInfoA)).UpdatePod sampleInfoB).1.Pod = some sampleInfoB ∧
    ((NewSinglePodUnit (some sampleInfoA)).UpdatePod sampleInfoB).1.GetKey = "single/ns/b" :=
  ⟨((updatePod_eq_addPod ((NewPodGroupUnit (some sampleGroup) 3 0).AddPod sampleInfoA).1
      (NewSinglePodUnit (some sampleInfoA)) sampleInfoB).2.2.1 samplePodB rfl (by decide)).2.1,
   by decide,
   ((updatePod_eq_addPod ((NewPodGroupUnit (some sampleGroup) 3 0).AddPod sampleInfoA).1
      (NewSinglePodUnit (some sampleInfoA)) sampleInfoB).2.2.2 samplePodB rfl).2.1,
   by decide⟩

/-- C39: after `ResetPods()` a unit of either variant is empty: `NumPods()` is 0,
`GetPods()` is empty and `GetPod(w)` is nil for every record `w`.  For a Group unit the
key, the priority, the group and the enqueue timestamp are unchanged, and
`ReadyToBePopulated()` holds then exactly when the group is non-nil with
`MinMember ≤ 0`. -/
theorem resetPods_empties_unit (p : PodGroupUnit) (s : SinglePodUnit) (w : QueuedPodInfo) :
    (p.ResetPods.NumPods = 0 ∧ p.ResetPods.GetPods = [] ∧ p.ResetPods.GetPod w = none) ∧
    (p.ResetPods.GetKey = p.GetKey ∧ p.ResetPods.GetPriority = p.GetPriority ∧
      p.ResetPods.podGroup = p.podGroup ∧
      p.ResetPods.GetEnqueuedTimestamp = p.GetEnqueuedTimestamp) ∧
    (p.ResetPods.ReadyToBePopulated = true ↔
      ∃ g, p.podGroup = some g ∧ g.Spec.MinMember ≤ 0) ∧
    (s.ResetPods.NumPods = 0 ∧ s.ResetPods.GetPods = [] ∧ s.ResetPods.GetPod w = .ok none) := by
  refine ⟨⟨rfl, rfl, ?_⟩, ⟨rfl, rfl, rfl, rfl⟩, ?_, ⟨rfl, rfl, ?_⟩⟩
  · cases hw : w.Pod with
    | none => simp [PodGroupUnit.GetPod, hw]
    | some v => simp [PodGroupUnit.GetPod, PodGroupUnit.ResetPods, hw]
  · cases hg : p.podGroup with
    | none => simp [PodGroupUnit.ReadyToBePopulated, PodGroupUnit.ResetPods, hg]
    | some g => simp [PodGroupUnit.ReadyToBePopulated, PodGroupUnit.ResetPods, hg]
  · cases hw : w.Pod with
    | none => simp [SinglePodUnit.GetPod, hw]
    | some v => simp [SinglePodUnit.GetPod, SinglePodUnit.ResetPods, hw]

/-- Witness of C39: the Group unit of the sample group (quorum 2) with two members is
ready, and after `ResetPods()` it is empty and no longer ready. -/
theorem resetPods_empties_unit_witness :
    ((NewPodGroupUnit (some sampleGroup) 3 0).run
      [.addPod sampleInfoA, .addPod sampleInfoB]).ReadyToBePopulated = true ∧
    ((NewPodGroupUnit (some sampleGroup) 3 0).run
      [.addPod sampleInfoA, .addPod sampleInfoB]).ResetPods.NumPods = 0 ∧
    ¬ (((NewPodGroupUnit (some sampleGroup) 3 0).run
      [.addPod sampleInfoA, .addPod sampleInfoB]).ResetPods.ReadyToBePopulated = true) :=
  ⟨by decide,
   (resetPods_empties_unit _ (NewSinglePodUnit none) sampleInfoA).1.1,
   by decide⟩

/-- C40: for a Group unit with non-nil group `g` and a count with
`0 ≤ podCount < 2^31`, `ValidatePodCount(podCount)` is true exactly when
`podCount ≥ g.Spec.MinMember`, so that `ValidatePodCount(NumPods())` is
`ReadyToBePopulated()` while `NumPods()` is below `2^31`; outside that range the
conversion to `int32` wraps (`2^31` becomes `-2^31`).  For a Single unit
`ValidatePodCount(n)` is true exactly when `n > 0`. -/
theorem validatePodCount_iff (p : PodGroupUnit) (g : PodGroup) (s : SinglePodUnit)
    (podCount n : Int) (h : p.podGroup = some g) (h0 : 0 ≤ podCount)
    (h1 : podCount < 2147483648) :
    (p.ValidatePodCount podCount = .ok true ↔ podCount ≥ g.Spec.MinMember) ∧
    p.ValidatePodCount podCount = .ok (decide (podCount ≥ g.Spec.MinMember)) ∧
    (p.NumPods < 2147483648 → p.ValidatePodCount p.NumPods = .ok p.ReadyToBePopulated) ∧
    (s.ValidatePodCount n = true ↔ n > 0) ∧
    toInt32 2147483648 = -2147483648 := by
  have hconv : ∀ x : Int, 0 ≤ x → x < 2147483648 → toInt32 x = x := by
    intro x hx0 hx1
    unfold toInt32
    omega
  have hval : p.ValidatePodCount podCount = .ok (decide (podCount ≥ g.Spec.MinMember)) := by
    simp only [PodGroupUnit.ValidatePodCount, h, hconv podCount h0 h1]
  refine ⟨?_, hval, ?_, ?_, by decide⟩
  · rw [hval]
    simp
  · intro hn
    have hn0 : 0 ≤ p.NumPods := by
      simp [PodGroupUnit.NumPods]
    simp only [PodGroupUnit.ValidatePodCount, PodGroupUnit.ReadyToBePopulated, h,
      hconv p.NumPods hn0 hn]
    rfl
  · simp [SinglePodUnit.ValidatePodCount]

/-- Witness of C40: the unit of the sample group (quorum 2) accepts the count 2 and
refuses the count 1. -/
theorem validatePodCount_iff_witness :
    (NewPodGroupUnit (some sampleGroup) 3 0).podGroup = some sampleGroup ∧
    (0 : Int) ≤ 2 ∧ (2 : Int) < 2147483648 ∧
    (NewPodGroupUnit (some sampleGroup) 3 0).ValidatePodCount 2 = .ok true ∧
    (NewPodGroupUnit (some sampleGroup) 3 0).ValidatePodCount 1 = .ok false :=
  ⟨rfl, by decide, by decide,
   (validatePodCount_iff (NewPodGroupUnit (some sampleGroup) 3 0) sampleGroup
      (NewSinglePodUnit none) 2 0 rfl (by decide) (by decide)).2.1,
   (validatePodCount_iff (NewPodGroupUnit (some sampleGroup) 3 0) sampleGroup
      (NewSinglePodUnit none) 1 0 rfl (by decide) (by decide)).2.1⟩

end Godel
